import Mathlib

/-!
OpenGL-Tutorials: a shallow embedding of the `Shader`, `Camera` and `Model` helpers.

The tutorial headers issue OpenGL, GLFW, stb_image and Assimp calls.  Those libraries are
external, so the embedding records every call as an `Event` in a chronological trace and takes
the values the libraries hand back from an environment `Env` whose answers may depend on the
whole trace so far.  Aborting (`assert(false)`) and undefined behaviour are explicit `Fault`s.

Floating point values are elements of an arbitrary carrier `F`; the loader only copies them and
the camera is read in exact arithmetic over an ordered field.
-/

namespace OpenGLTutorials

/-! ## OpenGL scalar types and constants -/

abbrev GLenum := Nat
abbrev GLuint := Nat
abbrev GLint := Int

/-- Value of `GL_FRAGMENT_SHADER` in the OpenGL registry (`glad.h` is not among the sources). -/
def GL_FRAGMENT_SHADER : GLenum := 0x8B30
/-- Value of `GL_VERTEX_SHADER` in the OpenGL registry. -/
def GL_VERTEX_SHADER : GLenum := 0x8B31
/-- Value of `GL_COMPILE_STATUS` in the OpenGL registry. -/
def GL_COMPILE_STATUS : GLenum := 0x8B81
/-- Value of `GL_LINK_STATUS` in the OpenGL registry. -/
def GL_LINK_STATUS : GLenum := 0x8B82
def GL_TEXTURE_2D : GLenum := 0x0DE1
def GL_RED : GLenum := 0x1903
def GL_RGB : GLenum := 0x1907
def GL_RGBA : GLenum := 0x1908
def GL_UNSIGNED_BYTE : GLenum := 0x1401
def GL_FLOAT : GLenum := 0x1406
def GL_REPEAT : GLint := 0x2901
def GL_LINEAR : GLint := 0x2601
def GL_LINEAR_MIPMAP_LINEAR : GLint := 0x2703
def GL_TEXTURE_WRAP_S : GLenum := 0x2802
def GL_TEXTURE_WRAP_T : GLenum := 0x2803
def GL_TEXTURE_MIN_FILTER : GLenum := 0x2801
def GL_TEXTURE_MAG_FILTER : GLenum := 0x2800
def GL_ARRAY_BUFFER : GLenum := 0x8892
def GL_ELEMENT_ARRAY_BUFFER : GLenum := 0x8893
def GL_STATIC_DRAW : GLenum := 0x88E4
def GL_TEXTURE0 : GLenum := 0x84C0
def GL_TRIANGLES : GLenum := 0x0004
def GL_UNSIGNED_INT : GLenum := 0x1405
def GL_COLOR_BUFFER_BIT : Nat := 0x4000
def GL_DEPTH_BUFFER_BIT : Nat := 0x100

/-- Conversion of an unsigned 32-bit value to `int` (two's complement). -/
def toInt32 (n : Nat) : Int :=
  if n % 2 ^ 32 < 2 ^ 31 then ((n % 2 ^ 32 : Nat) : Int) else ((n % 2 ^ 32 : Nat) : Int) - 2 ^ 32

/-- Conversion of an `int` to an unsigned 32-bit value. -/
def toUInt32 (i : Int) : Nat := (i % 2 ^ 32).toNat

/-! ## Vectors and the vertex layout -/

structure Vec2 (F : Type) where
  x : F
  y : F
deriving DecidableEq, Repr

structure Vec3 (F : Type) where
  x : F
  y : F
  z : F
deriving DecidableEq, Repr

structure Vec4 (F : Type) where
  x : F
  y : F
  z : F
  w : F
deriving DecidableEq, Repr

/-- A `glm::mat4`, as its four columns. -/
structure Mat4 (F : Type) where
  c0 : Vec4 F
  c1 : Vec4 F
  c2 : Vec4 F
  c3 : Vec4 F
deriving DecidableEq, Repr

/-- The struct `Vertex` of modelLoadingTutorial-01.h.  `Vertex vertex;` leaves every member
indeterminate; a member that `processMesh` never assigns is `none`. -/
structure Vertex (F : Type) where
  position : Vec3 F
  normal : Option (Vec3 F)
  TexCoords : Vec2 F
  Tangent : Option (Vec3 F)
  BitTangent : Option (Vec3 F)
deriving DecidableEq, Repr

/-- The struct `Vertex` of ModelTest.h: position, normal and texture coordinate only. -/
structure ModelTest.Vertex (F : Type) where
  position : Vec3 F
  normal : Option (Vec3 F)
  TexCoords : Vec2 F
deriving DecidableEq, Repr

/-- Size in bytes of `Vertex`: fourteen 4-byte floats. -/
def sizeofVertex : Nat := 56
/-- Byte offset `offsetof(Vertex, normal)`. -/
def offsetofNormal : Nat := 12
/-- Byte offset `offsetof(Vertex, TexCoords)`. -/
def offsetofTexCoords : Nat := 24

structure Texture where
  id : GLuint
  type : String
  path : String
deriving DecidableEq, Repr

/-- Result of `stbi_load` when it does not return a null pointer. -/
structure Image where
  w : Int
  h : Int
  channels : Int
deriving DecidableEq, Repr

/-! ## The trace of external calls -/

/-- One call into OpenGL / stb_image, or one chunk of text written to standard output.  Values
the library hands back are recorded in the event (`ret`, `out`). -/
inductive Event (F : Type) where
  | glCreateProgram (ret : GLuint)
  | glCreateShader (type : GLenum) (ret : GLuint)
  | glShaderSource (shader : GLuint) (count : Nat) (source : String)
  | glCompileShader (shader : GLuint)
  | glGetShaderiv (shader : GLuint) (pname : GLenum) (out : GLint)
  | glGetShaderInfoLog (shader : GLuint) (bufSize : Nat) (out : String)
  | glAttachShader (program : GLuint) (shader : GLuint)
  | glLinkProgram (program : GLuint)
  | glDeleteShader (shader : GLuint)
  | glGetProgramiv (program : GLuint) (pname : GLenum) (out : GLint)
  | glGetProgramInfoLog (program : GLuint) (bufSize : Nat) (out : String)
  | glUseProgram (program : GLuint)
  | stdout (text : String)
  | glGenTextures (n : Nat) (ret : GLuint)
  | stbi_load (filename : String) (ret : Option Image)
  | glBindTexture (target : GLenum) (texture : GLuint)
  | glTexImage2D (target : GLenum) (level : Int) (internalformat : Option GLenum) (w : Int)
      (h : Int) (border : Int) (format : Option GLenum) (type : GLenum)
  | glGenerateMipmap (target : GLenum)
  | glTexParameteri (target : GLenum) (pname : GLenum) (param : GLint)
  | stbi_image_free
  | glGenVertexArrays (n : Nat) (ret : GLuint)
  | glGenBuffers (n : Nat) (ret : GLuint)
  | glBindVertexArray (array : GLuint)
  | glBindBuffer (target : GLenum) (buffer : GLuint)
  | glBufferDataVertices (target : GLenum) (size : Nat) (data : List (Vertex F)) (usage : GLenum)
  | glBufferDataIndices (target : GLenum) (size : Nat) (data : List Nat) (usage : GLenum)
  | glEnableVertexAttribArray (index : Nat)
  | glVertexAttribPointer (index : Nat) (size : Nat) (type : GLenum) (normalized : Bool)
      (stride : Nat) (pointer : Nat)
  | glActiveTexture (texture : GLenum)
  | glGetUniformLocation (program : GLuint) (name : String) (ret : GLint)
  | glUniform1i (location : GLint) (v0 : GLint)
  | glDrawElements (mode : GLenum) (count : Int) (type : GLenum) (indices : Nat)
  | glBufferDataTestVertices (target : GLenum) (size : Nat) (data : List (ModelTest.Vertex F))
      (usage : GLenum)
  | glClearColor (red : F) (green : F) (blue : F) (alpha : F)
  | glClear (mask : Nat)
  | glUniformMatrix4fv (location : GLint) (count : Nat) (transpose : Bool) (value : Mat4 F)
  | glDrawArrays (mode : GLenum) (first : Int) (count : Int)
  | glfwSwapBuffers
  | glfwPollEvents
deriving DecidableEq, Repr

abbrev Trace (F : Type) := List (Event F)

inductive Fault where
  /-- The statement `assert(false)` was reached in a build without `NDEBUG`. -/
  | assertFailed
  /-- A null pointer was dereferenced, an array was indexed out of bounds or an indeterminate
  value was read. -/
  | undefinedBehaviour
deriving DecidableEq, Repr

/-- Outcome of running a piece of the program from some trace: a value together with the
extended trace, or a fault together with the trace up to it. -/
inductive Res (F : Type) (α : Type) where
  | ok (val : α) (trace : Trace F)
  | fault (f : Fault) (trace : Trace F)
deriving DecidableEq, Repr

/-- Sequencing: run `k` on the value and trace of a successful outcome. -/
def Res.andThen {F α β : Type} (r : Res F α) (k : α → Trace F → Res F β) : Res F β :=
  match r with
  | .ok a t => k a t
  | .fault f t => .fault f t

/-! ## The environment -/

structure File where
  content : String
  readable : Bool
  writable : Bool
deriving DecidableEq, Repr

/-- Everything the program takes from outside.  Library answers are functions of the trace so
far, so successive calls may answer differently. -/
structure Env (F : Type) where
  /-- Whether the translation unit is compiled with `NDEBUG` (then `assert` expands to nothing). -/
  NDEBUG : Bool
  /-- The files by path. -/
  fs : String → Option File
  /-- Whether a file that does not exist can be created at the path. -/
  creatable : String → Bool
  /-- Whether a stream opened in an append mode starts with its position at the end of the file
  (implementation-defined in C; the start with glibc, the end with the BSD C libraries). -/
  appendOpensAtEnd : Bool
  /-- Whether `std::unordered_map` iterates a newly inserted key before the older ones. -/
  hashFront : Bool
  glCreateProgram : Trace F → GLuint
  glCreateShader : Trace F → GLenum → GLuint
  /-- The value `glGetShaderiv(shader, GL_COMPILE_STATUS, _)` stores. -/
  compileStatus : Trace F → GLuint → GLint
  shaderInfoLog : Trace F → GLuint → String
  /-- The value `glGetProgramiv(program, GL_LINK_STATUS, _)` would store. -/
  linkStatus : Trace F → GLuint → GLint
  programInfoLog : Trace F → GLuint → String
  /-- The name generated by `glGenTextures`, `glGenVertexArrays`, `glGenBuffers`. -/
  glGen : Trace F → GLuint
  stbi_load : Trace F → String → Option Image
  /-- The location `glGetUniformLocation(program, name)` returns (-1 when there is none). -/
  glGetUniformLocation : Trace F → GLuint → String → GLint := fun _ _ _ => -1

/-! ## Files and streams -/

/-- The `std::ios_base::openmode` bits. -/
structure OpenMode where
  app : Bool := false
  binary : Bool := false
  input : Bool := false
  output : Bool := false
  trunc : Bool := false
  ate : Bool := false
deriving DecidableEq, Repr

/-- The `fopen` mode string `basic_filebuf::open` uses for an open mode (table "File open
modes" of the C++ standard, without the `b` suffix); `none` when the combination is invalid and
the open fails. -/
def stdioMode (m : OpenMode) : Option String :=
  match m.input, m.output, m.trunc, m.app with
  | false, true, false, false => some "w"
  | false, true, false, true => some "a"
  | false, false, false, true => some "a"
  | false, true, true, false => some "w"
  | true, false, false, false => some "r"
  | true, true, false, false => some "r+"
  | true, true, true, false => some "w+"
  | true, true, false, true => some "a+"
  | true, false, false, true => some "a+"
  | _, _, _, _ => none

/-- What a freshly opened stream delivers when read to the end, `none` when the open fails.
`"r"` needs an existing readable file.  `"r+"` needs it writable as well.  `"w+"` truncates.
`"a+"` opens for reading and appending: an existing file must be readable and writable, a
missing one is created empty, and the read position starts where the C library puts it. -/
def fopenRead {F : Type} (env : Env F) (path : String) (mode : String) : Option String :=
  if mode = "r" then
    match env.fs path with
    | some f => if f.readable then some f.content else none
    | none => none
  else if mode = "r+" then
    match env.fs path with
    | some f => if f.readable && f.writable then some f.content else none
    | none => none
  else if mode = "w+" then
    match env.fs path with
    | some f => if f.readable && f.writable then some "" else none
    | none => if env.creatable path then some "" else none
  else if mode = "a+" then
    match env.fs path with
    | some f =>
      if f.readable && f.writable then
        (if env.appendOpensAtEnd then some "" else some f.content)
      else none
    | none => if env.creatable path then some "" else none
  else none

/-- Constructor `std::ifstream(path, mode)`: opens with `mode | ios_base::in`.  The result is
what `ss << stream.rdbuf()` will copy, or `none` when the stream is in a failed state. -/
def ifstream {F : Type} (env : Env F) (path : String) (mode : OpenMode) : Option String :=
  match stdioMode { mode with input := true } with
  | some s => fopenRead env path s
  | none => none

/-! ## `std::unordered_map` -/

abbrev unordered_map (K V : Type) := List (K × V)

/-- Statement `m[k] = v`: overwrite the mapped value of an existing key, otherwise insert the
key, before or after the existing entries in iteration order. -/
def unordered_map.assign {K V : Type} [DecidableEq K] (front : Bool) (m : unordered_map K V)
    (k : K) (v : V) : unordered_map K V :=
  if m.any (fun p => decide (p.1 = k)) then m.map (fun p => if p.1 = k then (k, v) else p)
  else if front then (k, v) :: m else m ++ [(k, v)]

def unordered_map.find {K V : Type} [DecidableEq K] (m : unordered_map K V) (k : K) : Option V :=
  (List.find? (fun p => decide (p.1 = k)) m).map Prod.snd

/-! ## struct Shader (example13-cameraClass.h) -/

structure Shader where
  programID : GLuint
deriving DecidableEq, Repr

/-- The statement `assert(false)`. -/
def assertFalse {F : Type} (env : Env F) (t : Trace F) : Res F Unit :=
  if env.NDEBUG then .ok () t else .fault .assertFailed t

/-- Method `Shader::ParseShader(vertex, fragment)`. -/
def Shader.ParseShader {F : Type} (env : Env F) (t : Trace F) (vertex fragment : String) :
    Res F (unordered_map GLenum String) :=
  let sources : unordered_map GLenum String := []
  let vertexIns := ifstream env vertex { binary := true, app := true }
  let fragmentIns := ifstream env fragment { binary := true, app := true }
  (if vertexIns.isNone then
      assertFalse env (t ++ [.stdout "Could not load vertex shader source!\n"])
    else .ok () t).andThen fun _ t =>
  (if fragmentIns.isNone then
      assertFalse env (t ++ [.stdout "Could not load fragment shader source!\n"])
    else .ok () t).andThen fun _ t =>
  let vertexSS := vertexIns.getD ""
  let fragmentSS := fragmentIns.getD ""
  let sources := sources.assign env.hashFront GL_VERTEX_SHADER vertexSS
  let sources := sources.assign env.hashFront GL_FRAGMENT_SHADER fragmentSS
  .ok sources t

/-- The characters `glGetShaderInfoLog(_, bufSize, nullptr, infoLog)` leaves in the buffer
before the terminator. -/
def truncateLog (bufSize : Nat) (log : String) : String := ⟨log.data.take (bufSize - 1)⟩

/-- Body of the loop `for(auto[key, value] : sources)` of `Shader::CompileShaders`; returns the
new shader id. -/
def Shader.compileStage {F : Type} (env : Env F) (t : Trace F) (key : GLenum) (value : String) :
    GLuint × Trace F :=
  let type := key
  let shader := value
  let shaderID := env.glCreateShader t type % 2 ^ 32
  let t := t ++ [.glCreateShader type shaderID]
  let t := t ++ [.glShaderSource shaderID 1 shader]
  let t := t ++ [.glCompileShader shaderID]
  let success := env.compileStatus t shaderID
  let t := t ++ [.glGetShaderiv shaderID GL_COMPILE_STATUS success]
  if success = 0 then
    let infoLog := truncateLog 512 (env.shaderInfoLog t shaderID)
    let t := t ++ [.glGetShaderInfoLog shaderID 512 infoLog]
    let t := t ++ [.stdout "Errored our on shader compilation!\n"]
    let t := t ++ [.stdout ("[INFO LOG] ------> " ++ infoLog ++ "\n")]
    (shaderID, t)
  else (shaderID, t)

/-- The loop `for(auto[key, value] : sources)` writing `shaderIDs[index++] = shaderID`.
`shaderIDs` is a `std::array<int, 2>` whose elements start indeterminate (`none`); a write past
its end is undefined behaviour. -/
def Shader.compileLoop {F : Type} (env : Env F) :
    List (GLenum × String) → Nat → List (Option Int) → Trace F → Res F (List (Option Int))
  | [], _, shaderIDs, t => .ok shaderIDs t
  | (key, value) :: rest, index, shaderIDs, t =>
    let r := Shader.compileStage env t key value
    if index < shaderIDs.length then
      Shader.compileLoop env rest (index + 1) (shaderIDs.set index (some (toInt32 r.1))) r.2
    else .fault .undefinedBehaviour r.2

/-- A loop `for(auto id : shaderIDs) call(id)`: reading an indeterminate element is undefined
behaviour. -/
def Shader.forEachID {F : Type} (call : GLuint → Event F) :
    List (Option Int) → Trace F → Res F Unit
  | [], t => .ok () t
  | some id :: rest, t => Shader.forEachID call rest (t ++ [call (toUInt32 id)])
  | none :: _, t => .fault .undefinedBehaviour t

/-- Method `Shader::CompileShaders(sources)`; `sources` is given in iteration order. -/
def Shader.CompileShaders {F : Type} (env : Env F) (t : Trace F)
    (sources : unordered_map GLenum String) : Res F Shader :=
  let shaderIDs : List (Option Int) := [none, none]
  let programID := env.glCreateProgram t % 2 ^ 32
  let t := t ++ [.glCreateProgram programID]
  (Shader.compileLoop env sources 0 shaderIDs t).andThen fun shaderIDs t =>
  (Shader.forEachID (fun id => .glAttachShader programID id) shaderIDs t).andThen fun _ t =>
  let t := t ++ [.glLinkProgram programID]
  (Shader.forEachID (fun id => .glDeleteShader id) shaderIDs t).andThen fun _ t =>
  .ok { programID := programID } t

/-- Constructor `Shader::Shader(vertex, fragment)`. -/
def Shader.new {F : Type} (env : Env F) (t : Trace F) (vertex fragment : String) : Res F Shader :=
  (Shader.ParseShader env t vertex fragment).andThen fun sources t =>
  Shader.CompileShaders env t sources

/-! ## glm and struct Camera (example13-cameraClass.h) -/

/-- The functions of `<cmath>` the camera uses. -/
structure MathFns (F : Type) where
  sqrt : F → F
  cos : F → F
  sin : F → F

section glm
variable {F : Type} [Field F]

/-- Operator `glm::vec3 + glm::vec3`. -/
def Vec3.add (a b : Vec3 F) : Vec3 F := ⟨a.x + b.x, a.y + b.y, a.z + b.z⟩
/-- Operator `glm::vec3 - glm::vec3`. -/
def Vec3.sub (a b : Vec3 F) : Vec3 F := ⟨a.x - b.x, a.y - b.y, a.z - b.z⟩
/-- Operator `float * glm::vec3`. -/
def Vec3.smul (s : F) (v : Vec3 F) : Vec3 F := ⟨s * v.x, s * v.y, s * v.z⟩
/-- Operator `glm::vec3 * float`. -/
def Vec3.muls (v : Vec3 F) (s : F) : Vec3 F := ⟨v.x * s, v.y * s, v.z * s⟩

/-- Function `glm::cross`. -/
def glm.cross (x y : Vec3 F) : Vec3 F :=
  ⟨x.y * y.z - y.y * x.z, x.z * y.x - y.z * x.x, x.x * y.y - y.x * x.y⟩

/-- Function `glm::dot`. -/
def glm.dot (a b : Vec3 F) : F := a.x * b.x + a.y * b.y + a.z * b.z

/-- Function `glm::inversesqrt`. -/
def glm.inversesqrt (fns : MathFns F) (x : F) : F := 1 / fns.sqrt x

/-- Function `glm::normalize`: the vector times the inverse square root of its squared length. -/
def glm.normalize (fns : MathFns F) (v : Vec3 F) : Vec3 F :=
  Vec3.muls v (glm.inversesqrt fns (glm.dot v v))

/-- Function `glm::radians`: degrees times the constant glm uses for pi / 180. -/
def glm.radians (degrees : F) : F :=
  degrees * (1745329251994329576923690768489 / 100000000000000000000000000000000)

end glm

def GLFW_PRESS : Int := 1
def GLFW_KEY_A : Int := 65
def GLFW_KEY_D : Int := 68
def GLFW_KEY_S : Int := 83
def GLFW_KEY_W : Int := 87

/-- The part of a `GLFWwindow` the camera reads: the last reported state of every key. -/
structure GLFWwindow where
  glfwGetKey : Int → Int

/-- The struct `Camera` of example13-cameraClass.h, without its two cached matrices `view` and
`projection`, which none of `OnUpdate`, `MouseOnUpdate`, `MouseOnScrollback` reads or writes. -/
structure Camera (F : Type) where
  yaw : F
  pitch : F
  lastX : F
  lastY : F
  fov : F
  firstMouse : Bool
  cameraPos : Vec3 F
  cameraFront : Vec3 F
  cameraUp : Vec3 F
deriving DecidableEq, Repr

section camera
variable {F : Type} [LinearOrderedField F]

/-- Member `const float cameraSpeed = 0.05f`. -/
def Camera.cameraSpeed : F := 5 / 100

/-- The default member initialisers of `Camera`. -/
def Camera.init : Camera F where
  yaw := -90
  pitch := 0
  lastX := 800 / 2
  lastY := 600 / 2
  fov := 45
  firstMouse := true
  cameraPos := ⟨0, 0, 3⟩
  cameraFront := ⟨0, 0, -1⟩
  cameraUp := ⟨0, 1, 0⟩

/-- Method `Camera::OnUpdate(window)`. -/
def Camera.OnUpdate (fns : MathFns F) (self : Camera F) (window : GLFWwindow) : Camera F :=
  if window.glfwGetKey GLFW_KEY_W = GLFW_PRESS then
    { self with cameraPos := self.cameraPos.add (Vec3.smul Camera.cameraSpeed self.cameraFront) }
  else if window.glfwGetKey GLFW_KEY_S = GLFW_PRESS then
    { self with cameraPos := self.cameraPos.sub (Vec3.smul Camera.cameraSpeed self.cameraFront) }
  else if window.glfwGetKey GLFW_KEY_A = GLFW_PRESS then
    { self with
      cameraPos :=
        self.cameraPos.sub
          (Vec3.muls (glm.normalize fns (glm.cross self.cameraFront self.cameraUp))
            Camera.cameraSpeed) }
  else if window.glfwGetKey GLFW_KEY_D = GLFW_PRESS then
    { self with
      cameraPos :=
        self.cameraPos.add
          (Vec3.muls (glm.normalize fns (glm.cross self.cameraFront self.cameraUp))
            Camera.cameraSpeed) }
  else self

/-- Method `Camera::MouseOnUpdate(xPosIn, yPosIn)`; the conversions from `double` to `float`
are exact in exact arithmetic. -/
def Camera.MouseOnUpdate (fns : MathFns F) (self : Camera F) (xPosIn yPosIn : F) : Camera F :=
  let xpos := xPosIn
  let ypos := yPosIn
  let self :=
    if self.firstMouse then { self with lastX := xpos, lastY := ypos, firstMouse := false }
    else self
  let xOffset := xpos - self.lastX
  let yOffset := self.lastY - ypos
  let self := { self with lastX := xpos, lastY := ypos }
  let sensitivity : F := 1 / 10
  let xOffset := xOffset * sensitivity
  let yOffset := yOffset * sensitivity
  let self := { self with yaw := self.yaw + xOffset, pitch := self.pitch + yOffset }
  let self := if self.pitch > 89 then { self with pitch := 89 } else self
  let self := if self.pitch < -89 then { self with pitch := -89 } else self
  let direction : Vec3 F :=
    ⟨fns.cos (glm.radians self.yaw) * fns.cos (glm.radians self.pitch),
     fns.sin (glm.radians self.pitch),
     fns.sin (glm.radians self.yaw) * fns.cos (glm.radians self.pitch)⟩
  { self with cameraFront := glm.normalize fns direction }

/-- Method `Camera::MouseOnScrollback(xOffset, yOffset)`. -/
def Camera.MouseOnScrollback (self : Camera F) (_xOffset yOffset : F) : Camera F :=
  let self := { self with fov := yOffset }
  let self := if self.fov < 1 then { self with fov := 1 } else self
  if self.fov > 45 then { self with fov := 45 } else self

end camera

/-! ## Assimp data (modelLoadingTutorial-01.h) -/

inductive aiTextureType where
  | NONE
  | DIFFUSE
  | SPECULAR
  | AMBIENT
  | EMISSIVE
  | HEIGHT
  | NORMALS
  | SHININESS
  | OPACITY
  | DISPLACEMENT
  | LIGHTMAP
  | REFLECTION
  | UNKNOWN
deriving DecidableEq, Repr

/-- An `aiString`, as the characters of its buffer. -/
abbrev aiString := String

/-- The C string a character pointer designates: the characters before the first NUL.  This
is `aiString::C_Str()` on an `aiString` and `std::string::data()` on a `std::string`. -/
def C_Str (s : String) : String := ⟨s.data.takeWhile (fun c => decide (c ≠ Char.ofNat 0))⟩

/-- Test `std::strcmp(a, b) == 0` on two character pointers. -/
def strcmpEq (a b : String) : Bool := decide (C_Str a = C_Str b)

/-- An `aiMaterial`, as its texture slots in order. -/
structure aiMaterial where
  textures : List (aiTextureType × aiString)
deriving DecidableEq, Repr

/-- The paths `GetTexture(type, i, &str)` yields for `i` below `GetTextureCount(type)`. -/
def aiMaterial.texturesOf (mat : aiMaterial) (type : aiTextureType) : List aiString :=
  (mat.textures.filter (fun p => decide (p.1 = type))).map Prod.snd

def aiMaterial.GetTextureCount (mat : aiMaterial) (type : aiTextureType) : Nat :=
  (mat.texturesOf type).length

/-- An `aiFace`: the array `mIndices` of `mNumIndices` elements. -/
structure aiFace where
  mIndices : List Nat
deriving DecidableEq, Repr

def aiFace.mNumIndices (face : aiFace) : Nat := face.mIndices.length

/-- An `aiMesh`.  A per-vertex array is a pointer that is null (`none`) or designates
`mNumVertices` elements, given as the function from index to element.  `mVertices` is never
null.  `mTextureCoords0` is `mTextureCoords[0]`; `mFaces` is the array of `mNumFaces` faces. -/
structure aiMesh (F : Type) where
  mNumVertices : Nat
  mVertices : Nat → Vec3 F
  mNormals : Option (Nat → Vec3 F)
  mTextureCoords0 : Option (Nat → Vec3 F)
  mTangents : Option (Nat → Vec3 F)
  mBitangents : Option (Nat → Vec3 F)
  mFaces : List aiFace
  mMaterialIndex : Nat

def aiMesh.mNumFaces {F : Type} (mesh : aiMesh F) : Nat := mesh.mFaces.length

/-- Method `aiMesh::HasNormals()` of Assimp: `mNormals != nullptr && mNumVertices > 0`. -/
def aiMesh.HasNormals {F : Type} (mesh : aiMesh F) : Bool :=
  mesh.mNormals.isSome && decide (mesh.mNumVertices > 0)

/-- An `aiNode`: the array `mMeshes` of `mNumMeshes` indices into the scene's meshes and the
array `mChildren` of `mNumChildren` child nodes. -/
inductive aiNode where
  | mk (mMeshes : List Nat) (mChildren : List aiNode)

def aiNode.mMeshes : aiNode → List Nat
  | .mk mMeshes _ => mMeshes

def aiNode.mChildren : aiNode → List aiNode
  | .mk _ mChildren => mChildren

def aiNode.mNumMeshes (node : aiNode) : Nat := node.mMeshes.length

def aiNode.mNumChildren (node : aiNode) : Nat := node.mChildren.length

/-- The parts of an `aiScene` the loader reads after the import. -/
structure aiScene (F : Type) where
  mMeshes : List (aiMesh F)
  mMaterials : List aiMaterial

/-! ## Texture loading, class Mesh and class Model (modelLoadingTutorial-01.h) -/

/-- Function `LoadTextureFromFileAsset(file, dir)`. -/
def LoadTextureFromFileAsset {F : Type} (env : Env F) (t : Trace F) (file : String)
    (dir : String) : Res F GLuint :=
  let filename := dir ++ "/" ++ file
  let textureID := env.glGen t % 2 ^ 32
  let t := t ++ [.glGenTextures 1 textureID]
  let data := env.stbi_load t filename
  let t := t ++ [.stbi_load filename data]
  match data with
  | none =>
    let t := t ++ [.stdout ("Could not load imaged texture ====> " ++ filename ++ "\n")]
    (assertFalse env t).andThen fun _ t => .ok 0 t
  | some img =>
    let TextureType := GL_TEXTURE_2D
    let format : Option GLenum :=
      if img.channels = 1 then some GL_RED
      else if img.channels = 4 then some GL_RGBA
      else if img.channels = 3 then some GL_RGB
      else none
    let t := t ++ [.glBindTexture TextureType textureID]
    let t := t ++ [.glTexImage2D TextureType 0 format img.w img.h 0 format GL_UNSIGNED_BYTE]
    let t := t ++ [.glGenerateMipmap TextureType]
    let t := t ++ [.glTexParameteri TextureType GL_TEXTURE_WRAP_S GL_REPEAT]
    let t := t ++ [.glTexParameteri TextureType GL_TEXTURE_WRAP_T GL_REPEAT]
    let t := t ++ [.glTexParameteri TextureType GL_TEXTURE_MIN_FILTER GL_LINEAR_MIPMAP_LINEAR]
    let t := t ++ [.glTexParameteri TextureType GL_TEXTURE_MAG_FILTER GL_LINEAR]
    let t := t ++ [.stbi_image_free]
    .ok textureID t

structure Mesh (F : Type) where
  vertices : List (Vertex F)
  indices : List Nat
  textures : List Texture
  vao : GLuint
  vbo : GLuint
  ibo : GLuint
deriving DecidableEq, Repr

/-- Method `Mesh::SetupMesh()`, run on a mesh whose three lists are set; returns the mesh with
its `vao`, `vbo`, `ibo`. -/
def Mesh.SetupMesh {F : Type} (env : Env F) (t : Trace F) (vertices : List (Vertex F))
    (indices : List Nat) (textures : List Texture) : Mesh F × Trace F :=
  let vao := env.glGen t % 2 ^ 32
  let t := t ++ [.glGenVertexArrays 1 vao]
  let vbo := env.glGen t % 2 ^ 32
  let t := t ++ [.glGenBuffers 1 vbo]
  let ibo := env.glGen t % 2 ^ 32
  let t := t ++ [.glGenBuffers 1 ibo]
  let t := t ++ [.glBindVertexArray vao]
  let t := t ++ [.glBindBuffer GL_ARRAY_BUFFER vbo]
  let t := t ++ [.glBufferDataVertices GL_ARRAY_BUFFER (vertices.length * sizeofVertex) vertices
    GL_STATIC_DRAW]
  let t := t ++ [.glBindBuffer GL_ELEMENT_ARRAY_BUFFER ibo]
  let t := t ++ [.glBufferDataIndices GL_ELEMENT_ARRAY_BUFFER (indices.length * 4) indices
    GL_STATIC_DRAW]
  let t := t ++ [.glEnableVertexAttribArray 0]
  let t := t ++ [.glVertexAttribPointer 1 3 GL_FLOAT false sizeofVertex 0]
  let t := t ++ [.glEnableVertexAttribArray 1]
  let t := t ++ [.glVertexAttribPointer 1 3 GL_FLOAT false sizeofVertex offsetofNormal]
  let t := t ++ [.glEnableVertexAttribArray 2]
  let t := t ++ [.glVertexAttribPointer 2 2 GL_FLOAT false sizeofVertex offsetofTexCoords]
  let t := t ++ [.glBindVertexArray 0]
  ({ vertices := vertices, indices := indices, textures := textures,
     vao := vao, vbo := vbo, ibo := ibo }, t)

/-- Constructor `Mesh::Mesh(vertices, indices, textures)`. -/
def Mesh.new {F : Type} (env : Env F) (t : Trace F) (vertices : List (Vertex F))
    (indices : List Nat) (textures : List Texture) : Mesh F × Trace F :=
  Mesh.SetupMesh env t vertices indices textures

structure Model (F : Type) where
  textures_loaded : List Texture
  meshes : List (Mesh F)
  directory : String
  gammaCorrection : Bool
deriving DecidableEq, Repr

/-- The loop over `i` of `Model::loadMaterialTextures`, on the paths still to handle. -/
def Model.loadMaterialTexturesLoop {F : Type} (env : Env F) (typeName : String) :
    List aiString → List Texture → Model F → Trace F → Res F (List Texture × Model F)
  | [], textures, self, t => .ok (textures, self) t
  | str :: rest, textures, self, t =>
    match self.textures_loaded.find? (fun loaded => strcmpEq loaded.path str) with
    | some loaded =>
      Model.loadMaterialTexturesLoop env typeName rest (textures ++ [loaded]) self t
    | none =>
      (LoadTextureFromFileAsset env t (C_Str str) self.directory).andThen fun id t =>
      let texture : Texture := { id := id, type := typeName, path := C_Str str }
      Model.loadMaterialTexturesLoop env typeName rest (textures ++ [texture])
        { self with textures_loaded := self.textures_loaded ++ [texture] } t

/-- Method `Model::loadMaterialTextures(mat, type, typeName)`. -/
def Model.loadMaterialTextures {F : Type} (env : Env F) (self : Model F) (t : Trace F)
    (mat : aiMaterial) (type : aiTextureType) (typeName : String) :
    Res F (List Texture × Model F) :=
  Model.loadMaterialTexturesLoop env typeName (mat.texturesOf type) [] self t

/-- One iteration of the vertex loop of `Model::processMesh`: the vertex built for index `i`,
or `none` when a null array is dereferenced. -/
def Model.processVertex {F : Type} [Zero F] (mesh : aiMesh F) (i : Nat) : Option (Vertex F) :=
  let position := mesh.mVertices i
  let normal : Option (Vec3 F) :=
    if mesh.HasNormals then mesh.mNormals.map (fun mNormals => mNormals i) else none
  match mesh.mTextureCoords0 with
  | some uv =>
    let vec : Vec2 F := ⟨(uv i).x, (uv i).y⟩
    match mesh.mTangents with
    | none => none
    | some mTangents =>
      match mesh.mBitangents with
      | none => none
      | some mBitangents =>
        some { position := position, normal := normal, TexCoords := vec,
               Tangent := some (mTangents i), BitTangent := some (mBitangents i) }
  | none =>
    some { position := position, normal := normal, TexCoords := ⟨0, 0⟩,
           Tangent := none, BitTangent := none }

/-- The loop `for (i = 0; i < mesh->mNumVertices; i++)` with `remaining` iterations left. -/
def Model.vertexLoop {F : Type} [Zero F] (mesh : aiMesh F) :
    (remaining : Nat) → (i : Nat) → List (Vertex F) → Option (List (Vertex F))
  | 0, _, vertices => some vertices
  | remaining + 1, i, vertices =>
    match Model.processVertex mesh i with
    | some vertex => Model.vertexLoop mesh remaining (i + 1) (vertices ++ [vertex])
    | none => none

/-- The two nested loops of `Model::processMesh` over faces and their indices. -/
def Model.indexLoop (mFaces : List aiFace) : List Nat :=
  mFaces.foldl (fun indices face => face.mIndices.foldl (fun indices j => indices ++ [j]) indices)
    []

/-- Method `Model::processMesh(mesh, scene)`. -/
def Model.processMesh {F : Type} [Zero F] (env : Env F) (self : Model F) (t : Trace F)
    (mesh : aiMesh F) (scene : aiScene F) : Res F (Mesh F × Model F) :=
  match Model.vertexLoop mesh mesh.mNumVertices 0 [] with
  | none => .fault .undefinedBehaviour t
  | some vertices =>
    let indices := Model.indexLoop mesh.mFaces
    match scene.mMaterials[mesh.mMaterialIndex]? with
    | none => .fault .undefinedBehaviour t
    | some material =>
      let textures : List Texture := []
      (Model.loadMaterialTextures env self t material .DIFFUSE "texture_diffuse").andThen
        fun r t =>
      let textures := textures ++ r.1
      (Model.loadMaterialTextures env r.2 t material .SPECULAR "texture_specular").andThen
        fun r t =>
      let textures := textures ++ r.1
      (Model.loadMaterialTextures env r.2 t material .HEIGHT "texture_normal").andThen
        fun r t =>
      let textures := textures ++ r.1
      (Model.loadMaterialTextures env r.2 t material .AMBIENT "texture_height").andThen
        fun r t =>
      let textures := textures ++ r.1
      let m := Mesh.new env t vertices indices textures
      .ok (m.1, r.2) m.2

/-- The loop of `Model::processNode` over the node's own meshes. -/
def Model.processNodeMeshes {F : Type} [Zero F] (env : Env F) (scene : aiScene F) :
    List Nat → Model F → Trace F → Res F (Model F)
  | [], self, t => .ok self t
  | idx :: rest, self, t =>
    match scene.mMeshes[idx]? with
    | none => .fault .undefinedBehaviour t
    | some mesh =>
      (Model.processMesh env self t mesh scene).andThen fun r t =>
      Model.processNodeMeshes env scene rest { r.2 with meshes := r.2.meshes ++ [r.1] } t

mutual
/-- Method `Model::processNode(node, scene)`. -/
def Model.processNode {F : Type} [Zero F] (env : Env F) (scene : aiScene F) :
    aiNode → Model F → Trace F → Res F (Model F)
  | .mk mMeshes mChildren, self, t =>
    (Model.processNodeMeshes env scene mMeshes self t).andThen fun self t =>
    Model.processChildren env scene mChildren self t
/-- The loop of `Model::processNode` over the node's children. -/
def Model.processChildren {F : Type} [Zero F] (env : Env F) (scene : aiScene F) :
    List aiNode → Model F → Trace F → Res F (Model F)
  | [], self, t => .ok self t
  | child :: rest, self, t =>
    (Model.processNode env scene child self t).andThen fun self t =>
    Model.processChildren env scene rest self t
end

/-! ## Drawing and model import (modelLoadingTutorial-01.h) -/

/-- Method `Shader::Get(name)`: the location `glGetUniformLocation` returns for the C string of
`name`, converted to the return type `uint32_t`. -/
def Shader.Get {F : Type} (env : Env F) (self : Shader) (t : Trace F) (name : String) :
    Nat × Trace F :=
  let ret := env.glGetUniformLocation t self.programID (C_Str name)
  (toUInt32 ret, t ++ [.glGetUniformLocation self.programID (C_Str name) ret])

/-- Overload `Shader::Set(name, int value)`; the `uint32_t` location is converted back to
`GLint` for `glUniform1i`. -/
def Shader.Set {F : Type} (env : Env F) (self : Shader) (t : Trace F) (name : String)
    (value : Int) : Trace F :=
  let r := Shader.Get env self t name
  let location := r.1
  r.2 ++ [.glUniform1i (toInt32 location) value]

/-- The loop of `Mesh::Draw` over the textures still to handle, with the 32-bit counters `i`,
`diffuseIDs` and `specularIDs`.  The recursion over the list is the loop as long as the list
has fewer than 2 ^ 32 entries.  `shader.Set(foo.c_str(), (int)i)` builds its `std::string`
argument from the C string of `foo`. -/
def Mesh.drawLoop {F : Type} (env : Env F) (shader : Shader) :
    List Texture → (i diffuseIDs specularIDs : Nat) → Trace F → Trace F
  | [], _, _, _, t => t
  | texture :: rest, i, diffuseIDs, specularIDs, t =>
    let t := t ++ [.glActiveTexture ((GL_TEXTURE0 + i) % 2 ^ 32)]
    let name := texture.type
    if name = "texture_diffuse" then
      let number := toString diffuseIDs
      let foo := "material." ++ name ++ number
      let t := Shader.Set env shader t (C_Str foo) (toInt32 i)
      let t := t ++ [.glBindTexture GL_TEXTURE_2D texture.id]
      Mesh.drawLoop env shader rest ((i + 1) % 2 ^ 32) ((diffuseIDs + 1) % 2 ^ 32) specularIDs t
    else if name = "texture_specular" then
      let number := toString specularIDs
      let foo := "material." ++ name ++ number
      let t := Shader.Set env shader t (C_Str foo) (toInt32 i)
      let t := t ++ [.glBindTexture GL_TEXTURE_2D texture.id]
      Mesh.drawLoop env shader rest ((i + 1) % 2 ^ 32) diffuseIDs ((specularIDs + 1) % 2 ^ 32) t
    else
      let number := ""
      let foo := "material." ++ name ++ number
      let t := Shader.Set env shader t (C_Str foo) (toInt32 i)
      let t := t ++ [.glBindTexture GL_TEXTURE_2D texture.id]
      Mesh.drawLoop env shader rest ((i + 1) % 2 ^ 32) diffuseIDs specularIDs t

/-- Method `Mesh::Draw(shader)`. -/
def Mesh.Draw {F : Type} (env : Env F) (self : Mesh F) (shader : Shader) (t : Trace F) :
    Trace F :=
  let diffuseIDs := 1
  let specularIDs := 1
  let t := Mesh.drawLoop env shader self.textures 0 diffuseIDs specularIDs t
  let t := t ++ [.glActiveTexture GL_TEXTURE0]
  let t := t ++ [.glBindVertexArray self.vao]
  let t := t ++ [.glDrawElements GL_TRIANGLES (toInt32 self.indices.length) GL_UNSIGNED_INT 0]
  t ++ [.glBindVertexArray 0]

/-- Method `Model::Draw(shader)`. -/
def Model.Draw {F : Type} (env : Env F) (self : Model F) (shader : Shader) (t : Trace F) :
    Trace F :=
  self.meshes.foldl (fun t mesh => Mesh.Draw env mesh shader t) t

/-- Value of `AI_SCENE_FLAGS_INCOMPLETE` in Assimp. -/
def AI_SCENE_FLAGS_INCOMPLETE : Nat := 0x1
/-- Value of `aiProcess_CalcTangentSpace` in Assimp. -/
def aiProcess_CalcTangentSpace : Nat := 0x1
/-- Value of `aiProcess_Triangulate` in Assimp. -/
def aiProcess_Triangulate : Nat := 0x8
/-- Value of `aiProcess_GenSmoothNormals` in Assimp. -/
def aiProcess_GenSmoothNormals : Nat := 0x40
/-- Value of `aiProcess_FlipUVs` in Assimp. -/
def aiProcess_FlipUVs : Nat := 0x800000

/-- What `Assimp::Importer::ReadFile` returns when it is not a null pointer: the flags and the
root node of the `aiScene` next to its mesh and material arrays. -/
structure ImportedScene (F : Type) where
  mFlags : Nat
  mRootNode : Option aiNode
  arrays : aiScene F

/-- An `Assimp::Importer`: what `ReadFile(path, flags)` returns (`none` for a null pointer) and
what `GetErrorString()` returns afterwards. -/
structure Importer (F : Type) where
  ReadFile : String → Nat → Option (ImportedScene F)
  GetErrorString : String → String

/-- Method `std::string::find_last_of(c)`: the position of the last occurrence of `c`, `none`
for `npos`. -/
def find_last_of (s : String) (c : Char) : Option Nat :=
  (List.range s.data.length).reverse.find? fun i => decide (s.data[i]? = some c)

/-- Method `std::string::substr(pos, count)`, with `none` for the count `npos`. -/
def substr (s : String) (pos : Nat) (count : Option Nat) : String :=
  match count with
  | none => ⟨s.data.drop pos⟩
  | some n => ⟨(s.data.drop pos).take n⟩

/-- Method `Model::loadModel(path)`. -/
def Model.loadModel {F : Type} [Zero F] (env : Env F) (importer : Importer F) (self : Model F)
    (t : Trace F) (path : String) : Res F (Model F) :=
  let scene := importer.ReadFile path
    (aiProcess_Triangulate ||| aiProcess_GenSmoothNormals ||| aiProcess_FlipUVs |||
      aiProcess_CalcTangentSpace)
  match scene with
  | none => .ok self (t ++ [.stdout ("ERROR::ASSIMP:: " ++ importer.GetErrorString path ++ "\n")])
  | some scene =>
    if scene.mFlags &&& AI_SCENE_FLAGS_INCOMPLETE ≠ 0 then
      .ok self (t ++ [.stdout ("ERROR::ASSIMP:: " ++ importer.GetErrorString path ++ "\n")])
    else
      match scene.mRootNode with
      | none =>
        .ok self (t ++ [.stdout ("ERROR::ASSIMP:: " ++ importer.GetErrorString path ++ "\n")])
      | some mRootNode =>
        let self := { self with directory := substr path 0 (find_last_of path '/') }
        Model.processNode env scene.arrays mRootNode self t

/-- Constructor `Model::Model(path, gamma)`: the vectors and `directory` start empty. -/
def Model.new {F : Type} [Zero F] (env : Env F) (importer : Importer F) (t : Trace F)
    (path : String) (gamma : Bool) : Res F (Model F) :=
  Model.loadModel env importer
    { textures_loaded := [], meshes := [], directory := "", gammaCorrection := gamma } t path

/-! ## class Mesh and class Model of ModelTest.h -/

namespace ModelTest

/-- Size in bytes of the `Vertex` of ModelTest.h: eight 4-byte floats. -/
def sizeofVertex : Nat := 32
/-- Byte offset `offsetof(Vertex, normal)` in ModelTest.h. -/
def offsetofNormal : Nat := 12
/-- Byte offset `offsetof(Vertex, TexCoords)` in ModelTest.h. -/
def offsetofTexCoords : Nat := 24

structure Mesh (F : Type) where
  vertices : List (ModelTest.Vertex F)
  indices : List Nat
  textures : List Texture
  vao : GLuint
  vbo : GLuint
  ibo : GLuint
deriving DecidableEq, Repr

/-- Method `Mesh::SetupMesh()` of ModelTest.h. -/
def Mesh.SetupMesh {F : Type} (env : Env F) (t : Trace F) (vertices : List (ModelTest.Vertex F))
    (indices : List Nat) (textures : List Texture) : Mesh F × Trace F :=
  let vao := env.glGen t % 2 ^ 32
  let t := t ++ [.glGenVertexArrays 1 vao]
  let vbo := env.glGen t % 2 ^ 32
  let t := t ++ [.glGenBuffers 1 vbo]
  let ibo := env.glGen t % 2 ^ 32
  let t := t ++ [.glGenBuffers 1 ibo]
  let t := t ++ [.glBindVertexArray vao]
  let t := t ++ [.glBindBuffer GL_ARRAY_BUFFER vbo]
  let t := t ++ [.glBufferDataTestVertices GL_ARRAY_BUFFER (vertices.length * sizeofVertex)
    vertices GL_STATIC_DRAW]
  let t := t ++ [.glBindBuffer GL_ELEMENT_ARRAY_BUFFER ibo]
  let t := t ++ [.glBufferDataIndices GL_ELEMENT_ARRAY_BUFFER (indices.length * 4) indices
    GL_STATIC_DRAW]
  let t := t ++ [.glEnableVertexAttribArray 0]
  let t := t ++ [.glVertexAttribPointer 1 3 GL_FLOAT false sizeofVertex 0]
  let t := t ++ [.glEnableVertexAttribArray 1]
  let t := t ++ [.glVertexAttribPointer 1 3 GL_FLOAT false sizeofVertex offsetofNormal]
  let t := t ++ [.glEnableVertexAttribArray 2]
  let t := t ++ [.glVertexAttribPointer 2 2 GL_FLOAT false sizeofVertex offsetofTexCoords]
  let t := t ++ [.glBindVertexArray 0]
  ({ vertices := vertices, indices := indices, textures := textures,
     vao := vao, vbo := vbo, ibo := ibo }, t)

/-- Constructor `Mesh::Mesh(vertices, indices, textures)` of ModelTest.h. -/
def Mesh.new {F : Type} (env : Env F) (t : Trace F) (vertices : List (ModelTest.Vertex F))
    (indices : List Nat) (textures : List Texture) : Mesh F × Trace F :=
  Mesh.SetupMesh env t vertices indices textures

structure Model (F : Type) where
  loaded_textures : List Texture
  meshes : List (Mesh F)
  directory : String
deriving DecidableEq, Repr

/-- The inner loop `for(uint32_t j = 0; j < loaded_textures.size(); i++)` of
`Model::LoadMaterialTexturesOptimized`: its increment advances `i`, not `j`.  Returns the entry
found at the `break` (or `none` when the loop condition fails) and the value of `i`; the outer
`none` means that `fuel` iterations did not end the loop. -/
def Model.scanLoaded (loaded_textures : List Texture) (str : aiString) :
    (fuel : Nat) → (i j : Nat) → Option (Option Texture × Nat)
  | 0, _, _ => none
  | fuel + 1, i, j =>
    match loaded_textures[j]? with
    | none => some (none, i)
    | some loaded =>
      if strcmpEq loaded.path str then some (some loaded, i)
      else Model.scanLoaded loaded_textures str fuel ((i + 1) % 2 ^ 32) j

/-- The outer loop `for(uint32_t i = 0; i < material->GetTextureCount(type); i++)` of
`Model::LoadMaterialTexturesOptimized`, `strs` being the paths `GetTexture(type, i, &str)`
yields; `none` means that `fuel` iterations did not end it. -/
def Model.LoadMaterialTexturesOptimizedLoop {F : Type} (env : Env F) (typeName : String)
    (strs : List aiString) :
    (fuel : Nat) → (i : Nat) → List Texture → Model F → Trace F →
      Option (Res F (List Texture × Model F))
  | 0, _, _, _, _ => none
  | fuel + 1, i, textures, self, t =>
    match strs[i]? with
    | none => some (.ok (textures, self) t)
    | some str =>
      match Model.scanLoaded self.loaded_textures str fuel i 0 with
      | none => none
      | some (some loaded, i) =>
        Model.LoadMaterialTexturesOptimizedLoop env typeName strs fuel ((i + 1) % 2 ^ 32)
          (textures ++ [loaded]) self t
      | some (none, i) =>
        match LoadTextureFromFileAsset env t (C_Str str) self.directory with
        | .fault f t => some (.fault f t)
        | .ok id t =>
          let texture : Texture := { id := id, type := typeName, path := C_Str str }
          Model.LoadMaterialTexturesOptimizedLoop env typeName strs fuel ((i + 1) % 2 ^ 32)
            (textures ++ [texture])
            { self with loaded_textures := self.loaded_textures ++ [texture] } t

/-- Method `Model::LoadMaterialTexturesOptimized(material, type, typeName)` of ModelTest.h, run
for at most `fuel` loop iterations. -/
def Model.LoadMaterialTexturesOptimized {F : Type} (env : Env F) (fuel : Nat) (self : Model F)
    (t : Trace F) (material : aiMaterial) (type : aiTextureType) (typeName : String) :
    Option (Res F (List Texture × Model F)) :=
  Model.LoadMaterialTexturesOptimizedLoop env typeName (material.texturesOf type) fuel 0 [] self t

/-- One iteration of the vertex loop of `Model::ProcessMesh` of ModelTest.h. -/
def Model.processVertex {F : Type} [Zero F] (mesh : aiMesh F) (i : Nat) : ModelTest.Vertex F :=
  let position := mesh.mVertices i
  let normal : Option (Vec3 F) :=
    if mesh.HasNormals then mesh.mNormals.map (fun mNormals => mNormals i) else none
  match mesh.mTextureCoords0 with
  | some uv => { position := position, normal := normal, TexCoords := ⟨(uv i).x, (uv i).y⟩ }
  | none => { position := position, normal := normal, TexCoords := ⟨0, 0⟩ }

/-- The loop `for(uint32_t i = 0; i < mesh->mNumVertices; i++)` of `Model::ProcessMesh`. -/
def Model.vertexLoop {F : Type} [Zero F] (mesh : aiMesh F) :
    (remaining : Nat) → (i : Nat) → List (ModelTest.Vertex F) → List (ModelTest.Vertex F)
  | 0, _, vertices => vertices
  | remaining + 1, i, vertices =>
    Model.vertexLoop mesh remaining (i + 1) (vertices ++ [Model.processVertex mesh i])

/-- The loop over `j` inside the face loop of `Model::ProcessMesh` of ModelTest.h: it pushes
`face.mIndices[i]`, indexed by the face counter `i`; `none` when that read is out of bounds. -/
def Model.faceIndices (face : aiFace) (i : Nat) : (remaining : Nat) → List Nat → Option (List Nat)
  | 0, indices => some indices
  | remaining + 1, indices =>
    match face.mIndices[i]? with
    | some index => Model.faceIndices face i remaining (indices ++ [index])
    | none => none

/-- The loop `for(uint32_t i = 0; i < mesh->mNumFaces; i++)` of `Model::ProcessMesh` of
ModelTest.h. -/
def Model.indexLoop : List aiFace → (i : Nat) → List Nat → Option (List Nat)
  | [], _, indices => some indices
  | face :: rest, i, indices =>
    match Model.faceIndices face i face.mNumIndices indices with
    | some indices => Model.indexLoop rest (i + 1) indices
    | none => none

/-- Method `Model::ProcessMesh(mesh, scene)` of ModelTest.h, run for at most `fuel` iterations
of each texture loop. -/
def Model.ProcessMesh {F : Type} [Zero F] (env : Env F) (fuel : Nat) (self : Model F)
    (t : Trace F) (mesh : aiMesh F) (scene : aiScene F) : Option (Res F (Mesh F × Model F)) :=
  let vertices := Model.vertexLoop mesh mesh.mNumVertices 0 []
  match Model.indexLoop mesh.mFaces 0 [] with
  | none => some (.fault .undefinedBehaviour t)
  | some indices =>
    let textures : List Texture := []
    if mesh.mMaterialIndex ≥ 0 then
      match scene.mMaterials[mesh.mMaterialIndex]? with
      | none => some (.fault .undefinedBehaviour t)
      | some material =>
        match Model.LoadMaterialTexturesOptimized env fuel self t material .DIFFUSE
            "texture_diffuse" with
        | none => none
        | some (.fault f t) => some (.fault f t)
        | some (.ok r t) =>
          let textures := textures ++ r.1
          match Model.LoadMaterialTexturesOptimized env fuel r.2 t material .SPECULAR
              "texture_specular" with
          | none => none
          | some (.fault f t) => some (.fault f t)
          | some (.ok r t) =>
            let textures := textures ++ r.1
            let m := Mesh.new env t vertices indices textures
            some (.ok (m.1, r.2) m.2)
    else
      let m := Mesh.new env t vertices indices textures
      some (.ok (m.1, self) m.2)

end ModelTest


/-! ## Function LoadTexture (lightingCastersTutorial-01.h) -/

/-- Function `LoadTexture(filepath, TextureType)`.  After a failed load the function goes on
(there is no `return`): under `NDEBUG` it reads `channels`, which `stbi_load` left
indeterminate. -/
def LoadTexture {F : Type} (env : Env F) (t : Trace F) (filepath : String)
    (TextureType : GLenum) : Res F GLuint :=
  let textureID := env.glGen t % 2 ^ 32
  let t := t ++ [.glGenTextures 1 textureID]
  let data := env.stbi_load t (C_Str filepath)
  let t := t ++ [.stbi_load (C_Str filepath) data]
  match data with
  | none =>
    let t := t ++ [.stdout ("Unable to load textures ====> " ++ C_Str filepath ++ "\n")]
    (assertFalse env t).andThen fun _ t => .fault .undefinedBehaviour t
  | some img =>
    let format : Option GLenum :=
      if img.channels = 1 then some GL_RED
      else if img.channels = 4 then some GL_RGBA
      else if img.channels = 3 then some GL_RGB
      else none
    let t := t ++ [.glBindTexture TextureType textureID]
    let t := t ++ [.glTexImage2D TextureType 0 format img.w img.h 0 format GL_UNSIGNED_BYTE]
    let t := t ++ [.glGenerateMipmap TextureType]
    let t := t ++ [.glTexParameteri TextureType GL_TEXTURE_WRAP_S GL_REPEAT]
    let t := t ++ [.glTexParameteri TextureType GL_TEXTURE_WRAP_T GL_REPEAT]
    let t := t ++ [.glTexParameteri TextureType GL_TEXTURE_MIN_FILTER GL_LINEAR_MIPMAP_LINEAR]
    let t := t ++ [.glTexParameteri TextureType GL_TEXTURE_MAG_FILTER GL_LINEAR]
    let t := t ++ [.stbi_image_free]
    .ok textureID t

/-! ## The static geometry of the examples that upload an index buffer -/

/-- A `float vertices[]` array, the number of floats per vertex (the stride of
`glVertexAttribPointer` in floats) and the `indices[]` array uploaded with it. -/
structure IndexedGeometry where
  vertices : List ℚ
  floatsPerVertex : Nat
  indices : List Nat
deriving DecidableEq, Repr

/-- The number of vertices in the vertex buffer. -/
def IndexedGeometry.vertexCount (g : IndexedGeometry) : Nat :=
  g.vertices.length / g.floatsPerVertex

/-- Arrays of `IndexBufferExample` (example02-index.h). -/
def IndexBufferExample.geometry : IndexedGeometry where
  vertices := [0.5, 0.5, 0, 0.5, -0.5, 0, -0.5, -0.5, 0, -0.5, 0.5, 0]
  floatsPerVertex := 3
  indices := [0, 1, 3, 1, 2, 3]

/-- Arrays of `ShadersExample` (example03-shaders.h). -/
def ShadersExample.geometry : IndexedGeometry where
  vertices := [0.5, 0.5, 0, 0.5, -0.5, 0, -0.5, -0.5, 0, -0.5, 0.5, 0]
  floatsPerVertex := 3
  indices := [0, 1, 3, 1, 2, 3]

/-- Arrays of `ShaderAttribExample` (example04-shaders2.h). -/
def ShaderAttribExample.geometry : IndexedGeometry where
  vertices := [0.5, -0.5, 0, 1, 0, 0, -0.5, -0.5, 0, 0, 1, 0, 0, 0.5, 0, 0, 0, 1]
  floatsPerVertex := 6
  indices := [0, 1, 3, 1, 2, 3]

/-- Arrays of `ShaderClassExample` (example05-shaderClass.h). -/
def ShaderClassExample.geometry : IndexedGeometry where
  vertices := [0.5, -0.5, 0, 1, 0, 0, -0.5, -0.5, 0, 0, 1, 0, 0, 0.5, 0, 0, 0, 1]
  floatsPerVertex := 6
  indices := [0, 1, 3, 1, 2, 3]

/-- Arrays of `TextureExample` (example06-textures.h). -/
def TextureExample.geometry : IndexedGeometry where
  vertices := [0.5, 0.5, 0, 1, 0, 0, 1, 1, 0.5, -0.5, 0, 0, 1, 0, 1, 0,
    -0.5, -0.5, 0, 0, 0, 1, 0, 0, -0.5, 0.5, 0, 1, 1, 0, 0, 1]
  floatsPerVertex := 8
  indices := [0, 1, 3, 1, 2, 3]

/-- Arrays `skyboxVertices` and `skyboxIndices`, the same in `LightingCastersExample`
(lightingCastersTutorial-01.h) and in `ModelLoadingExample` of modelLoadingTutorial-01.h and of
ModelTest.h. -/
def skyboxGeometry : IndexedGeometry where
  vertices := [-1, -1, 1, 1, -1, 1, 1, -1, -1, -1, -1, -1, -1, 1, 1, 1, 1, 1, 1, 1, -1, -1, 1, -1]
  floatsPerVertex := 3
  indices := [1, 2, 6, 6, 5, 1, 0, 4, 7, 7, 3, 0, 4, 5, 6, 6, 7, 4, 0, 3, 2, 2, 1, 0,
    0, 1, 5, 5, 4, 0, 3, 7, 6, 6, 2, 3]

/-- Every example function that uploads a literal index buffer, with its arrays. -/
def indexedExamples : List (String × IndexedGeometry) :=
  [("IndexBufferExample", IndexBufferExample.geometry),
   ("ShadersExample", ShadersExample.geometry),
   ("ShaderAttribExample", ShaderAttribExample.geometry),
   ("ShaderClassExample", ShaderClassExample.geometry),
   ("TextureExample", TextureExample.geometry),
   ("LightingCastersExample", skyboxGeometry),
   ("ModelLoadingExample (modelLoadingTutorial-01.h)", skyboxGeometry),
   ("ModelLoadingExample (ModelTest.h)", skyboxGeometry)]

/-! ## Function CameraClassExample (example13-cameraClass.h): the render loop -/

def GLFW_KEY_ESCAPE : Int := 256

/-- The matrix `glm::mat4(1.0f)`. -/
def Mat4.identity {F : Type} [Zero F] [One F] : Mat4 F :=
  ⟨⟨1, 0, 0, 0⟩, ⟨0, 1, 0, 0⟩, ⟨0, 0, 1, 0⟩, ⟨0, 0, 0, 1⟩⟩

/-- The matrix functions of glm the example calls.  The library is external; the loop only
decides which arguments they receive. -/
structure GlmFns (F : Type) where
  lookAt : Vec3 F → Vec3 F → Vec3 F → Mat4 F
  perspective : F → F → F → F → Mat4 F
  translate : Mat4 F → Vec3 F → Mat4 F
  rotate : Mat4 F → F → Vec3 F → Mat4 F

/-- Method `Shader::Bind()`. -/
def Shader.Bind {F : Type} (self : Shader) (t : Trace F) : Trace F :=
  t ++ [.glUseProgram self.programID]

/-- Overload `Shader::Set(name, const glm::mat4& values)`. -/
def Shader.SetMatrix {F : Type} (env : Env F) (self : Shader) (t : Trace F) (name : String)
    (values : Mat4 F) : Trace F :=
  let r := Shader.Get env self t name
  let location := r.1
  r.2 ++ [.glUniformMatrix4fv (toInt32 location) 1 false values]

/-- Method `Shader::SetMat4(name, value)`. -/
def Shader.SetMat4 {F : Type} (env : Env F) (self : Shader) (t : Trace F) (name : String)
    (value : Mat4 F) : Trace F :=
  let r := Shader.Get env self t name
  let location := r.1
  r.2 ++ [.glUniformMatrix4fv (toInt32 location) 1 false value]

section cameraClassExample

variable {F : Type} [LinearOrderedField F]

/-- Method `Camera::GetViewMatrix()`; the assignment to the cached member `view` is left out
with the member. -/
def Camera.GetViewMatrix (mat : GlmFns F) (self : Camera F) : Mat4 F :=
  mat.lookAt self.cameraPos (self.cameraPos.add self.cameraFront) self.cameraUp

/-- Method `Camera::GetProjectionMatrix()`. -/
def Camera.GetProjectionMatrix (mat : GlmFns F) (_self : Camera F) : Mat4 F :=
  mat.perspective (glm.radians 45) (800 / 600) (1 / 10) 100

/-- The array `cubePositions` of `CameraClassExample`. -/
def CameraClassExample.cubePositions : List (Vec3 F) :=
  [⟨0, 0, 0⟩, ⟨2, 5, -15⟩, ⟨-(15 / 10), -(22 / 10), -(25 / 10)⟩,
   ⟨-(38 / 10), -2, -(123 / 10)⟩, ⟨24 / 10, -(4 / 10), -(35 / 10)⟩,
   ⟨-(17 / 10), 3, -(75 / 10)⟩, ⟨13 / 10, -2, -(25 / 10)⟩, ⟨15 / 10, 2, -(25 / 10)⟩,
   ⟨15 / 10, 2 / 10, -(15 / 10)⟩, ⟨-(13 / 10), 1, -(15 / 10)⟩]

/-- A callback GLFW runs inside `glfwPollEvents`: the cursor-position callback and the scroll
callback registered before the loop. -/
inductive InputEvent (F : Type) where
  | cursorPos (xPosIn yPosIn : F)
  | scroll (xOffset yOffset : F)
deriving DecidableEq, Repr

/-- What GLFW reports during one pass of the loop: the close flag tested by the loop condition,
the clock, the key states (they change only inside `glfwPollEvents`) and the callbacks the
`glfwPollEvents` call at the end of the pass runs. -/
structure Frame (F : Type) where
  glfwWindowShouldClose : Bool
  glfwGetTime : F
  window : GLFWwindow
  callbacks : List (InputEvent F)

/-- The locals of `CameraClassExample` the loop reads. -/
structure CameraClassExample.Locals where
  shader : Shader
  vao : GLuint
  brickTextureID : GLuint
  containerTextureID : GLuint
deriving DecidableEq, Repr

/-- The globals of example13-cameraClass.h the loop writes. -/
structure CameraClassExample.Globals (F : Type) where
  camera : Camera F
  deltaTime : F
  lastFrame : F

/-- The two lambdas registered with `glfwSetCursorPosCallback` and `glfwSetScrollCallback`. -/
def CameraClassExample.callback (fns : MathFns F) (camera : Camera F) :
    InputEvent F → Camera F
  | .cursorPos xPosIn yPosIn => Camera.MouseOnUpdate fns camera xPosIn yPosIn
  | .scroll xOffset yOffset => Camera.MouseOnScrollback camera xOffset yOffset

/-- The loop `for(uint32_t i = 0; i < 10; i++)` with `remaining` passes still to run; reading
`cubePositions[i]` outside the array is undefined behaviour. -/
def CameraClassExample.cubeLoop (env : Env F) (mat : GlmFns F)
    (locals : CameraClassExample.Locals) : (remaining i : Nat) → Trace F → Res F Unit
  | 0, _, t => .ok () t
  | remaining + 1, i, t =>
    match (CameraClassExample.cubePositions : List (Vec3 F))[i]? with
    | none => .fault .undefinedBehaviour t
    | some position =>
      let model : Mat4 F := Mat4.identity
      let model := mat.translate model position
      let angle : F := 20 * (i : F)
      let model := mat.rotate model (glm.radians angle) ⟨1, 3 / 10, 5 / 10⟩
      let t := Shader.SetMatrix env locals.shader t "model" model
      let t := t ++ [.glDrawArrays GL_TRIANGLES 0 36]
      CameraClassExample.cubeLoop env mat locals remaining (i + 1) t

/-- One pass through the body of the `while` loop; the Boolean tells whether the loop goes on
(`false` after `break`). -/
def CameraClassExample.loopBody (env : Env F) (fns : MathFns F) (mat : GlmFns F)
    (locals : CameraClassExample.Locals) (globals : CameraClassExample.Globals F)
    (frame : Frame F) (t : Trace F) : Res F (CameraClassExample.Globals F × Bool) :=
  let t := t ++ [.glClearColor (1 / 10) (1 / 10) (1 / 10) 1]
  let t := t ++ [.glClear (GL_COLOR_BUFFER_BIT ||| GL_DEPTH_BUFFER_BIT)]
  let time := frame.glfwGetTime
  let globals := { globals with deltaTime := time - globals.lastFrame }
  let globals := { globals with lastFrame := time }
  let globals := { globals with camera := Camera.OnUpdate fns globals.camera frame.window }
  if frame.window.glfwGetKey GLFW_KEY_ESCAPE = GLFW_PRESS then .ok (globals, false) t
  else
    let t := Shader.Bind locals.shader t
    let t := Shader.SetMat4 env locals.shader t "view" (globals.camera.GetViewMatrix mat)
    let t :=
      Shader.SetMatrix env locals.shader t "projection" (globals.camera.GetProjectionMatrix mat)
    let t := t ++ [.glBindTexture GL_TEXTURE_2D locals.brickTextureID]
    let t := t ++ [.glBindTexture GL_TEXTURE_2D locals.containerTextureID]
    let t := t ++ [.glBindVertexArray locals.vao]
    (CameraClassExample.cubeLoop env mat locals 10 0 t).andThen fun _ t =>
    let t := t ++ [.glfwSwapBuffers]
    let t := t ++ [.glfwPollEvents]
    let globals :=
      { globals with
        camera := frame.callbacks.foldl (CameraClassExample.callback fns) globals.camera }
    .ok (globals, true) t

/-- The `while(!glfwWindowShouldClose(window))` loop over the frames GLFW reports; the Boolean
tells whether the loop has ended (`false` when the given frames are used up first). -/
def CameraClassExample.mainLoop (env : Env F) (fns : MathFns F) (mat : GlmFns F)
    (locals : CameraClassExample.Locals) :
    List (Frame F) → CameraClassExample.Globals F → Trace F →
      Res F (CameraClassExample.Globals F × Bool)
  | [], globals, t => .ok (globals, false) t
  | frame :: frames, globals, t =>
    if frame.glfwWindowShouldClose then .ok (globals, true) t
    else
      (CameraClassExample.loopBody env fns mat locals globals frame t).andThen fun r t =>
      if r.2 then CameraClassExample.mainLoop env fns mat locals frames r.1 t
      else .ok (r.1, true) t

end cameraClassExample

/-! ## Auxiliary definitions used to state the properties -/

/-- The four commands `Shader::CompileShaders` always issues for one stage. -/
def stageCommands {F : Type} (key : GLenum) (value : String) (id : GLuint) (status : GLint) :
    Trace F :=
  [.glCreateShader key id, .glShaderSource id 1 value, .glCompileShader id,
   .glGetShaderiv id GL_COMPILE_STATUS status]

/-- The info-log retrieval and the two prints of one stage. -/
def stageReport {F : Type} (id : GLuint) (log : String) : Trace F :=
  [.glGetShaderInfoLog id 512 log, .stdout "Errored our on shader compilation!\n",
   .stdout ("[INFO LOG] ------> " ++ log ++ "\n")]

/-- Whether an event retrieves an info log or writes to standard output. -/
def Event.isDiagnostic {F : Type} : Event F → Bool
  | .glGetShaderInfoLog _ _ _ => true
  | .glGetProgramInfoLog _ _ _ => true
  | .stdout _ => true
  | _ => false

/-- Whether an event queries or retrieves the link result of a program. -/
def Event.isLinkReport {F : Type} : Event F → Bool
  | .glGetProgramiv _ _ _ => true
  | .glGetProgramInfoLog _ _ _ => true
  | _ => false


/-! ## Concrete environments and inputs -/

/-- Two readable and writable shader files, a driver that compiles both stages and reports a
failed link. -/
def linkFailEnv : Env ℚ where
  NDEBUG := false
  fs := fun path =>
    if path = "vertex.glsl" then some ⟨"void main(){}", true, true⟩
    else if path = "fragment.glsl" then some ⟨"void main(){discard;}", true, true⟩
    else none
  creatable := fun _ => false
  appendOpensAtEnd := false
  hashFront := false
  glCreateProgram := fun _ => 3
  glCreateShader := fun t _ => t.length
  compileStatus := fun _ _ => 1
  shaderInfoLog := fun _ _ => ""
  linkStatus := fun _ _ => 0
  programInfoLog := fun _ _ => "error: linking failed"
  glGen := fun t => t.length
  stbi_load := fun _ _ => none

/-- The environment `linkFailEnv` with the vertex shader file readable but not writable. -/
def readOnlyEnv (ndebug : Bool) : Env ℚ :=
  { linkFailEnv with
    NDEBUG := ndebug
    fs := fun path =>
      if path = "vertex.glsl" then some ⟨"void main(){}", true, false⟩
      else if path = "fragment.glsl" then some ⟨"void main(){discard;}", true, true⟩
      else none }

/-- Stand-ins for the `<cmath>` functions over the rationals, for inputs that never reach them. -/
def ratFns : MathFns ℚ := ⟨id, id, id⟩

/-- A window in which W and S are the pressed keys. -/
def windowWS : GLFWwindow :=
  ⟨fun key => if key = GLFW_KEY_W ∨ key = GLFW_KEY_S then GLFW_PRESS else 0⟩

/-- A window in which S is the only pressed key. -/
def windowS : GLFWwindow := ⟨fun key => if key = GLFW_KEY_S then GLFW_PRESS else 0⟩

/-- The initial camera after its first cursor event at (400, 300). -/
def trackingCamera : Camera ℚ := { (Camera.init : Camera ℚ) with firstMouse := false }

/-! ## Auxiliary definitions for the model loader -/

/-- The vertex the claim describes for index `i` of a mesh: the position, the normal when the
mesh has normals, the coordinate of UV set 0 or (0, 0), and the tangent and bitangent read
together with the UV coordinate. -/
def expectedVertex {F : Type} [Zero F] (mesh : aiMesh F) (i : Nat) : Vertex F where
  position := mesh.mVertices i
  normal := if mesh.HasNormals then mesh.mNormals.map (fun mNormals => mNormals i) else none
  TexCoords :=
    match mesh.mTextureCoords0 with
    | some uv => ⟨(uv i).x, (uv i).y⟩
    | none => ⟨0, 0⟩
  Tangent := if mesh.mTextureCoords0.isSome then mesh.mTangents.map (fun a => a i) else none
  BitTangent := if mesh.mTextureCoords0.isSome then mesh.mBitangents.map (fun a => a i) else none

/-- Whether the vertex loop can run on the mesh without dereferencing a null array: a mesh
with UV set 0 and at least one vertex also has tangents and bitangents. -/
def aiMesh.tangentsPresent {F : Type} (mesh : aiMesh F) : Bool :=
  !mesh.mTextureCoords0.isSome || mesh.mNumVertices == 0 ||
    (mesh.mTangents.isSome && mesh.mBitangents.isSome)

/-- Whether index `idx` designates a mesh of the scene that has its tangents and a material of
the scene. -/
def aiScene.meshUsable {F : Type} (scene : aiScene F) (idx : Nat) : Bool :=
  match scene.mMeshes[idx]? with
  | some mesh => mesh.tangentsPresent && decide (mesh.mMaterialIndex < scene.mMaterials.length)
  | none => false

/-- Whether no texture load can hit the assertion: assertions are compiled out or every image
loads. -/
def Env.neverAborts {F : Type} (env : Env F) : Prop :=
  env.NDEBUG = true ∨ ∀ t filename, (env.stbi_load t filename).isSome = true

mutual
/-- The mesh indices of a subtree in pre-order: the node's own `mMeshes`, then the subtree of
each child in child order. -/
def aiNode.preorder : aiNode → List Nat
  | .mk mMeshes mChildren => mMeshes ++ aiNode.preorderChildren mChildren
/-- The pre-order mesh indices of a list of subtrees. -/
def aiNode.preorderChildren : List aiNode → List Nat
  | [] => []
  | child :: rest => child.preorder ++ aiNode.preorderChildren rest
end

mutual
/-- Every node of a subtree, each once, in pre-order. -/
def aiNode.nodes : aiNode → List aiNode
  | .mk mMeshes mChildren => .mk mMeshes mChildren :: aiNode.nodesChildren mChildren
/-- Every node of a list of subtrees, each once, in pre-order. -/
def aiNode.nodesChildren : List aiNode → List aiNode
  | [] => []
  | child :: rest => child.nodes ++ aiNode.nodesChildren rest
end

/-- A mesh of two vertices with UV set 0 but without normals, tangents and bitangents (what
the importer yields for a textured line segment). -/
def lineMesh : aiMesh ℚ where
  mNumVertices := 2
  mVertices := fun i => ⟨i, 0, 0⟩
  mNormals := none
  mTextureCoords0 := some (fun i => ⟨i, 1, 0⟩)
  mTangents := none
  mBitangents := none
  mFaces := [⟨[0, 1]⟩]
  mMaterialIndex := 0

/-- A triangle with normals, UV set 0, tangents and bitangents. -/
def triangleMesh : aiMesh ℚ where
  mNumVertices := 3
  mVertices := fun i => ⟨i, 2 * i, 0⟩
  mNormals := some (fun _ => ⟨0, 0, 1⟩)
  mTextureCoords0 := some (fun i => ⟨i, 1, 0⟩)
  mTangents := some (fun _ => ⟨1, 0, 0⟩)
  mBitangents := some (fun _ => ⟨0, 1, 0⟩)
  mFaces := [⟨[0, 1, 2]⟩]
  mMaterialIndex := 0

/-- A material with one diffuse and one specular texture. -/
def brickMaterial : aiMaterial :=
  ⟨[(.DIFFUSE, "brick.png"), (.SPECULAR, "brick_spec.png")]⟩

/-- A scene with the triangle, the line segment and one material. -/
def exampleScene : aiScene ℚ := ⟨[triangleMesh, lineMesh], [brickMaterial]⟩

/-- A scene whose only mesh is the triangle. -/
def triangleScene : aiScene ℚ := ⟨[triangleMesh], [brickMaterial]⟩

/-- A root with the triangle, a leaf child with the triangle, and a child without meshes whose
own child has the triangle twice. -/
def exampleRoot : aiNode := .mk [0] [.mk [0] [], .mk [] [.mk [0, 0] []]]

/-- An environment in which every image loads as a 4 x 4 RGB image. -/
def loaderEnv : Env ℚ :=
  { linkFailEnv with stbi_load := fun _ _ => some ⟨4, 4, 3⟩ }

/-- A freshly constructed `Model` before `loadModel` has processed any node. -/
def emptyModel : Model ℚ := ⟨[], [], "assets", false⟩

/-- The file names handed to `stbi_load`, in call order; `LoadTextureFromFileAsset` makes
exactly one such call per invocation. -/
def loadedFiles {F : Type} (t : Trace F) : List String :=
  t.filterMap fun e =>
    match e with
    | .stbi_load filename _ => some filename
    | _ => none

/-- The paths of the entries of `textures_loaded`, in order. -/
def Model.paths {F : Type} (self : Model F) : List String :=
  self.textures_loaded.map Texture.path

/-- The arguments of one call of `Model::loadMaterialTextures`. -/
structure LoadCall where
  mat : aiMaterial
  type : aiTextureType
  typeName : String

/-- A sequence of calls of `Model::loadMaterialTextures` on the same `Model`. -/
def Model.loadSequence {F : Type} (env : Env F) : List LoadCall → Model F → Trace F →
    Res F (Model F)
  | [], self, t => .ok self t
  | call :: rest, self, t =>
    (Model.loadMaterialTextures env self t call.mat call.type call.typeName).andThen fun r t =>
    Model.loadSequence env rest r.2 t

/-- The texture paths a sequence of calls asks for, as C strings, in request order. -/
def requestedPaths (calls : List LoadCall) : List String :=
  calls.flatMap fun call => (call.mat.texturesOf call.type).map C_Str

/-- Three calls that ask for `brick.png` twice, `brick_spec.png` once and `wall.png` once. -/
def exampleCalls : List LoadCall :=
  [⟨brickMaterial, .DIFFUSE, "texture_diffuse"⟩, ⟨brickMaterial, .SPECULAR, "texture_specular"⟩,
   ⟨⟨[(.DIFFUSE, "wall.png"), (.DIFFUSE, "brick.png")]⟩, .DIFFUSE, "texture_diffuse"⟩]

/-- A loaded mesh carries the geometry of the scene mesh with index `idx`: one expected vertex
per index below `mNumVertices`, and the indices of the faces. -/
def Mesh.copiedFrom {F : Type} [Zero F] (scene : aiScene F) (m : Mesh F) (idx : Nat) : Prop :=
  ∃ mesh, scene.mMeshes[idx]? = some mesh ∧
    m.vertices = (List.range mesh.mNumVertices).map (expectedVertex mesh) ∧
    m.indices = Model.indexLoop mesh.mFaces

/-- The paths of `textures_loaded` are pairwise distinct C strings. -/
def Model.PathsDistinct {F : Type} (self : Model F) : Prop :=
  self.paths.Nodup ∧ ∀ p ∈ self.paths, C_Str p = p


/-! ## Auxiliary definitions for drawing, import and the reachable camera states -/

/-- The camera states reachable from the initial state by calls of `OnUpdate`, `MouseOnUpdate`
and `MouseOnScrollback`. -/
inductive Camera.Reachable {F : Type} [LinearOrderedField F] (fns : MathFns F) :
    Camera F → Prop where
  | init : Camera.Reachable fns Camera.init
  | OnUpdate (self : Camera F) (window : GLFWwindow) :
      Camera.Reachable fns self → Camera.Reachable fns (Camera.OnUpdate fns self window)
  | MouseOnUpdate (self : Camera F) (xPosIn yPosIn : F) :
      Camera.Reachable fns self →
      Camera.Reachable fns (Camera.MouseOnUpdate fns self xPosIn yPosIn)
  | MouseOnScrollback (self : Camera F) (xOffset yOffset : F) :
      Camera.Reachable fns self →
      Camera.Reachable fns (Camera.MouseOnScrollback self xOffset yOffset)

/-- The flags `Model::loadModel` passes to `ReadFile`. -/
def loadModelFlags : Nat :=
  aiProcess_Triangulate ||| aiProcess_GenSmoothNormals ||| aiProcess_FlipUVs |||
    aiProcess_CalcTangentSpace

/-- The three ways an import fails for `Model::loadModel`: no scene, a scene flagged
incomplete, a scene without root node. -/
def Importer.failsOn {F : Type} (importer : Importer F) (path : String) : Prop :=
  importer.ReadFile path loadModelFlags = none ∨
  ∃ scene, importer.ReadFile path loadModelFlags = some scene ∧
    (scene.mFlags &&& AI_SCENE_FLAGS_INCOMPLETE ≠ 0 ∨ scene.mRootNode = none)

/-- An importer that cannot open any file. -/
def missingFileImporter : Importer ℚ :=
  ⟨fun _ _ => none, fun path => "Unable to open file \"" ++ path ++ "\"."⟩

/-- An environment in which no image loads; assertions are compiled in or out. -/
def noImageEnv (ndebug : Bool) : Env ℚ :=
  { linkFailEnv with NDEBUG := ndebug }

/-- Whether an event enables a vertex attribute array or sets its pointer. -/
def Event.isVertexAttrib {F : Type} : Event F → Bool
  | .glEnableVertexAttribArray _ => true
  | .glVertexAttribPointer _ _ _ _ _ _ => true
  | _ => false

/-- A mesh with two normal maps and no geometry. -/
def normalMapsMesh : Mesh ℚ :=
  { vertices := [], indices := []
    textures := [⟨7, "texture_normal", "bricks_n.png"⟩, ⟨8, "texture_normal", "wall_n.png"⟩]
    vao := 1, vbo := 2, ibo := 3 }

/-- A scene with the triangle and a material without textures. -/
def plainScene : aiScene ℚ := ⟨[triangleMesh], [⟨[]⟩]⟩

/-- A freshly constructed `Model` of ModelTest.h. -/
def emptyTestModel : ModelTest.Model ℚ := ⟨[], [], "assets"⟩

/-- A `Model` of ModelTest.h that has loaded `brick.png` before. -/
def cachedTestModel : ModelTest.Model ℚ :=
  ⟨[⟨1, "texture_diffuse", "brick.png"⟩], [], "assets"⟩

/-- A material whose only texture is the diffuse map `wall.png`. -/
def wallMaterial : aiMaterial := ⟨[(.DIFFUSE, "wall.png")]⟩

/-- The 1-based count of the textures of type `type` at positions 0..i of the list. -/
def sameTypeCount (textures : List Texture) (i : Nat) (type : String) : Nat :=
  ((textures.take (i + 1)).filter (fun texture => decide (texture.type = type))).length

/-- The number `Mesh::Draw` appends for position `i`: the count among the textures of the
same type for `texture_diffuse` and `texture_specular`, nothing for any other type. -/
def samplerNumber (textures : List Texture) (i : Nat) (type : String) : String :=
  if type = "texture_diffuse" ∨ type = "texture_specular" then
    toString (sameTypeCount textures i type)
  else ""

/-- The sampler uniform name for position `i`: "material." + type + N. -/
def samplerName (textures : List Texture) (i : Nat) (type : String) : String :=
  "material." ++ type ++ samplerNumber textures i type

/-- The calls `Mesh::Draw` makes for the texture at position `i`, given the location the driver
reports for the sampler name: activate unit `GL_TEXTURE0 + i`, look up the uniform, set it to
`i`, bind the texture. -/
def drawTextureCalls {F : Type} (shader : Shader) (textures : List Texture) (i : Nat)
    (texture : Texture) (location : GLint) : Trace F :=
  [.glActiveTexture (GL_TEXTURE0 + i),
   .glGetUniformLocation shader.programID (C_Str (samplerName textures i texture.type)) location,
   .glUniform1i (toInt32 (toUInt32 location)) i,
   .glBindTexture GL_TEXTURE_2D texture.id]

/-- A mesh with two diffuse maps around one specular map and no geometry. -/
def texturedMesh : Mesh ℚ :=
  { vertices := [], indices := []
    textures := [⟨4, "texture_diffuse", "a.png"⟩, ⟨5, "texture_specular", "b.png"⟩,
      ⟨6, "texture_diffuse", "c.png"⟩]
    vao := 1, vbo := 2, ibo := 3 }
/-! ## Auxiliary definitions for the later camera, texture and render-loop properties -/

/-- A window in which W is the only pressed key. -/
def windowW : GLFWwindow := ⟨fun key => if key = GLFW_KEY_W then GLFW_PRESS else 0⟩

/-- A window in which A is the only pressed key. -/
def windowA : GLFWwindow := ⟨fun key => if key = GLFW_KEY_A then GLFW_PRESS else 0⟩

/-- A window in which D is the only pressed key. -/
def windowD : GLFWwindow := ⟨fun key => if key = GLFW_KEY_D then GLFW_PRESS else 0⟩

/-- An environment in which every image loads as a 4 x 4 image with 2 channels (grey and
alpha). -/
def greyAlphaEnv : Env ℚ :=
  { linkFailEnv with stbi_load := fun _ _ => some ⟨4, 4, 2⟩ }

/-- A model that has loaded `brick.png` as a diffuse texture with id 7. -/
def brickModel : Model ℚ := ⟨[⟨7, "texture_diffuse", "brick.png"⟩], [], "assets", false⟩

/-- A material that uses `brick.png` as its specular texture. -/
def shinyMaterial : aiMaterial := ⟨[(.SPECULAR, "brick.png")]⟩

/-- Whether every index of the index buffer refers to a vertex of the vertex buffer. -/
def IndexedGeometry.indicesInRange (g : IndexedGeometry) : Bool :=
  g.indices.all fun index => decide (index < g.vertexCount)

/-- The calls of the cube loop of `CameraClassExample`: for the `i`-th element of
`cubePositions` the lookup of the uniform `model` (with the location GL returned), the upload
of the model matrix translated to that element and rotated by 20 * i degrees about
(1, 0.3, 0.5), and the draw call. -/
def CameraClassExample.cubeCalls {F : Type} [LinearOrderedField F] (mat : GlmFns F)
    (program : GLuint) (first : Nat) (positions : List (Vec3 F)) (locations : List GLint) :
    List (Event F) :=
  ((positions.zip locations).enumFrom first).flatMap fun entry =>
    [.glGetUniformLocation program "model" entry.2.2,
     .glUniformMatrix4fv (toInt32 (toUInt32 entry.2.2)) 1 false
       (mat.rotate (mat.translate Mat4.identity entry.2.1) (glm.radians (20 * (entry.1 : F)))
         ⟨1, 3 / 10, 5 / 10⟩),
     .glDrawArrays GL_TRIANGLES 0 36]

/-- Whether an event is a draw call. -/
def Event.isDrawCall {F : Type} : Event F → Bool
  | .glDrawArrays _ _ _ => true
  | .glDrawElements _ _ _ _ => true
  | _ => false

/-- The globals after the first half of a pass of the loop: the clock values and the camera
after the keyboard update. -/
def CameraClassExample.afterKeys {F : Type} [LinearOrderedField F] (fns : MathFns F)
    (globals : CameraClassExample.Globals F) (frame : Frame F) : CameraClassExample.Globals F where
  camera := Camera.OnUpdate fns globals.camera frame.window
  deltaTime := frame.glfwGetTime - globals.lastFrame
  lastFrame := frame.glfwGetTime

/-- Matrix functions over the rationals that only record their arguments. -/
def recordingGlm : GlmFns ℚ where
  lookAt := fun eye center up =>
    ⟨⟨eye.x, eye.y, eye.z, 0⟩, ⟨center.x, center.y, center.z, 0⟩, ⟨up.x, up.y, up.z, 0⟩,
      ⟨0, 0, 0, 1⟩⟩
  perspective := fun fovy aspect zNear zFar =>
    ⟨⟨fovy, 0, 0, 0⟩, ⟨0, aspect, 0, 0⟩, ⟨0, 0, zNear, 0⟩, ⟨0, 0, 0, zFar⟩⟩
  translate := fun m v => { m with c3 := ⟨v.x, v.y, v.z, 1⟩ }
  rotate := fun m angle axis => { m with c0 := ⟨angle, axis.x, axis.y, axis.z⟩ }

/-- Locals of the example: program 3, vertex array 1, textures 1 and 2. -/
def exampleLocals : CameraClassExample.Locals := ⟨⟨3⟩, 1, 1, 2⟩

/-- The globals before the first pass of the loop. -/
def startGlobals : CameraClassExample.Globals ℚ := ⟨Camera.init, 0, 0⟩

/-- A frame at time 1 with W pressed and one cursor event at (400, 300). -/
def frameW : Frame ℚ := ⟨false, 1, windowW, [.cursorPos 400 300]⟩

/-- A frame at time 2 with ESC pressed. -/
def frameEscape : Frame ℚ :=
  ⟨false, 2, ⟨fun key => if key = GLFW_KEY_ESCAPE then GLFW_PRESS else 0⟩, []⟩

/-! ## Shader: lemmas -/

theorem toUInt32_toInt32 (n : Nat) (h : n < 2 ^ 32) : toUInt32 (toInt32 n) = n := by
  unfold toUInt32 toInt32
  have h1 : n % 2 ^ 32 = n := Nat.mod_eq_of_lt h
  rw [h1]
  split_ifs with h2 <;> omega

theorem compileStage_eq {F : Type} (env : Env F) (t : Trace F) (key : GLenum) (value : String) :
    ∃ id status log, id < 2 ^ 32 ∧ log.length ≤ 511 ∧
      Shader.compileStage env t key value =
        (id, t ++ stageCommands key value id status ++
          (if status = 0 then stageReport id log else [])) := by
  let id := env.glCreateShader t key % 2 ^ 32
  let t3 : Trace F := t ++ [.glCreateShader key id] ++ [.glShaderSource id 1 value] ++
    [.glCompileShader id]
  let status := env.compileStatus t3 id
  refine ⟨id, status,
    truncateLog 512 (env.shaderInfoLog (t3 ++ [.glGetShaderiv id GL_COMPILE_STATUS status]) id),
    Nat.mod_lt _ (by norm_num), ?_, ?_⟩
  · exact List.length_take_le (512 - 1) _
  · simp only [Shader.compileStage, stageCommands, stageReport]
    split_ifs with h1 <;> simp_all [id, t3, status]

/-- Exact trace of `CompileShaders` on a map that iterates as two entries. -/
theorem CompileShaders_two {F : Type} (env : Env F) (t : Trace F) (k1 k2 : GLenum)
    (v1 v2 : String) :
    ∃ programID id1 status1 log1 id2 status2 log2, log1.length ≤ 511 ∧ log2.length ≤ 511 ∧
      Shader.CompileShaders env t [(k1, v1), (k2, v2)] =
        .ok { programID := programID }
          (t ++ [.glCreateProgram programID]
            ++ stageCommands k1 v1 id1 status1
            ++ (if status1 = 0 then stageReport id1 log1 else [])
            ++ stageCommands k2 v2 id2 status2
            ++ (if status2 = 0 then stageReport id2 log2 else [])
            ++ [.glAttachShader programID id1, .glAttachShader programID id2,
                .glLinkProgram programID, .glDeleteShader id1, .glDeleteShader id2]) := by
  obtain ⟨id1, s1, l1, hid1, hl1, h1⟩ :=
    compileStage_eq env (t ++ [.glCreateProgram (env.glCreateProgram t % 2 ^ 32)]) k1 v1
  obtain ⟨id2, s2, l2, hid2, hl2, h2⟩ := compileStage_eq env
    (t ++ [.glCreateProgram (env.glCreateProgram t % 2 ^ 32)] ++ stageCommands k1 v1 id1 s1 ++
      (if s1 = 0 then stageReport id1 l1 else [])) k2 v2
  refine ⟨env.glCreateProgram t % 2 ^ 32, id1, s1, l1, id2, s2, l2, hl1, hl2, ?_⟩
  simp only [Shader.CompileShaders, Shader.compileLoop, h1, h2, List.length_cons,
    List.length_nil, List.length_set, Nat.zero_add, Nat.reduceAdd, Nat.lt_add_one,
    Nat.one_lt_ofNat, if_true, List.set_cons_zero, List.set_cons_succ, Res.andThen,
    Shader.forEachID, toUInt32_toInt32 _ hid1, toUInt32_toInt32 _ hid2]
  simp [Shader.forEachID, toUInt32_toInt32 _ hid1, toUInt32_toInt32 _ hid2]

/-- What `ParseShader` returns when both files exist and are readable and writable and the C
library starts reading an append-mode stream at the beginning of the file. -/
theorem ParseShader_of_appendable {F : Type} (env : Env F) (t : Trace F)
    (vertex fragment : String) (fv ff : File)
    (hv : env.fs vertex = some fv) (hf : env.fs fragment = some ff)
    (hvr : fv.readable = true) (hvw : fv.writable = true)
    (hfr : ff.readable = true) (hfw : ff.writable = true)
    (hpos : env.appendOpensAtEnd = false) :
    Shader.ParseShader env t vertex fragment =
      .ok (if env.hashFront then
            [(GL_FRAGMENT_SHADER, ff.content), (GL_VERTEX_SHADER, fv.content)]
          else [(GL_VERTEX_SHADER, fv.content), (GL_FRAGMENT_SHADER, ff.content)]) t := by
  have h1 : ifstream env vertex { binary := true, app := true } = some fv.content := by
    simp [ifstream, stdioMode, fopenRead, hv, hvr, hvw, hpos]
  have h2 : ifstream env fragment { binary := true, app := true } = some ff.content := by
    simp [ifstream, stdioMode, fopenRead, hf, hfr, hfw, hpos]
  simp only [Shader.ParseShader, h1, h2]
  cases env.hashFront <;>
    simp [Res.andThen, unordered_map.assign, GL_VERTEX_SHADER, GL_FRAGMENT_SHADER]

/-- Whatever `ParseShader` returns iterates as exactly two entries, and it only prints. -/
theorem ParseShader_two_entries {F : Type} (env : Env F) (t : Trace F)
    (vertex fragment : String) (sources : unordered_map GLenum String) (t' : Trace F)
    (h : Shader.ParseShader env t vertex fragment = .ok sources t') :
    ∃ k1 v1 k2 v2 pre, sources = [(k1, v1), (k2, v2)] ∧ t' = t ++ pre ∧
      ∀ e ∈ pre, ∃ text, e = .stdout text := by
  simp only [Shader.ParseShader, Res.andThen, assertFalse] at h
  generalize ifstream env vertex _ = vi at h
  generalize ifstream env fragment _ = fi at h
  have hkeys : (GL_VERTEX_SHADER = GL_FRAGMENT_SHADER) = False := by
    simp [GL_VERTEX_SHADER, GL_FRAGMENT_SHADER]
  cases vi <;> cases fi <;> cases hnd : env.NDEBUG <;> cases hfront : env.hashFront <;>
    simp [hnd, hfront, unordered_map.assign, hkeys] at h <;>
    obtain ⟨h1, h2⟩ := h <;>
    first
    | exact ⟨_, _, _, _, [], h1.symm, by simpa using h2.symm, by simp⟩
    | exact ⟨_, _, _, _, _, h1.symm, h2.symm, by simp⟩

/-- C1: on a source map that iterates as two entries, whatever the two compile statuses are,
`Shader::CompileShaders` returns with `programID` set to the result of its one `glCreateProgram`
call, and the calls it made, info-log retrievals and printing left aside, are exactly:
`glCreateProgram`; for the first and then for the second source `glCreateShader`,
`glShaderSource`, `glCompileShader` and the compile-status query; `glAttachShader` for both
shader ids; one `glLinkProgram`; `glDeleteShader` for both shader ids. -/
theorem CompileShaders_command_sequence {F : Type} (env : Env F) (t : Trace F) (k1 k2 : GLenum)
    (v1 v2 : String) :
    ∃ programID id1 status1 id2 status2 t',
      Shader.CompileShaders env t [(k1, v1), (k2, v2)] = .ok { programID := programID } (t ++ t') ∧
      t'.filter (fun e => !e.isDiagnostic) =
        [.glCreateProgram programID,
         .glCreateShader k1 id1, .glShaderSource id1 1 v1, .glCompileShader id1,
         .glGetShaderiv id1 GL_COMPILE_STATUS status1,
         .glCreateShader k2 id2, .glShaderSource id2 1 v2, .glCompileShader id2,
         .glGetShaderiv id2 GL_COMPILE_STATUS status2,
         .glAttachShader programID id1, .glAttachShader programID id2,
         .glLinkProgram programID, .glDeleteShader id1, .glDeleteShader id2] := by
  obtain ⟨p, id1, s1, l1, id2, s2, l2, -, -, h⟩ := CompileShaders_two env t k1 k2 v1 v2
  refine ⟨p, id1, s1, id2, s2,
    [.glCreateProgram p] ++ stageCommands k1 v1 id1 s1
      ++ (if s1 = 0 then stageReport id1 l1 else [])
      ++ stageCommands k2 v2 id2 s2
      ++ (if s2 = 0 then stageReport id2 l2 else [])
      ++ [.glAttachShader p id1, .glAttachShader p id2, .glLinkProgram p,
          .glDeleteShader id1, .glDeleteShader id2], ?_, ?_⟩
  · rw [h]
    simp only [List.append_assoc]
  · by_cases h1 : s1 = 0 <;> by_cases h2 : s2 = 0 <;>
      simp [h1, h2, stageCommands, stageReport, Event.isDiagnostic]

/-- C7: on a source map that iterates as two entries, the trace of `Shader::CompileShaders`
is `glCreateProgram`, the four commands of the first stage, the report of the first stage, the
four commands of the second stage, the report of the second stage, and a rest without any
info-log retrieval or print; the report of a stage is `glGetShaderInfoLog(id, 512, ..)` into the
buffer (at most 511 characters) followed by the two prints when the stage's compile-status
query stored 0, and is empty otherwise. -/
theorem CompileShaders_reports_iff_failed {F : Type} (env : Env F) (t : Trace F)
    (k1 k2 : GLenum) (v1 v2 : String) :
    ∃ programID id1 status1 log1 id2 status2 log2 rest,
      Shader.CompileShaders env t [(k1, v1), (k2, v2)] =
        .ok { programID := programID }
          (t ++ [.glCreateProgram programID]
            ++ stageCommands k1 v1 id1 status1
            ++ (if status1 = 0 then stageReport id1 log1 else [])
            ++ stageCommands k2 v2 id2 status2
            ++ (if status2 = 0 then stageReport id2 log2 else [])
            ++ rest) ∧
      log1.length ≤ 511 ∧ log2.length ≤ 511 ∧ ∀ e ∈ rest, e.isDiagnostic = false := by
  obtain ⟨p, id1, s1, l1, id2, s2, l2, hl1, hl2, h⟩ := CompileShaders_two env t k1 k2 v1 v2
  refine ⟨p, id1, s1, l1, id2, s2, l2, _, h, hl1, hl2, ?_⟩
  intro e he
  simp only [List.mem_cons, List.mem_singleton, List.not_mem_nil, or_false] at he
  rcases he with rfl | rfl | rfl | rfl | rfl <;> rfl

/-- Whatever the environment, the constructor of `Shader` never queries the link status and
never retrieves the program info log. -/
theorem Shader_new_never_queries_link {F : Type} (env : Env F) (t : Trace F)
    (vertex fragment : String) (shader : Shader) (t' : Trace F)
    (h : Shader.new env t vertex fragment = .ok shader t') :
    ∀ e ∈ t'.drop t.length, e.isLinkReport = false := by
  unfold Shader.new at h
  cases hp : Shader.ParseShader env t vertex fragment with
  | fault f tf => simp [hp, Res.andThen] at h
  | ok sources tp =>
    obtain ⟨k1, v1, k2, v2, pre, rfl, rfl, hpre⟩ :=
      ParseShader_two_entries env t vertex fragment sources tp hp
    obtain ⟨p, id1, s1, l1, id2, s2, l2, -, -, hc⟩ := CompileShaders_two env (t ++ pre) k1 k2 v1 v2
    simp only [hp, Res.andThen, hc, Res.ok.injEq] at h
    obtain ⟨-, rfl⟩ := h
    intro e he
    simp only [List.append_assoc, List.drop_left] at he
    simp only [List.mem_append] at he
    rcases he with he | he | he | he | he | he | he
    · obtain ⟨text, rfl⟩ := hpre e he; rfl
    · simp at he; subst he; rfl
    · simp [stageCommands] at he; rcases he with rfl | rfl | rfl | rfl <;> rfl
    · split_ifs at he
      · simp [stageReport] at he; rcases he with rfl | rfl | rfl <;> rfl
      · simp at he
    · simp [stageCommands] at he; rcases he with rfl | rfl | rfl | rfl <;> rfl
    · split_ifs at he
      · simp [stageReport] at he; rcases he with rfl | rfl | rfl <;> rfl
      · simp at he
    · simp at he; rcases he with rfl | rfl | rfl | rfl | rfl <;> rfl

/-- C8: with two loadable shader files whose stages compile and a driver that reports a failed
link (link status 0), the constructor of `Shader` returns normally after `glLinkProgram` and
`glDeleteShader`: it never queries `GL_LINK_STATUS`, never retrieves the program info log and
prints nothing. -/
theorem Shader_new_link_failure_unreported :
    (∀ t program, linkFailEnv.linkStatus t program = 0) ∧
    Shader.new linkFailEnv [] "vertex.glsl" "fragment.glsl" =
      .ok { programID := 3 }
        [.glCreateProgram 3,
         .glCreateShader GL_VERTEX_SHADER 1, .glShaderSource 1 1 "void main(){}",
         .glCompileShader 1, .glGetShaderiv 1 GL_COMPILE_STATUS 1,
         .glCreateShader GL_FRAGMENT_SHADER 5, .glShaderSource 5 1 "void main(){discard;}",
         .glCompileShader 5, .glGetShaderiv 5 GL_COMPILE_STATUS 1,
         .glAttachShader 3 1, .glAttachShader 3 5, .glLinkProgram 3,
         .glDeleteShader 1, .glDeleteShader 5] := by
  refine ⟨fun _ _ => rfl, ?_⟩
  decide

/-- C9: with a vertex shader file that exists and is readable but not writable,
`Shader::ParseShader` does not return its contents: the stream opened with
`std::ios::binary | std::ios::app` fails, the diagnostic is printed, and the call aborts on the
assertion or, under `NDEBUG`, maps `GL_VERTEX_SHADER` to the empty string. -/
theorem ParseShader_read_only_file_not_loaded :
    (readOnlyEnv false).fs "vertex.glsl" = some ⟨"void main(){}", true, false⟩ ∧
    Shader.ParseShader (readOnlyEnv false) [] "vertex.glsl" "fragment.glsl" =
      .fault .assertFailed [.stdout "Could not load vertex shader source!\n"] ∧
    Shader.ParseShader (readOnlyEnv true) [] "vertex.glsl" "fragment.glsl" =
      .ok [(GL_VERTEX_SHADER, ""), (GL_FRAGMENT_SHADER, "void main(){discard;}")]
        [.stdout "Could not load vertex shader source!\n"] := by
  decide

/-! ## Camera -/

/-- C4 (as stated): the claim that every one of W, S, A, D, when pressed, produces its own
displacement fails when W and S are pressed together: only the W branch runs. -/
theorem OnUpdate_each_pressed_key_fails :
    ¬ (∀ (fns : MathFns ℚ) (self : Camera ℚ) (window : GLFWwindow),
        (window.glfwGetKey GLFW_KEY_W = GLFW_PRESS →
          (Camera.OnUpdate fns self window).cameraPos =
            self.cameraPos.add (Vec3.smul 0.05 self.cameraFront)) ∧
        (window.glfwGetKey GLFW_KEY_S = GLFW_PRESS →
          (Camera.OnUpdate fns self window).cameraPos =
            self.cameraPos.sub (Vec3.smul 0.05 self.cameraFront)) ∧
        (window.glfwGetKey GLFW_KEY_A = GLFW_PRESS →
          (Camera.OnUpdate fns self window).cameraPos =
            self.cameraPos.sub
              (Vec3.smul 0.05 (glm.normalize fns (glm.cross self.cameraFront self.cameraUp)))) ∧
        (window.glfwGetKey GLFW_KEY_D = GLFW_PRESS →
          (Camera.OnUpdate fns self window).cameraPos =
            self.cameraPos.add
              (Vec3.smul 0.05 (glm.normalize fns (glm.cross self.cameraFront self.cameraUp)))) ∧
        (window.glfwGetKey GLFW_KEY_W ≠ GLFW_PRESS → window.glfwGetKey GLFW_KEY_S ≠ GLFW_PRESS →
          window.glfwGetKey GLFW_KEY_A ≠ GLFW_PRESS → window.glfwGetKey GLFW_KEY_D ≠ GLFW_PRESS →
          (Camera.OnUpdate fns self window).cameraPos = self.cameraPos)) := by
  intro h
  have hS := (h ratFns Camera.init windowWS).2.1 (by decide)
  simp [Camera.OnUpdate, windowWS, Camera.init, Vec3.add, Vec3.sub, Vec3.smul,
    Camera.cameraSpeed, GLFW_KEY_W, GLFW_KEY_S, GLFW_PRESS] at hS
  norm_num at hS

/-- C4 (amended): `Camera::OnUpdate` moves `cameraPos` by the displacement of the first pressed
key in the order W, S, A, D, with `cameraSpeed` = 0.05: W adds `cameraSpeed * cameraFront`; S
without W subtracts it; A without W and S subtracts `cameraSpeed * normalize(cross(cameraFront,
cameraUp))`; D without W, S and A adds it; with none of the four pressed `cameraPos` is
unchanged. -/
theorem OnUpdate_first_pressed_key {F : Type} [LinearOrderedField F] (fns : MathFns F)
    (self : Camera F) (window : GLFWwindow) :
    (window.glfwGetKey GLFW_KEY_W = GLFW_PRESS →
      (Camera.OnUpdate fns self window).cameraPos =
        self.cameraPos.add (Vec3.smul 0.05 self.cameraFront)) ∧
    (window.glfwGetKey GLFW_KEY_W ≠ GLFW_PRESS → window.glfwGetKey GLFW_KEY_S = GLFW_PRESS →
      (Camera.OnUpdate fns self window).cameraPos =
        self.cameraPos.sub (Vec3.smul 0.05 self.cameraFront)) ∧
    (window.glfwGetKey GLFW_KEY_W ≠ GLFW_PRESS → window.glfwGetKey GLFW_KEY_S ≠ GLFW_PRESS →
      window.glfwGetKey GLFW_KEY_A = GLFW_PRESS →
      (Camera.OnUpdate fns self window).cameraPos =
        self.cameraPos.sub
          (Vec3.smul 0.05 (glm.normalize fns (glm.cross self.cameraFront self.cameraUp)))) ∧
    (window.glfwGetKey GLFW_KEY_W ≠ GLFW_PRESS → window.glfwGetKey GLFW_KEY_S ≠ GLFW_PRESS →
      window.glfwGetKey GLFW_KEY_A ≠ GLFW_PRESS → window.glfwGetKey GLFW_KEY_D = GLFW_PRESS →
      (Camera.OnUpdate fns self window).cameraPos =
        self.cameraPos.add
          (Vec3.smul 0.05 (glm.normalize fns (glm.cross self.cameraFront self.cameraUp)))) ∧
    (window.glfwGetKey GLFW_KEY_W ≠ GLFW_PRESS → window.glfwGetKey GLFW_KEY_S ≠ GLFW_PRESS →
      window.glfwGetKey GLFW_KEY_A ≠ GLFW_PRESS → window.glfwGetKey GLFW_KEY_D ≠ GLFW_PRESS →
      (Camera.OnUpdate fns self window).cameraPos = self.cameraPos) := by
  have hspeed : (Camera.cameraSpeed : F) = 0.05 := by
    unfold Camera.cameraSpeed
    norm_num
  have hcomm : ∀ v : Vec3 F, Vec3.muls v Camera.cameraSpeed = Vec3.smul 0.05 v := by
    intro v
    simp [Vec3.muls, Vec3.smul, hspeed, mul_comm]
  refine ⟨?_, ?_, ?_, ?_, ?_⟩
  · intro hW
    simp [Camera.OnUpdate, hW, hspeed]
  · intro hW hS
    simp [Camera.OnUpdate, hW, hS, hspeed]
  · intro hW hS hA
    simp [Camera.OnUpdate, hW, hS, hA, hcomm]
  · intro hW hS hA hD
    simp [Camera.OnUpdate, hW, hS, hA, hD, hcomm]
  · intro hW hS hA hD
    simp [Camera.OnUpdate, hW, hS, hA, hD]

/-- Witness for C4 (amended): with only S pressed the initial camera moves from (0, 0, 3) to
(0, 0, 3.05). -/
theorem OnUpdate_first_pressed_key_witness :
    (Camera.OnUpdate ratFns (Camera.init : Camera ℚ) windowS).cameraPos =
      (Camera.init : Camera ℚ).cameraPos.sub
        (Vec3.smul 0.05 (Camera.init : Camera ℚ).cameraFront) :=
  (OnUpdate_first_pressed_key ratFns Camera.init windowS).2.1 (by decide) (by decide)

/-- C5: with `firstMouse` false, `Camera::MouseOnUpdate(x, y)` sets `yaw` to
`yaw + 0.1 * (x - lastX)`, sets `pitch` to `pitch + 0.1 * (lastY - y)` clamped to [-89, 89], and
sets `lastX`, `lastY` to `x`, `y` (exact arithmetic in any ordered field). -/
theorem MouseOnUpdate_yaw_pitch {F : Type} [LinearOrderedField F] (fns : MathFns F)
    (self : Camera F) (x y : F) (h : self.firstMouse = false) :
    (Camera.MouseOnUpdate fns self x y).yaw = self.yaw + 0.1 * (x - self.lastX) ∧
    (Camera.MouseOnUpdate fns self x y).pitch =
      max (-89) (min 89 (self.pitch + 0.1 * (self.lastY - y))) ∧
    (Camera.MouseOnUpdate fns self x y).lastX = x ∧
    (Camera.MouseOnUpdate fns self x y).lastY = y := by
  have h01 : (0.1 : F) = 1 / 10 := by norm_num
  simp only [Camera.MouseOnUpdate, h, Bool.false_eq_true, if_false, h01]
  refine ⟨?_, ?_, ?_, ?_⟩
  · split_ifs <;> simp [mul_comm]
  · have hc : self.pitch + (self.lastY - y) * (1 / 10) = self.pitch + 1 / 10 * (self.lastY - y) := by
      ring
    rw [hc]
    generalize self.pitch + 1 / 10 * (self.lastY - y) = p
    by_cases h1 : p > 89
    · have h2 : ¬ ((89 : F) < -89) := by norm_num
      simp only [h1, if_true, h2, if_false]
      rw [min_eq_left (le_of_lt h1), max_eq_right (by norm_num)]
    · by_cases h2 : p < -89
      · simp only [h1, if_false, h2, if_true]
        rw [min_eq_right (le_of_not_lt h1), max_eq_left (le_of_lt h2)]
      · simp only [h1, if_false, h2]
        rw [min_eq_right (le_of_not_lt h1), max_eq_right (le_of_not_lt h2)]
  · split_ifs <;> rfl
  · split_ifs <;> rfl

/-- Witness for C5: from yaw -90, pitch 0, last position (400, 300), the cursor position
(500, 100) gives yaw -80 and pitch 20. -/
theorem MouseOnUpdate_yaw_pitch_witness :
    (trackingCamera.firstMouse = false) ∧
    (Camera.MouseOnUpdate ratFns trackingCamera 500 100).yaw =
      trackingCamera.yaw + 0.1 * (500 - trackingCamera.lastX) ∧
    (Camera.MouseOnUpdate ratFns trackingCamera 500 100).pitch =
      max (-89) (min 89 (trackingCamera.pitch + 0.1 * (trackingCamera.lastY - 100))) ∧
    (Camera.MouseOnUpdate ratFns trackingCamera 500 100).lastX = 500 ∧
    (Camera.MouseOnUpdate ratFns trackingCamera 500 100).lastY = 100 :=
  ⟨rfl, MouseOnUpdate_yaw_pitch ratFns trackingCamera 500 100 rfl⟩

/-- C6: over the reals, after every call of `Camera::MouseOnUpdate` the vector `cameraFront` is
(cos(rad(yaw)) * cos(rad(pitch)), sin(rad(pitch)), sin(rad(yaw)) * cos(rad(pitch))) at the
updated yaw and pitch: the normalisation divides by the length 1 and nothing else of the
previous state enters. -/
theorem MouseOnUpdate_cameraFront (self : Camera ℝ) (x y : ℝ) :
    (Camera.MouseOnUpdate ⟨Real.sqrt, Real.cos, Real.sin⟩ self x y).cameraFront =
      ⟨Real.cos (glm.radians (Camera.MouseOnUpdate ⟨Real.sqrt, Real.cos, Real.sin⟩ self x y).yaw) *
          Real.cos (glm.radians (Camera.MouseOnUpdate ⟨Real.sqrt, Real.cos, Real.sin⟩ self x y).pitch),
        Real.sin (glm.radians (Camera.MouseOnUpdate ⟨Real.sqrt, Real.cos, Real.sin⟩ self x y).pitch),
        Real.sin (glm.radians (Camera.MouseOnUpdate ⟨Real.sqrt, Real.cos, Real.sin⟩ self x y).yaw) *
          Real.cos (glm.radians (Camera.MouseOnUpdate ⟨Real.sqrt, Real.cos, Real.sin⟩ self x y).pitch)⟩ := by
  have hunit : ∀ a b : ℝ, glm.normalize ⟨Real.sqrt, Real.cos, Real.sin⟩
      (⟨Real.cos a * Real.cos b, Real.sin b, Real.sin a * Real.cos b⟩ : Vec3 ℝ) =
      ⟨Real.cos a * Real.cos b, Real.sin b, Real.sin a * Real.cos b⟩ := by
    intro a b
    have hdot : glm.dot (⟨Real.cos a * Real.cos b, Real.sin b, Real.sin a * Real.cos b⟩ : Vec3 ℝ)
        ⟨Real.cos a * Real.cos b, Real.sin b, Real.sin a * Real.cos b⟩ = 1 := by
      simp only [glm.dot]
      nlinarith [Real.sin_sq_add_cos_sq a, Real.sin_sq_add_cos_sq b]
    simp [glm.normalize, glm.inversesqrt, hdot, Vec3.muls]
  simp only [Camera.MouseOnUpdate]
  split_ifs <;> exact hunit _ _

/-! ## Model loader: vertices -/

theorem processVertex_eq_expected {F : Type} [Zero F] (mesh : aiMesh F) (i : Nat)
    (vertex : Vertex F) (h : Model.processVertex mesh i = some vertex) :
    vertex = expectedVertex mesh i := by
  unfold Model.processVertex at h
  unfold expectedVertex
  cases huv : mesh.mTextureCoords0 <;> cases htg : mesh.mTangents <;>
    cases hbt : mesh.mBitangents <;> simp_all

theorem vertexLoop_eq_expected {F : Type} [Zero F] (mesh : aiMesh F) :
    ∀ (remaining i : Nat) (acc vertices : List (Vertex F)),
      Model.vertexLoop mesh remaining i acc = some vertices →
      vertices = acc ++ (List.range' i remaining).map (expectedVertex mesh)
  | 0, i, acc, vertices, h => by
    simp [Model.vertexLoop] at h
    simp [h]
  | remaining + 1, i, acc, vertices, h => by
    unfold Model.vertexLoop at h
    cases hv : Model.processVertex mesh i with
    | none => simp [hv] at h
    | some vertex =>
      simp only [hv] at h
      have := vertexLoop_eq_expected mesh remaining (i + 1) _ _ h
      rw [this, processVertex_eq_expected mesh i vertex hv]
      simp [List.range'_succ]

theorem processVertex_isSome {F : Type} [Zero F] (mesh : aiMesh F) (i : Nat)
    (hn : mesh.mNumVertices ≠ 0) (h : mesh.tangentsPresent = true) :
    ∃ vertex, Model.processVertex mesh i = some vertex := by
  unfold Model.processVertex
  unfold aiMesh.tangentsPresent at h
  cases huv : mesh.mTextureCoords0 <;> cases htg : mesh.mTangents <;>
    cases hbt : mesh.mBitangents <;> simp_all

theorem vertexLoop_isSome {F : Type} [Zero F] (mesh : aiMesh F)
    (h : mesh.tangentsPresent = true) :
    ∀ (remaining i : Nat) (acc : List (Vertex F)), remaining ≤ mesh.mNumVertices →
      ∃ vertices, Model.vertexLoop mesh remaining i acc = some vertices
  | 0, i, acc, _ => ⟨acc, rfl⟩
  | remaining + 1, i, acc, hle => by
    obtain ⟨vertex, hv⟩ := processVertex_isSome mesh i (by omega) h
    obtain ⟨vertices, hvs⟩ :=
      vertexLoop_isSome mesh h remaining (i + 1) (acc ++ [vertex]) (by omega)
    exact ⟨vertices, by simp [Model.vertexLoop, hv, hvs]⟩

/-! ## Model loader: textures -/

theorem C_Str_idem (s : String) : C_Str (C_Str s) = C_Str s := by
  simp [C_Str, List.takeWhile_idem]

theorem filename_injective (dir p q : String) (h : dir ++ "/" ++ p = dir ++ "/" ++ q) : p = q := by
  have h1 := congrArg String.data h
  simp only [String.data_append, List.append_assoc, List.append_cancel_left_eq] at h1
  exact String.ext h1

theorem LoadTextureFromFileAsset_loadedFiles {F : Type} (env : Env F) (t : Trace F)
    (file dir : String) (id : GLuint) (t' : Trace F)
    (h : LoadTextureFromFileAsset env t file dir = .ok id t') :
    loadedFiles t' = loadedFiles t ++ [dir ++ "/" ++ file] := by
  unfold LoadTextureFromFileAsset at h
  simp only at h
  split at h
  · simp only [assertFalse, Res.andThen] at h
    cases hnd : env.NDEBUG <;> simp [hnd] at h
    rw [← h.2]
    simp [loadedFiles]
  · simp only [Res.ok.injEq] at h
    rw [← h.2]
    simp [loadedFiles]

theorem LoadTextureFromFileAsset_ok {F : Type} (env : Env F) (h : env.neverAborts)
    (t : Trace F) (file dir : String) :
    ∃ id t', LoadTextureFromFileAsset env t file dir = .ok id t' := by
  unfold LoadTextureFromFileAsset
  simp only
  split
  · rename_i hnone
    rcases h with h | h
    · simp [assertFalse, Res.andThen, h]
    · have := h (t ++ [.glGenTextures 1 (env.glGen t % 2 ^ 32)]) (dir ++ "/" ++ file)
      rw [hnone] at this
      exact Bool.noConfusion this
  · exact ⟨_, _, rfl⟩

theorem find_loaded_eq_none {F : Type} (self : Model F) (str : String)
    (hinv : self.PathsDistinct) :
    self.textures_loaded.find? (fun loaded => strcmpEq loaded.path str) = none ↔
      C_Str str ∉ self.paths := by
  simp only [List.find?_eq_none, strcmpEq, decide_eq_true_eq, Model.paths, List.mem_map,
    not_exists, not_and]
  constructor
  · intro h x hx hp
    exact h x hx (by rw [hinv.2 x.path (List.mem_map_of_mem _ hx), hp])
  · intro h x hx hp
    exact h x hx (by rw [← hinv.2 x.path (List.mem_map_of_mem _ hx), hp])

theorem loadMaterialTexturesLoop_spec {F : Type} (env : Env F) (typeName : String) :
    ∀ (strs : List aiString) (textures : List Texture) (self : Model F) (t : Trace F)
      (r : List Texture × Model F) (t' : Trace F),
      Model.loadMaterialTexturesLoop env typeName strs textures self t = .ok r t' →
      self.PathsDistinct →
      r.2.PathsDistinct ∧ r.2.directory = self.directory ∧ r.2.meshes = self.meshes ∧
      (∀ p, p ∈ r.2.paths ↔ p ∈ self.paths ∨ p ∈ strs.map C_Str) ∧
      ∃ added, r.2.paths = self.paths ++ added ∧
        loadedFiles t' = loadedFiles t ++ added.map (fun p => self.directory ++ "/" ++ p)
  | [], textures, self, t, r, t', h, hinv => by
    simp only [Model.loadMaterialTexturesLoop, Res.ok.injEq] at h
    obtain ⟨rfl, rfl⟩ := h
    exact ⟨hinv, rfl, rfl, by simp, [], by simp, by simp⟩
  | str :: rest, textures, self, t, r, t', h, hinv => by
    unfold Model.loadMaterialTexturesLoop at h
    cases hfind : self.textures_loaded.find? (fun loaded => strcmpEq loaded.path str) with
    | some loaded =>
      simp only [hfind] at h
      obtain ⟨h1, h2, h3, h4, added, h5, h6⟩ :=
        loadMaterialTexturesLoop_spec env typeName rest _ self t r t' h hinv
      refine ⟨h1, h2, h3, ?_, added, h5, h6⟩
      intro p
      rw [h4 p]
      have hmem : C_Str str ∈ self.paths := by
        by_contra hc
        rw [(find_loaded_eq_none self str hinv).2 hc] at hfind
        exact Option.noConfusion hfind
      simp only [List.map_cons, List.mem_cons]
      constructor
      · rintro (h | h)
        · exact Or.inl h
        · exact Or.inr (Or.inr h)
      · rintro (h | h | h)
        · exact Or.inl h
        · exact Or.inl (h ▸ hmem)
        · exact Or.inr h
    | none =>
      simp only [hfind] at h
      have hnot := (find_loaded_eq_none self str hinv).1 hfind
      cases hload : LoadTextureFromFileAsset env t (C_Str str) self.directory with
      | fault f tf => simp [hload, Res.andThen] at h
      | ok id tl =>
        simp only [hload, Res.andThen] at h
        have hinv' : Model.PathsDistinct
            { self with textures_loaded := self.textures_loaded ++
                [{ id := id, type := typeName, path := C_Str str }] } := by
          constructor
          · simp only [Model.paths, List.map_append, List.map_cons, List.map_nil]
            exact List.Nodup.append hinv.1 (List.nodup_singleton _)
              (by simpa [List.Disjoint, Model.paths] using hnot)
          · intro p hp
            simp only [Model.paths, List.map_append, List.map_cons, List.map_nil,
              List.mem_append, List.mem_singleton] at hp
            rcases hp with hp | hp
            · exact hinv.2 p hp
            · rw [hp, C_Str_idem]
        obtain ⟨h1, h2, h3, h4, added, h5, h6⟩ :=
          loadMaterialTexturesLoop_spec env typeName rest _ _ tl r t' h hinv'
        refine ⟨h1, h2, h3, ?_, C_Str str :: added, ?_, ?_⟩
        · intro p
          rw [h4 p]
          simp only [Model.paths, List.map_append, List.map_cons, List.map_nil, List.mem_append,
            List.mem_singleton, List.mem_cons]
          tauto
        · rw [h5]
          simp [Model.paths]
        · rw [h6, LoadTextureFromFileAsset_loadedFiles env t _ _ id tl hload]
          simp

theorem loadMaterialTexturesLoop_ok {F : Type} (env : Env F) (hab : env.neverAborts)
    (typeName : String) :
    ∀ (strs : List aiString) (textures : List Texture) (self : Model F) (t : Trace F),
      ∃ r t', Model.loadMaterialTexturesLoop env typeName strs textures self t = .ok r t'
  | [], textures, self, t => ⟨_, _, rfl⟩
  | str :: rest, textures, self, t => by
    unfold Model.loadMaterialTexturesLoop
    cases hfind : self.textures_loaded.find? (fun loaded => strcmpEq loaded.path str) with
    | some loaded => exact loadMaterialTexturesLoop_ok env hab typeName rest _ self t
    | none =>
      obtain ⟨id, tl, hload⟩ := LoadTextureFromFileAsset_ok env hab t (C_Str str) self.directory
      simp only [hload, Res.andThen]
      exact loadMaterialTexturesLoop_ok env hab typeName rest _ _ tl

theorem loadSequence_spec {F : Type} (env : Env F) :
    ∀ (calls : List LoadCall) (self : Model F) (t : Trace F) (self' : Model F) (t' : Trace F),
      Model.loadSequence env calls self t = .ok self' t' → self.PathsDistinct →
      self'.PathsDistinct ∧ self'.directory = self.directory ∧
      (∀ p, p ∈ self'.paths ↔ p ∈ self.paths ∨ p ∈ requestedPaths calls) ∧
      ∃ added, self'.paths = self.paths ++ added ∧
        loadedFiles t' = loadedFiles t ++ added.map (fun p => self.directory ++ "/" ++ p)
  | [], self, t, self', t', h, hinv => by
    simp only [Model.loadSequence, Res.ok.injEq] at h
    obtain ⟨rfl, rfl⟩ := h
    exact ⟨hinv, rfl, by simp [requestedPaths], [], by simp, by simp⟩
  | call :: rest, self, t, self', t', h, hinv => by
    unfold Model.loadSequence at h
    cases hcall : Model.loadMaterialTextures env self t call.mat call.type call.typeName with
    | fault f tf => simp [hcall, Res.andThen] at h
    | ok r tr =>
      simp only [hcall, Res.andThen] at h
      obtain ⟨h1, h2, -, h4, added1, h5, h6⟩ :=
        loadMaterialTexturesLoop_spec env _ _ _ self t r tr hcall hinv
      obtain ⟨g1, g2, g4, added2, g5, g6⟩ := loadSequence_spec env rest r.2 tr self' t' h h1
      refine ⟨g1, g2.trans h2, ?_, added1 ++ added2, ?_, ?_⟩
      · intro p
        rw [g4 p, h4 p]
        simp only [requestedPaths, List.flatMap_cons, List.mem_append]
        tauto
      · rw [g5, h5, List.append_assoc]
      · rw [g6, h6, h2]
        simp

theorem loadSequence_ok {F : Type} (env : Env F) (hab : env.neverAborts) :
    ∀ (calls : List LoadCall) (self : Model F) (t : Trace F),
      ∃ self' t', Model.loadSequence env calls self t = .ok self' t'
  | [], self, t => ⟨_, _, rfl⟩
  | call :: rest, self, t => by
    obtain ⟨r, tr, hr⟩ :=
      loadMaterialTexturesLoop_ok env hab call.typeName (call.mat.texturesOf call.type) [] self t
    obtain ⟨self', t', h⟩ := loadSequence_ok env hab rest r.2 tr
    exact ⟨self', t', by simp [Model.loadSequence, Model.loadMaterialTextures, hr, Res.andThen, h]⟩

/-- C3: for a `Model` whose `textures_loaded` is empty and any sequence of
`Model::loadMaterialTextures` calls: the sequence returns whenever no texture load can hit the
assertion, and when it returns, no two entries of `textures_loaded` have the same path, the
paths in `textures_loaded` are exactly the requested paths, the image loads made are, in order,
one per entry of `textures_loaded`, and for every requested path the file of that path was
loaded exactly once. -/
theorem loadSequence_loads_each_path_once {F : Type} (env : Env F) (calls : List LoadCall)
    (self : Model F) (t : Trace F) (hempty : self.textures_loaded = []) :
    (env.neverAborts → ∃ self' t', Model.loadSequence env calls self t = .ok self' t') ∧
    ∀ self' t', Model.loadSequence env calls self t = .ok self' t' →
      self'.paths.Nodup ∧
      (∀ p, p ∈ self'.paths ↔ p ∈ requestedPaths calls) ∧
      loadedFiles t' =
        loadedFiles t ++ self'.paths.map (fun p => self.directory ++ "/" ++ p) ∧
      ∀ p ∈ requestedPaths calls,
        ((loadedFiles t').drop (loadedFiles t).length).count (self.directory ++ "/" ++ p) = 1 := by
  refine ⟨fun hab => loadSequence_ok env hab calls self t, ?_⟩
  intro self' t' h
  have hinv : self.PathsDistinct := by simp [Model.PathsDistinct, Model.paths, hempty]
  obtain ⟨h1, -, h3, added, h4, h5⟩ := loadSequence_spec env calls self t self' t' h hinv
  have hpaths : self.paths = [] := by simp [Model.paths, hempty]
  rw [hpaths, List.nil_append] at h4
  have hmem : ∀ p, p ∈ self'.paths ↔ p ∈ requestedPaths calls := by
    intro p
    rw [h3 p, hpaths]
    simp
  refine ⟨h1.1, hmem, by rw [h5, h4], ?_⟩
  intro p hp
  rw [h5, List.drop_left, ← h4]
  apply List.count_eq_one_of_mem
  · exact List.Nodup.map (fun a b hab => filename_injective _ a b hab) h1.1
  · exact List.mem_map_of_mem _ ((hmem p).2 hp)

/-- Witness for C3: three calls that ask for `brick.png` twice return, with one image load for
each of the three distinct paths. -/
theorem loadSequence_loads_each_path_once_witness :
    emptyModel.textures_loaded = [] ∧
    (∃ self' t', Model.loadSequence loaderEnv exampleCalls emptyModel [] = .ok self' t') ∧
    ∀ self' t', Model.loadSequence loaderEnv exampleCalls emptyModel [] = .ok self' t' →
      self'.paths.Nodup ∧
      (∀ p, p ∈ self'.paths ↔ p ∈ requestedPaths exampleCalls) ∧
      loadedFiles t' =
        loadedFiles ([] : Trace ℚ) ++ self'.paths.map (fun p => emptyModel.directory ++ "/" ++ p) ∧
      ∀ p ∈ requestedPaths exampleCalls,
        ((loadedFiles t').drop (loadedFiles ([] : Trace ℚ)).length).count
          (emptyModel.directory ++ "/" ++ p) = 1 :=
  ⟨rfl,
   (loadSequence_loads_each_path_once loaderEnv exampleCalls emptyModel [] rfl).1
     (Or.inr fun _ _ => rfl),
   (loadSequence_loads_each_path_once loaderEnv exampleCalls emptyModel [] rfl).2⟩

/-- The run of the example calls: the paths of `textures_loaded` and the files loaded. -/
theorem loadSequence_example :
    (Model.loadSequence loaderEnv exampleCalls emptyModel []).andThen
        (fun self t => .ok (self.paths, loadedFiles t) []) =
      .ok (["brick.png", "brick_spec.png", "wall.png"],
           ["assets/brick.png", "assets/brick_spec.png", "assets/wall.png"]) [] := by
  decide

/-! ## Model loader: meshes and nodes -/

theorem loadMaterialTexturesLoop_meshes {F : Type} (env : Env F) (typeName : String) :
    ∀ (strs : List aiString) (textures : List Texture) (self : Model F) (t : Trace F)
      (r : List Texture × Model F) (t' : Trace F),
      Model.loadMaterialTexturesLoop env typeName strs textures self t = .ok r t' →
      r.2.meshes = self.meshes
  | [], textures, self, t, r, t', h => by
    simp only [Model.loadMaterialTexturesLoop, Res.ok.injEq] at h
    rw [← h.1]
  | str :: rest, textures, self, t, r, t', h => by
    unfold Model.loadMaterialTexturesLoop at h
    cases hfind : self.textures_loaded.find? (fun loaded => strcmpEq loaded.path str) with
    | some loaded =>
      simp only [hfind] at h
      exact loadMaterialTexturesLoop_meshes env typeName rest _ self t r t' h
    | none =>
      simp only [hfind] at h
      cases hload : LoadTextureFromFileAsset env t (C_Str str) self.directory with
      | fault f tf => simp [hload, Res.andThen] at h
      | ok id tl =>
        simp only [hload, Res.andThen] at h
        exact loadMaterialTexturesLoop_meshes env typeName rest _
          { self with textures_loaded := self.textures_loaded ++
              [{ id := id, type := typeName, path := C_Str str }] } tl r t' h

theorem loadMaterialTextures_meshes {F : Type} (env : Env F) (self : Model F) (t : Trace F)
    (mat : aiMaterial) (type : aiTextureType) (typeName : String)
    (r : List Texture × Model F) (t' : Trace F)
    (h : Model.loadMaterialTextures env self t mat type typeName = .ok r t') :
    r.2.meshes = self.meshes :=
  loadMaterialTexturesLoop_meshes env typeName _ _ self t r t' h

theorem loadMaterialTextures_ok {F : Type} (env : Env F) (hab : env.neverAborts)
    (self : Model F) (t : Trace F) (mat : aiMaterial) (type : aiTextureType)
    (typeName : String) :
    ∃ r t', Model.loadMaterialTextures env self t mat type typeName = .ok r t' :=
  loadMaterialTexturesLoop_ok env hab typeName _ _ self t

/-- What a returning `processMesh` has built: one expected vertex per index below
`mNumVertices`, in index order, the indices of the faces, and an unchanged `meshes`. -/
theorem processMesh_geometry {F : Type} [Zero F] (env : Env F) (self : Model F) (t : Trace F)
    (mesh : aiMesh F) (scene : aiScene F) (r : Mesh F × Model F) (t' : Trace F)
    (h : Model.processMesh env self t mesh scene = .ok r t') :
    r.1.vertices = (List.range mesh.mNumVertices).map (expectedVertex mesh) ∧
    r.1.indices = Model.indexLoop mesh.mFaces ∧ r.2.meshes = self.meshes := by
  unfold Model.processMesh at h
  cases hv : Model.vertexLoop mesh mesh.mNumVertices 0 [] with
  | none => simp [hv] at h
  | some vertices =>
    have hvs := vertexLoop_eq_expected mesh _ _ _ _ hv
    rw [List.nil_append, ← List.range_eq_range'] at hvs
    cases hm : scene.mMaterials[mesh.mMaterialIndex]? with
    | none => simp [hv, hm] at h
    | some material =>
      simp only [hv, hm] at h
      cases h1 : Model.loadMaterialTextures env self t material .DIFFUSE "texture_diffuse" with
      | fault f tf => simp [h1, Res.andThen] at h
      | ok r1 t1 =>
        simp only [h1, Res.andThen] at h
        cases h2 : Model.loadMaterialTextures env r1.2 t1 material .SPECULAR
            "texture_specular" with
        | fault f tf => simp [h2] at h
        | ok r2 t2 =>
          simp only [h2] at h
          cases h3 : Model.loadMaterialTextures env r2.2 t2 material .HEIGHT
              "texture_normal" with
          | fault f tf => simp [h3] at h
          | ok r3 t3 =>
            simp only [h3] at h
            cases h4 : Model.loadMaterialTextures env r3.2 t3 material .AMBIENT
                "texture_height" with
            | fault f tf => simp [h4] at h
            | ok r4 t4 =>
              simp only [h4, Res.ok.injEq] at h
              obtain ⟨rfl, -⟩ := h
              refine ⟨by simp [Mesh.new, Mesh.SetupMesh, hvs], by simp [Mesh.new, Mesh.SetupMesh],
                ?_⟩
              simp only
              rw [loadMaterialTextures_meshes env _ _ _ _ _ _ _ h4,
                loadMaterialTextures_meshes env _ _ _ _ _ _ _ h3,
                loadMaterialTextures_meshes env _ _ _ _ _ _ _ h2,
                loadMaterialTextures_meshes env _ _ _ _ _ _ _ h1]

/-- When `processMesh` returns: no null array is read, the material exists and no texture load
hits the assertion. -/
theorem processMesh_ok {F : Type} [Zero F] (env : Env F) (hab : env.neverAborts)
    (self : Model F) (t : Trace F) (mesh : aiMesh F) (scene : aiScene F)
    (htan : mesh.tangentsPresent = true) (hmat : mesh.mMaterialIndex < scene.mMaterials.length) :
    ∃ r t', Model.processMesh env self t mesh scene = .ok r t' := by
  unfold Model.processMesh
  have hv : ∃ vertices, Model.vertexLoop mesh mesh.mNumVertices 0 [] = some vertices := by
    by_cases hn : mesh.mNumVertices = 0
    · rw [hn]
      exact ⟨[], rfl⟩
    · exact vertexLoop_isSome mesh htan _ _ _ (le_refl _)
  obtain ⟨vertices, hv⟩ := hv
  obtain ⟨material, hm⟩ : ∃ material, scene.mMaterials[mesh.mMaterialIndex]? = some material :=
    ⟨_, List.getElem?_eq_getElem hmat⟩
  obtain ⟨r1, t1, h1⟩ := loadMaterialTextures_ok env hab self t material .DIFFUSE "texture_diffuse"
  obtain ⟨r2, t2, h2⟩ :=
    loadMaterialTextures_ok env hab r1.2 t1 material .SPECULAR "texture_specular"
  obtain ⟨r3, t3, h3⟩ := loadMaterialTextures_ok env hab r2.2 t2 material .HEIGHT "texture_normal"
  obtain ⟨r4, t4, h4⟩ := loadMaterialTextures_ok env hab r3.2 t3 material .AMBIENT "texture_height"
  simp only [hv, hm, h1, h2, h3, h4, Res.andThen]
  exact ⟨_, _, rfl⟩

theorem processNodeMeshes_append {F : Type} [Zero F] (env : Env F) (scene : aiScene F) :
    ∀ (a b : List Nat) (self : Model F) (t : Trace F),
      Model.processNodeMeshes env scene (a ++ b) self t =
        (Model.processNodeMeshes env scene a self t).andThen fun self t =>
          Model.processNodeMeshes env scene b self t
  | [], b, self, t => by simp [Model.processNodeMeshes, Res.andThen]
  | idx :: a, b, self, t => by
    simp only [List.cons_append, Model.processNodeMeshes]
    cases scene.mMeshes[idx]? with
    | none => simp [Res.andThen]
    | some mesh =>
      simp only
      cases Model.processMesh env self t mesh scene with
      | fault f tf => simp [Res.andThen]
      | ok r tr =>
        simp only [Res.andThen]
        exact processNodeMeshes_append env scene a b _ tr

mutual
theorem processNode_eq_preorder {F : Type} [Zero F] (env : Env F) (scene : aiScene F) :
    ∀ (node : aiNode) (self : Model F) (t : Trace F),
      Model.processNode env scene node self t =
        Model.processNodeMeshes env scene node.preorder self t
  | .mk mMeshes mChildren, self, t => by
    rw [Model.processNode, aiNode.preorder, processNodeMeshes_append]
    congr 1
    funext self t
    exact processChildren_eq_preorder env scene mChildren self t
theorem processChildren_eq_preorder {F : Type} [Zero F] (env : Env F) (scene : aiScene F) :
    ∀ (children : List aiNode) (self : Model F) (t : Trace F),
      Model.processChildren env scene children self t =
        Model.processNodeMeshes env scene (aiNode.preorderChildren children) self t
  | [], self, t => by simp [Model.processChildren, aiNode.preorderChildren, Model.processNodeMeshes]
  | child :: rest, self, t => by
    rw [Model.processChildren, aiNode.preorderChildren, processNodeMeshes_append,
      processNode_eq_preorder env scene child self t]
    congr 1
    funext self t
    exact processChildren_eq_preorder env scene rest self t
end

mutual
theorem preorder_eq_flatMap : ∀ node : aiNode, node.preorder = node.nodes.flatMap aiNode.mMeshes
  | .mk mMeshes mChildren => by
    rw [aiNode.preorder, aiNode.nodes, List.flatMap_cons, preorderChildren_eq_flatMap mChildren]
    rfl
theorem preorderChildren_eq_flatMap :
    ∀ children : List aiNode,
      aiNode.preorderChildren children = (aiNode.nodesChildren children).flatMap aiNode.mMeshes
  | [] => by simp [aiNode.preorderChildren, aiNode.nodesChildren]
  | child :: rest => by
    rw [aiNode.preorderChildren, aiNode.nodesChildren, List.flatMap_append,
      preorder_eq_flatMap child, preorderChildren_eq_flatMap rest]
end

theorem length_flatMap_mMeshes (nodes : List aiNode) :
    (nodes.flatMap aiNode.mMeshes).length = (nodes.map aiNode.mNumMeshes).sum := by
  induction nodes with
  | nil => rfl
  | cons node rest ih => simp [List.flatMap_cons, ih, aiNode.mNumMeshes]

theorem processNodeMeshes_appended {F : Type} [Zero F] (env : Env F) (scene : aiScene F) :
    ∀ (idxs : List Nat) (self : Model F) (t : Trace F) (self' : Model F) (t' : Trace F),
      Model.processNodeMeshes env scene idxs self t = .ok self' t' →
      ∃ appended, self'.meshes = self.meshes ++ appended ∧
        List.Forall₂ (Mesh.copiedFrom scene) appended idxs
  | [], self, t, self', t', h => by
    simp only [Model.processNodeMeshes, Res.ok.injEq] at h
    exact ⟨[], by simp [h.1], List.Forall₂.nil⟩
  | idx :: rest, self, t, self', t', h => by
    unfold Model.processNodeMeshes at h
    cases hm : scene.mMeshes[idx]? with
    | none => simp [hm] at h
    | some mesh =>
      simp only [hm] at h
      cases hp : Model.processMesh env self t mesh scene with
      | fault f tf => simp [hp, Res.andThen] at h
      | ok r tr =>
        simp only [hp, Res.andThen] at h
        obtain ⟨appended, h1, h2⟩ := processNodeMeshes_appended env scene rest _ tr self' t' h
        obtain ⟨g1, g2, g3⟩ := processMesh_geometry env self t mesh scene r tr hp
        refine ⟨r.1 :: appended, ?_, List.Forall₂.cons ⟨mesh, hm, g1, g2⟩ h2⟩
        rw [h1]
        simp [g3]

theorem processNodeMeshes_ok {F : Type} [Zero F] (env : Env F) (hab : env.neverAborts)
    (scene : aiScene F) :
    ∀ (idxs : List Nat) (self : Model F) (t : Trace F),
      (∀ idx ∈ idxs, scene.meshUsable idx = true) →
      ∃ self' t', Model.processNodeMeshes env scene idxs self t = .ok self' t'
  | [], self, t, _ => ⟨_, _, rfl⟩
  | idx :: rest, self, t, h => by
    have hidx := h idx (List.mem_cons_self _ _)
    unfold aiScene.meshUsable at hidx
    unfold Model.processNodeMeshes
    cases hm : scene.mMeshes[idx]? with
    | none => simp [hm] at hidx
    | some mesh =>
      simp only [hm, Bool.and_eq_true, decide_eq_true_eq] at hidx
      obtain ⟨r, tr, hp⟩ := processMesh_ok env hab self t mesh scene hidx.1 hidx.2
      simp only [hp, Res.andThen]
      exact processNodeMeshes_ok env hab scene rest _ tr
        (fun i hi => h i (List.mem_cons_of_mem _ hi))

/-- C2: `Model::processNode` is a total function of the finite tree, and its effect is that of
processing, one after the other, the meshes of the pre-order list of the subtree (the node's own
`mMeshes` in order, then the complete subtree of each child in child order); that list is the
concatenation of `mMeshes` over the nodes of the subtree, each node taken once, so its length
is the sum of `mNumMeshes` over all nodes.  When the walk returns, `meshes` has grown by exactly
that many meshes, the i-th appended mesh carrying the geometry of the i-th mesh of the
pre-order list; and the walk returns whenever every listed index designates a scene mesh that
`processMesh` can read and no texture load can hit the assertion. -/
theorem processNode_preorder {F : Type} [Zero F] (env : Env F) (scene : aiScene F)
    (node : aiNode) (self : Model F) (t : Trace F) :
    Model.processNode env scene node self t =
      Model.processNodeMeshes env scene node.preorder self t ∧
    node.preorder = node.nodes.flatMap aiNode.mMeshes ∧
    node.preorder.length = (node.nodes.map aiNode.mNumMeshes).sum ∧
    (∀ self' t', Model.processNode env scene node self t = .ok self' t' →
      ∃ appended, self'.meshes = self.meshes ++ appended ∧
        appended.length = (node.nodes.map aiNode.mNumMeshes).sum ∧
        List.Forall₂ (Mesh.copiedFrom scene) appended node.preorder) ∧
    ((∀ idx ∈ node.preorder, scene.meshUsable idx = true) → env.neverAborts →
      ∃ self' t', Model.processNode env scene node self t = .ok self' t') := by
  have hlen : node.preorder.length = (node.nodes.map aiNode.mNumMeshes).sum := by
    rw [preorder_eq_flatMap, length_flatMap_mMeshes]
  refine ⟨processNode_eq_preorder env scene node self t, preorder_eq_flatMap node, hlen, ?_, ?_⟩
  · intro self' t' h
    rw [processNode_eq_preorder] at h
    obtain ⟨appended, h1, h2⟩ := processNodeMeshes_appended env scene _ self t self' t' h
    exact ⟨appended, h1, by rw [h2.length_eq, hlen], h2⟩
  · intro husable hab
    rw [processNode_eq_preorder]
    exact processNodeMeshes_ok env hab scene _ self t husable

/-- Witness for C2: the walk of the example tree (four nodes, four mesh references) over the
triangle scene returns. -/
theorem processNode_preorder_witness :
    (∀ idx ∈ exampleRoot.preorder, triangleScene.meshUsable idx = true) ∧
    loaderEnv.neverAborts ∧
    ∃ self' t', Model.processNode loaderEnv triangleScene exampleRoot emptyModel [] =
      .ok self' t' :=
  ⟨by decide, Or.inr fun _ _ => rfl,
   (processNode_preorder loaderEnv triangleScene exampleRoot emptyModel []).2.2.2.2 (by decide)
     (Or.inr fun _ _ => rfl)⟩

/-- The walk of the example tree: the meshes appended and the textures loaded. -/
theorem processNode_example :
    (Model.processNode loaderEnv triangleScene exampleRoot emptyModel []).andThen
        (fun self _ => .ok (self.meshes.map (fun m => m.indices), self.paths) []) =
      .ok ([[0, 1, 2], [0, 1, 2], [0, 1, 2], [0, 1, 2]], ["brick.png", "brick_spec.png"]) [] := by
  decide

/-- What `processMesh` builds for a mesh that has tangents and bitangents whenever it has UV
set 0, with a valid material index, when no texture load can hit the assertion: a vertex list of
length `mNumVertices` whose i-th element has the i-th position, the i-th normal when the mesh
has normals, and the i-th coordinate of UV set 0 when that set exists and (0, 0) otherwise. -/
theorem processMesh_vertices {F : Type} [Zero F] (env : Env F) (hab : env.neverAborts)
    (self : Model F) (t : Trace F) (mesh : aiMesh F) (scene : aiScene F)
    (htan : mesh.tangentsPresent = true) (hmat : mesh.mMaterialIndex < scene.mMaterials.length) :
    ∃ r t', Model.processMesh env self t mesh scene = .ok r t' ∧
      r.1.vertices.length = mesh.mNumVertices ∧
      ∀ i, i < mesh.mNumVertices → ∃ v, r.1.vertices[i]? = some v ∧
        v.position = mesh.mVertices i ∧
        (∀ normals, mesh.mNormals = some normals → v.normal = some (normals i)) ∧
        (∀ uv, mesh.mTextureCoords0 = some uv → v.TexCoords = ⟨(uv i).x, (uv i).y⟩) ∧
        (mesh.mTextureCoords0 = none → v.TexCoords = ⟨0, 0⟩) := by
  obtain ⟨r, t', h⟩ := processMesh_ok env hab self t mesh scene htan hmat
  obtain ⟨hv, -, -⟩ := processMesh_geometry env self t mesh scene r t' h
  refine ⟨r, t', h, by simp [hv], ?_⟩
  intro i hi
  refine ⟨expectedVertex mesh i, by simp [hv, hi], rfl, ?_, ?_, ?_⟩
  · intro normals hn
    have hpos : mesh.mNumVertices > 0 := by omega
    simp [expectedVertex, aiMesh.HasNormals, hn, hpos]
  · intro uv huv
    simp [expectedVertex, huv]
  · intro huv
    simp [expectedVertex, huv]

/-- C10: on a mesh of two vertices that has UV set 0 but neither tangents nor bitangents,
`Model::processMesh` produces no vertex list: building the first vertex reads `mTangents[0]`
through a null pointer. -/
theorem processMesh_null_tangents :
    lineMesh.mTextureCoords0.isSome = true ∧ lineMesh.mTangents.isNone = true ∧
    Model.processMesh loaderEnv emptyModel [] lineMesh exampleScene =
      .fault .undefinedBehaviour [] := by
  decide


/-! ## Model loader: indices -/

theorem foldl_push_eq_append (l acc : List Nat) :
    l.foldl (fun indices j => indices ++ [j]) acc = acc ++ l := by
  induction l generalizing acc with
  | nil => simp
  | cons j rest ih => simp [List.foldl_cons, ih]

theorem indexLoop_eq_flatMap (mFaces : List aiFace) :
    Model.indexLoop mFaces = mFaces.flatMap aiFace.mIndices := by
  have h : ∀ acc : List Nat,
      mFaces.foldl
        (fun indices face => face.mIndices.foldl (fun indices j => indices ++ [j]) indices) acc =
      acc ++ mFaces.flatMap aiFace.mIndices := by
    induction mFaces with
    | nil => simp
    | cons face rest ih =>
      intro acc
      rw [List.foldl_cons, foldl_push_eq_append, ih, List.flatMap_cons, List.append_assoc]
  simpa [Model.indexLoop] using h []

theorem length_flatMap_mIndices (mFaces : List aiFace) :
    (mFaces.flatMap aiFace.mIndices).length = (mFaces.map aiFace.mNumIndices).sum := by
  induction mFaces with
  | nil => rfl
  | cons face rest ih => simp [List.flatMap_cons, ih, aiFace.mNumIndices]

/-- C11: the two nested index loops of `Model::processMesh` build the concatenation, in face
order, of the indices of each face in their order within the face, whose length is the sum of
`mNumIndices` over the faces; that list is the index list of the mesh `processMesh` returns,
and `processMesh` returns whenever the mesh can be read, its material exists and no texture
load can hit the assertion. -/
theorem processMesh_indices {F : Type} [Zero F] (env : Env F) (self : Model F) (t : Trace F)
    (mesh : aiMesh F) (scene : aiScene F) :
    Model.indexLoop mesh.mFaces = mesh.mFaces.flatMap aiFace.mIndices ∧
    (Model.indexLoop mesh.mFaces).length = (mesh.mFaces.map aiFace.mNumIndices).sum ∧
    (∀ r t', Model.processMesh env self t mesh scene = .ok r t' →
      r.1.indices = mesh.mFaces.flatMap aiFace.mIndices ∧
      r.1.indices.length = (mesh.mFaces.map aiFace.mNumIndices).sum) ∧
    (env.neverAborts → mesh.tangentsPresent = true →
      mesh.mMaterialIndex < scene.mMaterials.length →
      ∃ r t', Model.processMesh env self t mesh scene = .ok r t') := by
  have hlen : (Model.indexLoop mesh.mFaces).length = (mesh.mFaces.map aiFace.mNumIndices).sum := by
    rw [indexLoop_eq_flatMap, length_flatMap_mIndices]
  refine ⟨indexLoop_eq_flatMap _, hlen, ?_, ?_⟩
  · intro r t' h
    obtain ⟨-, hi, -⟩ := processMesh_geometry env self t mesh scene r t' h
    rw [hi]
    exact ⟨indexLoop_eq_flatMap _, hlen⟩
  · intro hab htan hmat
    exact processMesh_ok env hab self t mesh scene htan hmat

/-- Witness for C11: `processMesh` returns on the triangle of the triangle scene. -/
theorem processMesh_indices_witness :
    loaderEnv.neverAborts ∧ triangleMesh.tangentsPresent = true ∧
    triangleMesh.mMaterialIndex < triangleScene.mMaterials.length ∧
    ∃ r t', Model.processMesh loaderEnv emptyModel [] triangleMesh triangleScene = .ok r t' :=
  ⟨Or.inr fun _ _ => rfl, by decide, by decide,
   (processMesh_indices loaderEnv emptyModel [] triangleMesh triangleScene).2.2.2
     (Or.inr fun _ _ => rfl) (by decide) (by decide)⟩

/-! ## Import failure and failed texture loads -/

theorem Model_Draw_no_meshes {F : Type} (env : Env F) (self : Model F) (shader : Shader)
    (t : Trace F) (h : self.meshes = []) : Model.Draw env self shader t = t := by
  simp [Model.Draw, h]

/-- C14: when the importer returns no scene, a scene flagged incomplete or a scene without a
root node, `Model::loadModel` prints one diagnostic line and returns normally with the `Model`
unchanged; the constructed `Model` then has empty `meshes`, `textures_loaded` and `directory`,
and `Model::Draw` on a `Model` without meshes issues no call at all. -/
theorem loadModel_import_failure {F : Type} [Zero F] (env : Env F) (importer : Importer F)
    (t : Trace F) (path : String) (h : importer.failsOn path) :
    (∀ self : Model F, Model.loadModel env importer self t path =
      .ok self (t ++ [.stdout ("ERROR::ASSIMP:: " ++ importer.GetErrorString path ++ "\n")])) ∧
    (∀ gamma, Model.new env importer t path gamma =
      .ok { textures_loaded := [], meshes := [], directory := "", gammaCorrection := gamma }
        (t ++ [.stdout ("ERROR::ASSIMP:: " ++ importer.GetErrorString path ++ "\n")])) ∧
    (∀ (gamma : Bool) (shader : Shader) (t2 : Trace F),
      Model.Draw env
        { textures_loaded := [], meshes := [], directory := "", gammaCorrection := gamma }
        shader t2 = t2) := by
  have hload : ∀ self : Model F, Model.loadModel env importer self t path =
      .ok self (t ++ [.stdout ("ERROR::ASSIMP:: " ++ importer.GetErrorString path ++ "\n")]) := by
    intro self
    unfold Model.loadModel
    rcases h with h | ⟨scene, h, hflag | hroot⟩
    · simp only [loadModelFlags] at h
      simp [h]
    · simp only [loadModelFlags] at h
      simp [h, hflag]
    · simp only [loadModelFlags] at h
      simp only [h, hroot]
      split_ifs <;> rfl
  exact ⟨hload, fun gamma => hload _, fun gamma shader t2 => Model_Draw_no_meshes env _ shader t2 rfl⟩

/-- Witness for C14: an importer that cannot open the file. -/
theorem loadModel_import_failure_witness :
    missingFileImporter.failsOn "backpack.obj" ∧
    Model.new loaderEnv missingFileImporter [] "backpack.obj" false =
      .ok { textures_loaded := [], meshes := [], directory := "", gammaCorrection := false }
        [.stdout "ERROR::ASSIMP:: Unable to open file \"backpack.obj\".\n"] :=
  ⟨Or.inl rfl,
   (loadModel_import_failure loaderEnv missingFileImporter [] "backpack.obj" (Or.inl rfl)).2.1
     false⟩

/-- C15: when `stbi_load` returns a null pointer, `LoadTextureFromFileAsset` has generated a
texture name, prints the diagnostic and then aborts on the assertion or, under `NDEBUG`,
returns 0; the trace up to there holds no `glBindTexture` and no `glTexImage2D`, and a returned
id is 0. -/
theorem LoadTextureFromFileAsset_failed_load {F : Type} (env : Env F) (t : Trace F)
    (file dir : String)
    (h : env.stbi_load (t ++ [.glGenTextures 1 (env.glGen t % 2 ^ 32)]) (dir ++ "/" ++ file) =
      none) :
    LoadTextureFromFileAsset env t file dir =
      (if env.NDEBUG then
        .ok 0 (t ++ [.glGenTextures 1 (env.glGen t % 2 ^ 32),
          .stbi_load (dir ++ "/" ++ file) none,
          .stdout ("Could not load imaged texture ====> " ++ (dir ++ "/" ++ file) ++ "\n")])
      else
        .fault .assertFailed (t ++ [.glGenTextures 1 (env.glGen t % 2 ^ 32),
          .stbi_load (dir ++ "/" ++ file) none,
          .stdout ("Could not load imaged texture ====> " ++ (dir ++ "/" ++ file) ++ "\n")])) ∧
    ∀ id t', LoadTextureFromFileAsset env t file dir = .ok id t' → id = 0 := by
  have heq : LoadTextureFromFileAsset env t file dir =
      (if env.NDEBUG then
        .ok 0 (t ++ [.glGenTextures 1 (env.glGen t % 2 ^ 32),
          .stbi_load (dir ++ "/" ++ file) none,
          .stdout ("Could not load imaged texture ====> " ++ (dir ++ "/" ++ file) ++ "\n")])
      else
        .fault .assertFailed (t ++ [.glGenTextures 1 (env.glGen t % 2 ^ 32),
          .stbi_load (dir ++ "/" ++ file) none,
          .stdout ("Could not load imaged texture ====> " ++ (dir ++ "/" ++ file) ++ "\n")])) := by
    unfold LoadTextureFromFileAsset
    simp only [h, assertFalse, Res.andThen]
    cases env.NDEBUG <;> simp
  refine ⟨heq, ?_⟩
  intro id t' hok
  rw [heq] at hok
  cases hnd : env.NDEBUG <;> simp [hnd] at hok
  exact hok.1.symm

/-- Witness for C15: with assertions compiled out the failed load of `assets/wall.png`
returns 0 after the diagnostic. -/
theorem LoadTextureFromFileAsset_failed_load_witness :
    LoadTextureFromFileAsset (noImageEnv true) [] "wall.png" "assets" =
      .ok 0 [.glGenTextures 1 0, .stbi_load "assets/wall.png" none,
        .stdout "Could not load imaged texture ====> assets/wall.png\n"] :=
  (LoadTextureFromFileAsset_failed_load (noImageEnv true) [] "wall.png" "assets" rfl).1

/-! ## Field of view -/

theorem MouseOnScrollback_fov_eq {F : Type} [LinearOrderedField F] (self : Camera F)
    (xOffset yOffset : F) :
    (Camera.MouseOnScrollback self xOffset yOffset).fov = max 1 (min 45 yOffset) := by
  simp only [Camera.MouseOnScrollback]
  by_cases h1 : yOffset < 1
  · have h2 : ¬ ((1 : F) > 45) := by norm_num
    simp only [h1, if_true, h2, if_false]
    rw [min_eq_right (le_trans (le_of_lt h1) (by norm_num)), max_eq_left (le_of_lt h1)]
  · by_cases h2 : yOffset > 45
    · simp only [h1, if_false, h2, if_true]
      rw [min_eq_left (le_of_lt h2), max_eq_right (by norm_num)]
    · simp only [h1, if_false, h2]
      rw [min_eq_right (le_of_not_lt h2), max_eq_right (le_of_not_lt h1)]

theorem OnUpdate_fov {F : Type} [LinearOrderedField F] (fns : MathFns F) (self : Camera F)
    (window : GLFWwindow) : (Camera.OnUpdate fns self window).fov = self.fov := by
  unfold Camera.OnUpdate
  split_ifs <;> rfl

theorem MouseOnUpdate_fov {F : Type} [LinearOrderedField F] (fns : MathFns F) (self : Camera F)
    (x y : F) : (Camera.MouseOnUpdate fns self x y).fov = self.fov := by
  simp only [Camera.MouseOnUpdate]
  split_ifs <;> rfl

/-- C16: `Camera::MouseOnScrollback(xOffset, yOffset)` sets the field of view to `yOffset`
clamped to [1, 45], whatever the previous field of view and `xOffset` are; and in every camera
state reachable from the initial one by `OnUpdate`, `MouseOnUpdate` and `MouseOnScrollback`
calls the field of view lies in [1, 45] (exact arithmetic in any ordered field). -/
theorem MouseOnScrollback_fov_clamped {F : Type} [LinearOrderedField F] (fns : MathFns F) :
    (∀ (self : Camera F) (xOffset yOffset : F),
      (Camera.MouseOnScrollback self xOffset yOffset).fov = max 1 (min 45 yOffset)) ∧
    (∀ self : Camera F, Camera.Reachable fns self → 1 ≤ self.fov ∧ self.fov ≤ 45) := by
  refine ⟨MouseOnScrollback_fov_eq, ?_⟩
  intro self h
  induction h with
  | init => simp only [Camera.init]; norm_num
  | OnUpdate self window _ ih => rw [OnUpdate_fov]; exact ih
  | MouseOnUpdate self x y _ ih => rw [MouseOnUpdate_fov]; exact ih
  | MouseOnScrollback self x y _ _ =>
    rw [MouseOnScrollback_fov_eq]
    exact ⟨le_max_left _ _, max_le (by norm_num) (min_le_left _ _)⟩

/-- Witness for C16: after a scroll event with `yOffset` 100 the field of view is in
[1, 45]. -/
theorem MouseOnScrollback_fov_clamped_witness :
    Camera.Reachable ratFns (Camera.MouseOnScrollback (Camera.init : Camera ℚ) 0 100) ∧
    (1 ≤ (Camera.MouseOnScrollback (Camera.init : Camera ℚ) 0 100).fov ∧
      (Camera.MouseOnScrollback (Camera.init : Camera ℚ) 0 100).fov ≤ 45) :=
  ⟨Camera.Reachable.MouseOnScrollback _ 0 100 Camera.Reachable.init,
   (MouseOnScrollback_fov_clamped ratFns).2 _
     (Camera.Reachable.MouseOnScrollback _ 0 100 Camera.Reachable.init)⟩

/-! ## Vertex attributes and sampler names -/

/-- C19: of the vertex attribute calls `Mesh::SetupMesh` makes, none sets the pointer of
location 0: it enables location 0, then sets the pointer of location 1 to the 3-float position
at offset 0, enables location 1 and sets its pointer again to the normal, and enables and sets
location 2; so the enabled location 0 is left unconfigured and the position layout is
overwritten. -/
theorem SetupMesh_location_0_unconfigured {F : Type} (env : Env F) (t : Trace F)
    (vertices : List (Vertex F)) (indices : List Nat) (textures : List Texture) :
    ((Mesh.SetupMesh env t vertices indices textures).2.drop t.length).filter
        Event.isVertexAttrib =
      [.glEnableVertexAttribArray 0,
       .glVertexAttribPointer 1 3 GL_FLOAT false sizeofVertex 0,
       .glEnableVertexAttribArray 1,
       .glVertexAttribPointer 1 3 GL_FLOAT false sizeofVertex offsetofNormal,
       .glEnableVertexAttribArray 2,
       .glVertexAttribPointer 2 2 GL_FLOAT false sizeofVertex offsetofTexCoords] ∧
    ∀ e ∈ (Mesh.SetupMesh env t vertices indices textures).2.drop t.length,
      ∀ size type normalized stride pointer,
        e ≠ .glVertexAttribPointer 0 size type normalized stride pointer := by
  simp only [Mesh.SetupMesh, List.append_assoc, List.drop_left]
  constructor
  · simp [Event.isVertexAttrib]
  · intro e he size type normalized stride pointer hc
    subst hc
    simp at he

/-- C13: `Mesh::Draw` on a mesh with two textures of type `texture_normal` names the sampler
uniform `material.texture_normal` for both: no number is appended. -/
theorem Draw_normal_maps_unnumbered :
    Mesh.Draw loaderEnv normalMapsMesh { programID := 3 } [] =
      [.glActiveTexture 0x84C0,
       .glGetUniformLocation 3 "material.texture_normal" (-1), .glUniform1i (-1) 0,
       .glBindTexture GL_TEXTURE_2D 7,
       .glActiveTexture 0x84C1,
       .glGetUniformLocation 3 "material.texture_normal" (-1), .glUniform1i (-1) 1,
       .glBindTexture GL_TEXTURE_2D 8,
       .glActiveTexture GL_TEXTURE0, .glBindVertexArray 1,
       .glDrawElements GL_TRIANGLES 0 GL_UNSIGNED_INT 0, .glBindVertexArray 0] := by
  decide

/-! ## ModelTest.h -/

theorem scanLoaded_never_ends (loaded_textures : List Texture) (str : aiString) (j : Nat)
    (loaded : Texture) (hj : loaded_textures[j]? = some loaded)
    (hne : strcmpEq loaded.path str = false) :
    ∀ fuel i, ModelTest.Model.scanLoaded loaded_textures str fuel i j = none
  | 0, _ => rfl
  | fuel + 1, i => by
    simp only [ModelTest.Model.scanLoaded, hj, hne, Bool.false_eq_true, if_false]
    exact scanLoaded_never_ends loaded_textures str j loaded hj hne fuel _

/-- C17: with `brick.png` in `loaded_textures` and a material whose diffuse texture is
`wall.png`, `Model::LoadMaterialTexturesOptimized` of ModelTest.h does not return within any
number of iterations: the inner loop compares entry 0 with the path, increments `i` and
compares entry 0 again. -/
theorem LoadMaterialTexturesOptimized_never_returns (fuel : Nat) :
    ModelTest.Model.LoadMaterialTexturesOptimized loaderEnv fuel cachedTestModel []
      wallMaterial .DIFFUSE "texture_diffuse" = none := by
  cases fuel with
  | zero => rfl
  | succ fuel =>
    have h := scanLoaded_never_ends cachedTestModel.loaded_textures "wall.png" 0
      ⟨1, "texture_diffuse", "brick.png"⟩ rfl (by decide) fuel 0
    have hstr : (wallMaterial.texturesOf .DIFFUSE)[0]? = some "wall.png" := by decide
    simp only [ModelTest.Model.LoadMaterialTexturesOptimized,
      ModelTest.Model.LoadMaterialTexturesOptimizedLoop, hstr, h]

/-- C18: on a mesh with the single face (0, 1, 2), `Model::processMesh` of
modelLoadingTutorial-01.h yields the index list 0, 1, 2 and `Model::ProcessMesh` of
ModelTest.h yields 0, 0, 0: for face number `i` it pushes `mIndices[i]` once per index. -/
theorem ProcessMesh_index_lists_differ :
    (Model.processMesh loaderEnv emptyModel [] triangleMesh plainScene).andThen
        (fun r _ => .ok r.1.indices []) = .ok [0, 1, 2] [] ∧
    (ModelTest.Model.ProcessMesh loaderEnv 8 emptyTestModel [] triangleMesh plainScene).map
        (fun res => res.andThen (fun r _ => .ok r.1.indices [])) = some (.ok [0, 0, 0] []) := by
  decide

/-! ## Mesh::Draw -/

theorem Shader_Set_trace {F : Type} (env : Env F) (shader : Shader) (t : Trace F)
    (foo : String) (value : Int) :
    Shader.Set env shader t (C_Str foo) value =
      t ++ [.glGetUniformLocation shader.programID (C_Str foo)
              (env.glGetUniformLocation t shader.programID (C_Str foo)),
            .glUniform1i
              (toInt32 (toUInt32 (env.glGetUniformLocation t shader.programID (C_Str foo))))
              value] := by
  simp [Shader.Set, Shader.Get, C_Str_idem]

theorem toInt32_of_lt (n : Nat) (h : n < 2 ^ 31) : toInt32 n = (n : Int) := by
  unfold toInt32
  have h1 : n % 2 ^ 32 = n := Nat.mod_eq_of_lt (by omega)
  rw [h1, if_pos h]

theorem take_length_succ_append {α : Type} (pre : List α) (a : α) (rest : List α) :
    (pre ++ a :: rest).take (pre.length + 1) = pre ++ [a] := by
  rw [List.take_append_eq_append_take]
  simp

theorem sameTypeCount_at_length (pre rest : List Texture) (texture : Texture) :
    sameTypeCount (pre ++ texture :: rest) pre.length texture.type =
      (pre.filter (fun x => decide (x.type = texture.type))).length + 1 := by
  simp [sameTypeCount, take_length_succ_append, List.filter_append]

theorem drawLoop_spec {F : Type} (env : Env F) (shader : Shader) :
    ∀ (rest pre : List Texture) (t : Trace F), pre.length + rest.length < 2 ^ 31 →
      ∃ locations : List GLint, locations.length = rest.length ∧
        Mesh.drawLoop env shader rest pre.length
            (1 + (pre.filter (fun x => decide (x.type = "texture_diffuse"))).length)
            (1 + (pre.filter (fun x => decide (x.type = "texture_specular"))).length) t =
          t ++ (List.zip (List.enumFrom pre.length rest) locations).flatMap
            (fun p => drawTextureCalls shader (pre ++ rest) p.1.1 p.1.2 p.2)
  | [], pre, t, _ => ⟨[], rfl, by simp [Mesh.drawLoop]⟩
  | texture :: rest, pre, t, hlen => by
    simp only [List.length_cons] at hlen
    have hd := List.length_filter_le (fun x : Texture => decide (x.type = "texture_diffuse")) pre
    have hs := List.length_filter_le (fun x : Texture => decide (x.type = "texture_specular")) pre
    have hi : (pre.length + 1) % 2 ^ 32 = pre.length + 1 := Nat.mod_eq_of_lt (by omega)
    have hunit : (GL_TEXTURE0 + pre.length) % 2 ^ 32 = GL_TEXTURE0 + pre.length :=
      Nat.mod_eq_of_lt (by simp only [GL_TEXTURE0]; omega)
    have hint : toInt32 pre.length = (pre.length : Int) := toInt32_of_lt _ (by omega)
    have hcount := sameTypeCount_at_length pre rest texture
    obtain ⟨locations, hl, ih⟩ := drawLoop_spec env shader rest (pre ++ [texture])
      (t ++ drawTextureCalls shader (pre ++ texture :: rest) pre.length texture
        (env.glGetUniformLocation (t ++ [.glActiveTexture (GL_TEXTURE0 + pre.length)])
          shader.programID (C_Str (samplerName (pre ++ texture :: rest) pre.length texture.type))))
      (by rw [List.length_append, List.length_singleton]; omega)
    simp only [List.append_assoc, List.singleton_append, List.length_append,
      List.length_singleton] at ih
    refine ⟨env.glGetUniformLocation (t ++ [.glActiveTexture (GL_TEXTURE0 + pre.length)])
      shader.programID (C_Str (samplerName (pre ++ texture :: rest) pre.length texture.type))
      :: locations, by simp [hl], ?_⟩
    rw [List.enumFrom_cons, List.zip_cons_cons, List.flatMap_cons]
    simp only []
    rw [← ih, Mesh.drawLoop]
    by_cases h1 : texture.type = "texture_diffuse"
    · have hname : "material." ++ texture.type ++
          toString (1 + (pre.filter (fun x => decide (x.type = "texture_diffuse"))).length) =
          samplerName (pre ++ texture :: rest) pre.length texture.type := by
        simp only [samplerName, samplerNumber, h1, true_or, if_true]
        rw [← h1, hcount, h1, Nat.add_comm]
      have hd' : (1 + (pre.filter (fun x => decide (x.type = "texture_diffuse"))).length + 1)
          % 2 ^ 32 =
          1 + ((pre ++ [texture]).filter (fun x => decide (x.type = "texture_diffuse"))).length := by
        rw [Nat.mod_eq_of_lt (by omega)]
        simp [List.filter_append, List.filter_cons, h1]
        omega
      have hs' : ((pre ++ [texture]).filter
          (fun x => decide (x.type = "texture_specular"))).length =
          (pre.filter (fun x => decide (x.type = "texture_specular"))).length := by
        simp [List.filter_append, List.filter_cons, h1]
      simp only [h1, if_true] at hname ⊢
      rw [hi, hunit, hint, hd', hs', hname, Shader_Set_trace]
      simp [drawTextureCalls, h1]
    · by_cases h2 : texture.type = "texture_specular"
      · have hname : "material." ++ texture.type ++
            toString (1 + (pre.filter (fun x => decide (x.type = "texture_specular"))).length) =
            samplerName (pre ++ texture :: rest) pre.length texture.type := by
          simp only [samplerName, samplerNumber, h2, or_true, if_true]
          rw [← h2, hcount, h2, Nat.add_comm]
        have hs' : (1 + (pre.filter (fun x => decide (x.type = "texture_specular"))).length + 1)
            % 2 ^ 32 =
            1 + ((pre ++ [texture]).filter
              (fun x => decide (x.type = "texture_specular"))).length := by
          rw [Nat.mod_eq_of_lt (by omega)]
          simp [List.filter_append, List.filter_cons, h2]
          omega
        have hd' : ((pre ++ [texture]).filter
            (fun x => decide (x.type = "texture_diffuse"))).length =
            (pre.filter (fun x => decide (x.type = "texture_diffuse"))).length := by
          simp [List.filter_append, List.filter_cons, h1]
        simp only [h1, if_false]
        simp only [h2, if_true] at hname ⊢
        rw [hi, hunit, hint, hs', hd', hname, Shader_Set_trace]
        simp [drawTextureCalls, h2]
      · have hname : "material." ++ texture.type ++ "" =
            samplerName (pre ++ texture :: rest) pre.length texture.type := by
          simp [samplerName, samplerNumber, h1, h2]
        have hd' : ((pre ++ [texture]).filter
            (fun x => decide (x.type = "texture_diffuse"))).length =
            (pre.filter (fun x => decide (x.type = "texture_diffuse"))).length := by
          simp [List.filter_append, List.filter_cons, h1]
        have hs' : ((pre ++ [texture]).filter
            (fun x => decide (x.type = "texture_specular"))).length =
            (pre.filter (fun x => decide (x.type = "texture_specular"))).length := by
          simp [List.filter_append, List.filter_cons, h2]
        simp only [h1, h2, if_false]
        rw [hi, hunit, hint, hs', hd', hname, Shader_Set_trace]
        simp [drawTextureCalls]

theorem C_Str_eq_self (s : String) (h : ∀ c ∈ s.data, c ≠ Char.ofNat 0) : C_Str s = s := by
  unfold C_Str
  have h1 : s.data.takeWhile (fun c => decide (c ≠ Char.ofNat 0)) = s.data :=
    List.takeWhile_eq_self_iff.2 (fun c hc => by simpa using h c hc)
  rw [h1]

theorem digitChar_ne_nul (d : Nat) (h : d < 10) : Nat.digitChar d ≠ Char.ofNat 0 := by
  interval_cases d <;> decide

theorem toDigitsCore_ne_nul :
    ∀ (fuel n : Nat) (ds : List Char), (∀ c ∈ ds, c ≠ Char.ofNat 0) →
      ∀ c ∈ Nat.toDigitsCore 10 fuel n ds, c ≠ Char.ofNat 0
  | 0, _, ds, h => by simpa [Nat.toDigitsCore] using h
  | fuel + 1, n, ds, h => by
    have hd : ∀ c ∈ Nat.digitChar (n % 10) :: ds, c ≠ Char.ofNat 0 := by
      intro c hc
      rcases List.mem_cons.1 hc with rfl | hc
      · exact digitChar_ne_nul _ (Nat.mod_lt _ (by norm_num))
      · exact h c hc
    simp only [Nat.toDigitsCore]
    split_ifs
    · exact hd
    · exact toDigitsCore_ne_nul fuel (n / 10) _ hd

theorem toString_nat_ne_nul (n : Nat) : ∀ c ∈ (toString n).data, c ≠ Char.ofNat 0 :=
  toDigitsCore_ne_nul (n + 1) n [] (by simp)

/-- For a type without NUL character the C string of the sampler name is the name itself. -/
theorem C_Str_samplerName (textures : List Texture) (i : Nat) (type : String)
    (h : ∀ c ∈ type.data, c ≠ Char.ofNat 0) :
    C_Str (samplerName textures i type) = samplerName textures i type := by
  apply C_Str_eq_self
  intro c hc
  simp only [samplerName, String.data_append, List.mem_append] at hc
  rcases hc with (hc | hc) | hc
  · have hm : ∀ c ∈ "material.".data, c ≠ Char.ofNat 0 := by decide
    exact hm c hc
  · exact h c hc
  · unfold samplerNumber at hc
    split_ifs at hc
    · exact toString_nat_ne_nul _ c hc
    · simp at hc

/-- C12: for a mesh with fewer than 2 ^ 31 textures, `Mesh::Draw` makes, for each list position
`i` in order, the calls: activate texture unit `GL_TEXTURE0 + i`, look up the uniform named
"material." + type + N (as a C string; it is that very string when the type holds no NUL
character), set it to the integer `i`, bind the texture's id - where N is, for the types
`texture_diffuse` and `texture_specular`, the 1-based count of textures of that same type at
positions 0..i; then it activates `GL_TEXTURE0` and draws the elements. -/
theorem Draw_texture_units {F : Type} (env : Env F) (self : Mesh F) (shader : Shader)
    (t : Trace F) (h : self.textures.length < 2 ^ 31) :
    (∃ locations : List GLint, locations.length = self.textures.length ∧
      Mesh.Draw env self shader t =
        t ++ (List.zip self.textures.enum locations).flatMap
            (fun p => drawTextureCalls shader self.textures p.1.1 p.1.2 p.2)
          ++ [.glActiveTexture GL_TEXTURE0, .glBindVertexArray self.vao,
              .glDrawElements GL_TRIANGLES (toInt32 self.indices.length) GL_UNSIGNED_INT 0,
              .glBindVertexArray 0]) ∧
    (∀ i type, (∀ c ∈ type.data, c ≠ Char.ofNat 0) →
      C_Str (samplerName self.textures i type) =
        "material." ++ type ++
          (if type = "texture_diffuse" ∨ type = "texture_specular" then
            toString (sameTypeCount self.textures i type)
          else "")) := by
  constructor
  · obtain ⟨locations, hl, hloop⟩ := drawLoop_spec env shader self.textures [] t (by simpa using h)
    refine ⟨locations, hl, ?_⟩
    simp only [List.length_nil, List.filter_nil, Nat.add_zero, List.nil_append] at hloop
    simp [Mesh.Draw, hloop, List.enum]
  · intro i type hc
    rw [C_Str_samplerName _ _ _ hc]
    rfl

/-- Witness for C12: a mesh with the textures diffuse, specular, diffuse. -/
theorem Draw_texture_units_witness :
    texturedMesh.textures.length < 2 ^ 31 ∧
    ∃ locations : List GLint, locations.length = texturedMesh.textures.length ∧
      Mesh.Draw loaderEnv texturedMesh { programID := 3 } [] =
        [] ++ (List.zip texturedMesh.textures.enum locations).flatMap
            (fun p => drawTextureCalls { programID := 3 } texturedMesh.textures p.1.1 p.1.2 p.2)
          ++ [.glActiveTexture GL_TEXTURE0, .glBindVertexArray texturedMesh.vao,
              .glDrawElements GL_TRIANGLES (toInt32 texturedMesh.indices.length)
                GL_UNSIGNED_INT 0,
              .glBindVertexArray 0] :=
  ⟨by decide, (Draw_texture_units loaderEnv texturedMesh { programID := 3 } [] (by decide)).1⟩

/-- The calls of `Mesh::Draw` on the mesh with the textures diffuse, specular, diffuse. -/
theorem Draw_example :
    Mesh.Draw loaderEnv texturedMesh { programID := 3 } [] =
      [.glActiveTexture 0x84C0,
       .glGetUniformLocation 3 "material.texture_diffuse1" (-1), .glUniform1i (-1) 0,
       .glBindTexture GL_TEXTURE_2D 4,
       .glActiveTexture 0x84C1,
       .glGetUniformLocation 3 "material.texture_specular1" (-1), .glUniform1i (-1) 1,
       .glBindTexture GL_TEXTURE_2D 5,
       .glActiveTexture 0x84C2,
       .glGetUniformLocation 3 "material.texture_diffuse2" (-1), .glUniform1i (-1) 2,
       .glBindTexture GL_TEXTURE_2D 6,
       .glActiveTexture GL_TEXTURE0, .glBindVertexArray 1,
       .glDrawElements GL_TRIANGLES 0 GL_UNSIGNED_INT 0, .glBindVertexArray 0] := by
  decide

/-! ## Reachable camera states over the reals -/

theorem normalize_direction_of_pythagoras {F : Type} [LinearOrderedField F] (fns : MathFns F)
    (hsqrt : fns.sqrt 1 = 1) (hpyth : ∀ a, fns.sin a ^ 2 + fns.cos a ^ 2 = 1) (a b : F) :
    glm.normalize fns
      (⟨fns.cos a * fns.cos b, fns.sin b, fns.sin a * fns.cos b⟩ : Vec3 F) =
      ⟨fns.cos a * fns.cos b, fns.sin b, fns.sin a * fns.cos b⟩ := by
  have hdot : glm.dot (⟨fns.cos a * fns.cos b, fns.sin b, fns.sin a * fns.cos b⟩ : Vec3 F)
      ⟨fns.cos a * fns.cos b, fns.sin b, fns.sin a * fns.cos b⟩ = 1 := by
    simp only [glm.dot]
    linear_combination (fns.cos b ^ 2) * hpyth a + hpyth b
  simp [glm.normalize, glm.inversesqrt, hdot, hsqrt, Vec3.muls]

theorem MouseOnUpdate_front_of_pythagoras {F : Type} [LinearOrderedField F] (fns : MathFns F)
    (hsqrt : fns.sqrt 1 = 1) (hpyth : ∀ a, fns.sin a ^ 2 + fns.cos a ^ 2 = 1)
    (self : Camera F) (x y : F) :
    (Camera.MouseOnUpdate fns self x y).cameraFront =
      ⟨fns.cos (glm.radians (Camera.MouseOnUpdate fns self x y).yaw) *
          fns.cos (glm.radians (Camera.MouseOnUpdate fns self x y).pitch),
        fns.sin (glm.radians (Camera.MouseOnUpdate fns self x y).pitch),
        fns.sin (glm.radians (Camera.MouseOnUpdate fns self x y).yaw) *
          fns.cos (glm.radians (Camera.MouseOnUpdate fns self x y).pitch)⟩ := by
  simp only [Camera.MouseOnUpdate]
  split_ifs <;> exact normalize_direction_of_pythagoras fns hsqrt hpyth _ _

theorem MouseOnUpdate_pitch_range {F : Type} [LinearOrderedField F] (fns : MathFns F)
    (self : Camera F) (x y : F) :
    -89 ≤ (Camera.MouseOnUpdate fns self x y).pitch ∧
      (Camera.MouseOnUpdate fns self x y).pitch ≤ 89 := by
  simp only [Camera.MouseOnUpdate]
  split_ifs <;> dsimp only at * <;> constructor <;> linarith

theorem MouseOnUpdate_cameraUp {F : Type} [LinearOrderedField F] (fns : MathFns F)
    (self : Camera F) (x y : F) :
    (Camera.MouseOnUpdate fns self x y).cameraUp = self.cameraUp := by
  simp only [Camera.MouseOnUpdate]
  split_ifs <;> rfl

theorem OnUpdate_view {F : Type} [LinearOrderedField F] (fns : MathFns F) (self : Camera F)
    (window : GLFWwindow) :
    (Camera.OnUpdate fns self window).cameraFront = self.cameraFront ∧
    (Camera.OnUpdate fns self window).cameraUp = self.cameraUp ∧
    (Camera.OnUpdate fns self window).pitch = self.pitch := by
  unfold Camera.OnUpdate
  split_ifs <;> exact ⟨rfl, rfl, rfl⟩

theorem MouseOnScrollback_view {F : Type} [LinearOrderedField F] (self : Camera F)
    (x y : F) :
    (Camera.MouseOnScrollback self x y).cameraFront = self.cameraFront ∧
    (Camera.MouseOnScrollback self x y).cameraUp = self.cameraUp ∧
    (Camera.MouseOnScrollback self x y).pitch = self.pitch := by
  simp only [Camera.MouseOnScrollback]
  split_ifs <;> exact ⟨rfl, rfl, rfl⟩

theorem cos_radians_pos (pitch : ℝ) (hlo : -89 ≤ pitch) (hhi : pitch ≤ 89) :
    0 < Real.cos (glm.radians pitch) := by
  apply Real.cos_pos_of_mem_Ioo
  have hpi := Real.pi_gt_d2
  unfold glm.radians
  constructor <;> norm_num at hpi ⊢ <;> nlinarith

/-- The invariant of the reachable camera states in real arithmetic. -/
theorem reachable_view_invariant (self : Camera ℝ)
    (h : Camera.Reachable ⟨Real.sqrt, Real.cos, Real.sin⟩ self) :
    self.cameraUp = ⟨0, 1, 0⟩ ∧ -89 ≤ self.pitch ∧ self.pitch ≤ 89 ∧
    self.cameraFront.x ^ 2 + self.cameraFront.z ^ 2 = Real.cos (glm.radians self.pitch) ^ 2 := by
  induction h with
  | init =>
    refine ⟨rfl, ?_, ?_, ?_⟩ <;> simp [Camera.init, glm.radians]
  | OnUpdate self window _ ih =>
    obtain ⟨h1, h2, h3⟩ := OnUpdate_view ⟨Real.sqrt, Real.cos, Real.sin⟩ self window
    rw [h1, h2, h3]
    exact ih
  | MouseOnScrollback self x y _ ih =>
    obtain ⟨h1, h2, h3⟩ := MouseOnScrollback_view self x y
    rw [h1, h2, h3]
    exact ih
  | MouseOnUpdate self x y _ ih =>
    obtain ⟨hlo, hhi⟩ := MouseOnUpdate_pitch_range ⟨Real.sqrt, Real.cos, Real.sin⟩ self x y
    refine ⟨by rw [MouseOnUpdate_cameraUp]; exact ih.1, hlo, hhi, ?_⟩
    rw [MouseOnUpdate_front_of_pythagoras ⟨Real.sqrt, Real.cos, Real.sin⟩ Real.sqrt_one
      Real.sin_sq_add_cos_sq self x y]
    simp only []
    linear_combination
      (Real.cos (glm.radians
        (Camera.MouseOnUpdate ⟨Real.sqrt, Real.cos, Real.sin⟩ self x y).pitch) ^ 2) *
      Real.sin_sq_add_cos_sq (glm.radians
        (Camera.MouseOnUpdate ⟨Real.sqrt, Real.cos, Real.sin⟩ self x y).yaw)

/-- C20: in every camera state reachable from the initial state by `MouseOnUpdate`,
`MouseOnScrollback` and `OnUpdate` calls (exact real arithmetic), `cameraUp` is (0, 1, 0),
`pitch` lies in [-89, 89], the length of cross(cameraFront, cameraUp) - the square root that
`glm::normalize` inverts when strafing with A or D - equals cos(rad(pitch)) and is positive,
and the cross product is not the zero vector. -/
theorem strafe_normalisation_defined (self : Camera ℝ)
    (h : Camera.Reachable ⟨Real.sqrt, Real.cos, Real.sin⟩ self) :
    self.cameraUp = ⟨0, 1, 0⟩ ∧ -89 ≤ self.pitch ∧ self.pitch ≤ 89 ∧
    Real.sqrt (glm.dot (glm.cross self.cameraFront self.cameraUp)
        (glm.cross self.cameraFront self.cameraUp)) = Real.cos (glm.radians self.pitch) ∧
    0 < Real.cos (glm.radians self.pitch) ∧
    glm.cross self.cameraFront self.cameraUp ≠ ⟨0, 0, 0⟩ := by
  obtain ⟨hup, hlo, hhi, hlen⟩ := reachable_view_invariant self h
  have hcos := cos_radians_pos self.pitch hlo hhi
  have hdot : glm.dot (glm.cross self.cameraFront self.cameraUp)
      (glm.cross self.cameraFront self.cameraUp) = Real.cos (glm.radians self.pitch) ^ 2 := by
    rw [← hlen, hup]
    simp only [glm.dot, glm.cross]
    ring
  refine ⟨hup, hlo, hhi, ?_, hcos, ?_⟩
  · rw [hdot, Real.sqrt_sq (le_of_lt hcos)]
  · intro hzero
    rw [hzero] at hdot
    simp only [glm.dot, mul_zero, add_zero] at hdot
    have : 0 < Real.cos (glm.radians self.pitch) ^ 2 := by positivity
    linarith

/-- Witness for C20: the state after the first two cursor events. -/
theorem strafe_normalisation_defined_witness :
    Camera.Reachable ⟨Real.sqrt, Real.cos, Real.sin⟩
      (Camera.MouseOnUpdate ⟨Real.sqrt, Real.cos, Real.sin⟩
        (Camera.MouseOnUpdate ⟨Real.sqrt, Real.cos, Real.sin⟩ Camera.init 400 300) 500 100) ∧
    glm.cross
        (Camera.MouseOnUpdate ⟨Real.sqrt, Real.cos, Real.sin⟩
          (Camera.MouseOnUpdate ⟨Real.sqrt, Real.cos, Real.sin⟩ Camera.init 400 300)
          500 100).cameraFront
        (Camera.MouseOnUpdate ⟨Real.sqrt, Real.cos, Real.sin⟩
          (Camera.MouseOnUpdate ⟨Real.sqrt, Real.cos, Real.sin⟩ Camera.init 400 300)
          500 100).cameraUp ≠ ⟨0, 0, 0⟩ :=
  ⟨Camera.Reachable.MouseOnUpdate _ 500 100
     (Camera.Reachable.MouseOnUpdate _ 400 300 Camera.Reachable.init),
   (strafe_normalisation_defined _
     (Camera.Reachable.MouseOnUpdate _ 500 100
       (Camera.Reachable.MouseOnUpdate _ 400 300 Camera.Reachable.init))).2.2.2.2.2⟩


/-! ## Pitch bound in every reachable state -/

/-- C21: every `MouseOnUpdate` call leaves `pitch` in [-89, 89] whatever the state and the
cursor position, and every camera state reachable from the initial state by `OnUpdate`,
`MouseOnUpdate` and `MouseOnScrollback` calls has `pitch` in [-89, 89]. -/
theorem Reachable_pitch_bound {F : Type} [LinearOrderedField F] (fns : MathFns F) :
    (∀ (self : Camera F) (x y : F),
      -89 ≤ (Camera.MouseOnUpdate fns self x y).pitch ∧
        (Camera.MouseOnUpdate fns self x y).pitch ≤ 89) ∧
    (∀ self : Camera F, Camera.Reachable fns self → -89 ≤ self.pitch ∧ self.pitch ≤ 89) := by
  refine ⟨MouseOnUpdate_pitch_range fns, ?_⟩
  intro self h
  induction h with
  | init => constructor <;> simp [Camera.init]
  | OnUpdate self window _ ih =>
    rw [(OnUpdate_view fns self window).2.2]
    exact ih
  | MouseOnUpdate self x y _ _ => exact MouseOnUpdate_pitch_range fns self x y
  | MouseOnScrollback self x y _ ih =>
    rw [(MouseOnScrollback_view self x y).2.2]
    exact ih

/-- Witness for C21: after the first cursor event at (400, 300) and a second one 5300 pixels
higher, the reachable state has its pitch in [-89, 89]. -/
theorem Reachable_pitch_bound_witness :
    Camera.Reachable ratFns
        (Camera.MouseOnUpdate ratFns (Camera.MouseOnUpdate ratFns Camera.init 400 300)
          400 (-5000)) ∧
      -89 ≤ (Camera.MouseOnUpdate ratFns (Camera.MouseOnUpdate ratFns Camera.init 400 300)
          400 (-5000)).pitch ∧
      (Camera.MouseOnUpdate ratFns (Camera.MouseOnUpdate ratFns Camera.init 400 300)
          400 (-5000)).pitch ≤ 89 :=
  ⟨.MouseOnUpdate _ _ _ (.MouseOnUpdate _ _ _ .init),
    (Reachable_pitch_bound ratFns).2 _ (.MouseOnUpdate _ _ _ (.MouseOnUpdate _ _ _ .init))⟩

/-! ## The pixel format of a 2-channel image -/

/-- With 1, 3 or 4 channels both loaders pass the format assigned from the channel count. -/
theorem LoadTexture_format_assigned {F : Type} (env : Env F) (t : Trace F) (w h : Int)
    (channels : Int) (format : GLenum)
    (hformat : (channels = 1 ∧ format = GL_RED) ∨ (channels = 3 ∧ format = GL_RGB) ∨
      (channels = 4 ∧ format = GL_RGBA)) :
    (∀ file dir : String,
      env.stbi_load (t ++ [.glGenTextures 1 (env.glGen t % 2 ^ 32)]) (dir ++ "/" ++ file) =
        some ⟨w, h, channels⟩ →
      ∃ id t', LoadTextureFromFileAsset env t file dir = .ok id t' ∧
        Event.glTexImage2D GL_TEXTURE_2D 0 (some format) w h 0 (some format) GL_UNSIGNED_BYTE ∈
          t') ∧
    (∀ (filepath : String) (TextureType : GLenum),
      env.stbi_load (t ++ [.glGenTextures 1 (env.glGen t % 2 ^ 32)]) (C_Str filepath) =
        some ⟨w, h, channels⟩ →
      ∃ id t', LoadTexture env t filepath TextureType = .ok id t' ∧
        Event.glTexImage2D TextureType 0 (some format) w h 0 (some format) GL_UNSIGNED_BYTE ∈
          t') := by
  constructor
  · intro file dir hload
    unfold LoadTextureFromFileAsset
    simp only [hload]
    rcases hformat with ⟨rfl, rfl⟩ | ⟨rfl, rfl⟩ | ⟨rfl, rfl⟩ <;> exact ⟨_, _, rfl, by simp⟩
  · intro filepath TextureType hload
    unfold LoadTexture
    simp only [hload]
    rcases hformat with ⟨rfl, rfl⟩ | ⟨rfl, rfl⟩ | ⟨rfl, rfl⟩ <;> exact ⟨_, _, rfl, by simp⟩

/-- C23: when `stbi_load` reports 2 channels, `LoadTextureFromFileAsset` and `LoadTexture` both
return normally after a `glTexImage2D` call whose internal format and format are the
unassigned local `format` (recorded as `none`). -/
theorem LoadTexture_two_channels_format_unassigned {F : Type} (env : Env F) (t : Trace F)
    (w h : Int) :
    (∀ file dir : String,
      env.stbi_load (t ++ [.glGenTextures 1 (env.glGen t % 2 ^ 32)]) (dir ++ "/" ++ file) =
        some ⟨w, h, 2⟩ →
      ∃ id t', LoadTextureFromFileAsset env t file dir = .ok id t' ∧
        Event.glTexImage2D GL_TEXTURE_2D 0 none w h 0 none GL_UNSIGNED_BYTE ∈ t') ∧
    (∀ (filepath : String) (TextureType : GLenum),
      env.stbi_load (t ++ [.glGenTextures 1 (env.glGen t % 2 ^ 32)]) (C_Str filepath) =
        some ⟨w, h, 2⟩ →
      ∃ id t', LoadTexture env t filepath TextureType = .ok id t' ∧
        Event.glTexImage2D TextureType 0 none w h 0 none GL_UNSIGNED_BYTE ∈ t') := by
  constructor
  · intro file dir hload
    unfold LoadTextureFromFileAsset
    simp only [hload]
    exact ⟨_, _, rfl, by simp⟩
  · intro filepath TextureType hload
    unfold LoadTexture
    simp only [hload]
    exact ⟨_, _, rfl, by simp⟩

/-- Witness for C23: in an environment where every image has 2 channels, loading
`assets/brick.png` and loading `container.png` both reach `glTexImage2D` with no format. -/
theorem LoadTexture_two_channels_format_unassigned_witness :
    (∃ id t', LoadTextureFromFileAsset greyAlphaEnv [] "brick.png" "assets" = .ok id t' ∧
        Event.glTexImage2D GL_TEXTURE_2D 0 none 4 4 0 none GL_UNSIGNED_BYTE ∈ t') ∧
    (∃ id t', LoadTexture greyAlphaEnv [] "container.png" GL_TEXTURE_2D = .ok id t' ∧
        Event.glTexImage2D GL_TEXTURE_2D 0 none 4 4 0 none GL_UNSIGNED_BYTE ∈ t') :=
  ⟨(LoadTexture_two_channels_format_unassigned greyAlphaEnv [] 4 4).1 "brick.png" "assets" rfl,
    (LoadTexture_two_channels_format_unassigned greyAlphaEnv [] 4 4).2 "container.png"
      GL_TEXTURE_2D rfl⟩

/-! ## The texture cache keeps the first type -/

theorem find_loaded_of_mem {F : Type} (self : Model F) (str : String) (cached : Texture)
    (hinv : self.PathsDistinct) (hmem : cached ∈ self.textures_loaded)
    (hpath : C_Str cached.path = C_Str str) :
    self.textures_loaded.find? (fun loaded => strcmpEq loaded.path str) = some cached := by
  have hsome : (self.textures_loaded.find? (fun loaded => strcmpEq loaded.path str)).isSome := by
    rw [List.find?_isSome]
    exact ⟨cached, hmem, by simp [strcmpEq, hpath]⟩
  obtain ⟨x, hx⟩ := Option.isSome_iff_exists.mp hsome
  have hxmem := List.mem_of_find?_eq_some hx
  have hxp := List.find?_some hx
  simp only [strcmpEq, decide_eq_true_eq] at hxp
  have h1 : x.path = cached.path := by
    rw [← hinv.2 x.path (List.mem_map_of_mem _ hxmem),
      ← hinv.2 cached.path (List.mem_map_of_mem _ hmem), hxp, hpath]
  rw [hx, List.inj_on_of_nodup_map hinv.1 hxmem hmem h1]

/-- C24: when the path requested from `Model::loadMaterialTextures` compares equal to the path
of an entry of `textures_loaded` (whose paths are pairwise distinct), the loop appends that
stored entry, with its stored id and type, and loads nothing, whatever `typeName` is; for a
material with that single texture the call returns the stored entry and leaves the model and
the trace unchanged. -/
theorem loadMaterialTextures_returns_cached {F : Type} (env : Env F) (self : Model F)
    (t : Trace F) (typeName : String) (str : aiString) (cached : Texture)
    (hinv : self.PathsDistinct) (hmem : cached ∈ self.textures_loaded)
    (hpath : C_Str cached.path = C_Str str) :
    (∀ (rest : List aiString) (textures : List Texture),
      Model.loadMaterialTexturesLoop env typeName (str :: rest) textures self t =
        Model.loadMaterialTexturesLoop env typeName rest (textures ++ [cached]) self t) ∧
    (∀ (mat : aiMaterial) (type : aiTextureType), mat.texturesOf type = [str] →
      Model.loadMaterialTextures env self t mat type typeName = .ok ([cached], self) t) := by
  have hfind := find_loaded_of_mem self str cached hinv hmem hpath
  constructor
  · intro rest textures
    rw [Model.loadMaterialTexturesLoop, hfind]
  · intro mat type hmat
    rw [Model.loadMaterialTextures, hmat, Model.loadMaterialTexturesLoop, hfind]
    rfl

/-- Witness for C24: `brick.png`, loaded as `texture_diffuse` with id 7, is returned with id 7
and type `texture_diffuse` when requested as `texture_specular`. -/
theorem loadMaterialTextures_returns_cached_witness :
    Model.loadMaterialTextures loaderEnv brickModel [] shinyMaterial .SPECULAR
        "texture_specular" =
      .ok ([⟨7, "texture_diffuse", "brick.png"⟩], brickModel) [] :=
  (loadMaterialTextures_returns_cached loaderEnv brickModel [] "texture_specular" "brick.png"
    ⟨7, "texture_diffuse", "brick.png"⟩ ⟨by decide, by decide⟩ (by decide) (by decide)).2
    shinyMaterial .SPECULAR (by decide)

/-! ## Index buffers of the examples -/

/-- C25: `ShaderAttribExample` and `ShaderClassExample` upload the index buffer
{0, 1, 3, 1, 2, 3} next to a vertex buffer of 3 vertices, so index 3 refers to no vertex; the
index buffers of `IndexBufferExample`, `ShadersExample`, `TextureExample` and the three
skyboxes stay below their vertex counts. -/
theorem ShaderClassExample_index_out_of_range :
    ShaderClassExample.geometry.vertexCount = 3 ∧ 3 ∈ ShaderClassExample.geometry.indices ∧
    ShaderAttribExample.geometry.vertexCount = 3 ∧ 3 ∈ ShaderAttribExample.geometry.indices ∧
    (indexedExamples.filter fun entry => !entry.2.indicesInRange).map Prod.fst =
      ["ShaderAttribExample", "ShaderClassExample"] := by
  decide


/-! ## The first cursor event -/

/-- C26 (as stated): pressing S in the second call does not restore `cameraPos` when W is
still pressed: from the initial state, W and then W with S moves the camera from (0, 0, 3)
to (0, 0, 2.9). -/
theorem OnUpdate_W_then_S_fails :
    ¬ (∀ (self : Camera ℚ) (first second : GLFWwindow),
        glm.cross self.cameraFront self.cameraUp ≠ ⟨0, 0, 0⟩ →
        first.glfwGetKey GLFW_KEY_W = GLFW_PRESS →
        second.glfwGetKey GLFW_KEY_S = GLFW_PRESS →
        (Camera.OnUpdate ratFns (Camera.OnUpdate ratFns self first) second).cameraPos =
          self.cameraPos) := by
  intro h
  have hpos := h Camera.init windowW windowWS (by simp [glm.cross, Camera.init]) (by decide)
    (by decide)
  simp [Camera.OnUpdate, windowW, windowWS, Camera.init, Vec3.add, Vec3.smul,
    Camera.cameraSpeed, GLFW_KEY_W, GLFW_KEY_S, GLFW_PRESS] at hpos
  norm_num at hpos

/-- C26 (amended): with no mouse event in between, `OnUpdate` with W pressed followed by
`OnUpdate` with S pressed and W released restores `cameraPos` exactly; and for a state with
cross(cameraFront, cameraUp) non-zero, `OnUpdate` with A pressed (W, S released) followed by
`OnUpdate` with D pressed (W, S, A released) restores `cameraPos` exactly. -/
theorem OnUpdate_opposite_keys_restore {F : Type} [LinearOrderedField F] (fns : MathFns F)
    (self : Camera F) (first second : GLFWwindow) :
    (first.glfwGetKey GLFW_KEY_W = GLFW_PRESS →
      second.glfwGetKey GLFW_KEY_W ≠ GLFW_PRESS → second.glfwGetKey GLFW_KEY_S = GLFW_PRESS →
      (Camera.OnUpdate fns (Camera.OnUpdate fns self first) second).cameraPos =
        self.cameraPos) ∧
    (glm.cross self.cameraFront self.cameraUp ≠ ⟨0, 0, 0⟩ →
      first.glfwGetKey GLFW_KEY_W ≠ GLFW_PRESS → first.glfwGetKey GLFW_KEY_S ≠ GLFW_PRESS →
      first.glfwGetKey GLFW_KEY_A = GLFW_PRESS →
      second.glfwGetKey GLFW_KEY_W ≠ GLFW_PRESS → second.glfwGetKey GLFW_KEY_S ≠ GLFW_PRESS →
      second.glfwGetKey GLFW_KEY_A ≠ GLFW_PRESS → second.glfwGetKey GLFW_KEY_D = GLFW_PRESS →
      (Camera.OnUpdate fns (Camera.OnUpdate fns self first) second).cameraPos =
        self.cameraPos) := by
  constructor
  · intro hW1 hW2 hS2
    simp [Camera.OnUpdate, hW1, hW2, hS2, Vec3.add, Vec3.sub]
  · intro _ hW1 hS1 hA1 hW2 hS2 hA2 hD2
    simp [Camera.OnUpdate, hW1, hS1, hA1, hW2, hS2, hA2, hD2, Vec3.add, Vec3.sub]

/-- Witness for C26 (amended): from the initial state, W then S, and A then D, both bring the
camera back to (0, 0, 3). -/
theorem OnUpdate_opposite_keys_restore_witness :
    (Camera.OnUpdate ratFns (Camera.OnUpdate ratFns Camera.init windowW) windowS).cameraPos =
      ⟨0, 0, 3⟩ ∧
    (Camera.OnUpdate ratFns (Camera.OnUpdate ratFns Camera.init windowA) windowD).cameraPos =
      ⟨0, 0, 3⟩ :=
  ⟨(OnUpdate_opposite_keys_restore ratFns Camera.init windowW windowS).1 (by decide) (by decide)
      (by decide),
    (OnUpdate_opposite_keys_restore ratFns Camera.init windowA windowD).2
      (by simp [glm.cross, Camera.init]) (by decide) (by decide) (by decide) (by decide)
      (by decide) (by decide) (by decide)⟩


/-! ## The render loop of CameraClassExample -/

theorem cubeLoop_spec {F : Type} [LinearOrderedField F] (env : Env F) (mat : GlmFns F)
    (locals : CameraClassExample.Locals) :
    ∀ (remaining i : Nat) (t : Trace F), i + remaining ≤ 10 →
      ∃ locations : List GLint, locations.length = remaining ∧
        CameraClassExample.cubeLoop env mat locals remaining i t =
          .ok () (t ++ CameraClassExample.cubeCalls mat locals.shader.programID i
            (((CameraClassExample.cubePositions : List (Vec3 F)).drop i).take remaining)
            locations) := by
  intro remaining
  induction remaining with
  | zero =>
    intro i t _
    exact ⟨[], rfl, by simp [CameraClassExample.cubeLoop, CameraClassExample.cubeCalls]⟩
  | succ n ih =>
    intro i t hi
    have hlen : (CameraClassExample.cubePositions : List (Vec3 F)).length = 10 := rfl
    have hlt : i < (CameraClassExample.cubePositions : List (Vec3 F)).length := by omega
    have hmodel : C_Str "model" = "model" := by decide
    obtain ⟨locations, hlocs, hloop⟩ := ih (i + 1)
      (Shader.SetMatrix env locals.shader t "model"
        (mat.rotate (mat.translate Mat4.identity
          ((CameraClassExample.cubePositions : List (Vec3 F)).get ⟨i, hlt⟩))
          (glm.radians (20 * (i : F))) ⟨1, 3 / 10, 5 / 10⟩) ++
        [.glDrawArrays GL_TRIANGLES 0 36]) (by omega)
    refine ⟨env.glGetUniformLocation t locals.shader.programID "model" :: locations, ?_, ?_⟩
    · simp [hlocs]
    · rw [CameraClassExample.cubeLoop, List.getElem?_eq_getElem hlt]
      simp only [List.get_eq_getElem] at hloop
      simp only [hloop]
      rw [List.drop_eq_getElem_cons hlt, List.take_succ_cons]
      simp [CameraClassExample.cubeCalls, Shader.SetMatrix, Shader.Get, hmodel,
        List.enumFrom_cons]

theorem cubeCalls_draw_count {F : Type} [LinearOrderedField F] (mat : GlmFns F)
    (program : GLuint) (locations : List GLint) :
    ∀ (positions : List (Vec3 F)) (first : Nat), positions.length = locations.length →
      ((CameraClassExample.cubeCalls mat program first positions locations).filter
        Event.isDrawCall).length = positions.length := by
  induction locations with
  | nil =>
    intro positions first h
    simp at h
    simp [h, CameraClassExample.cubeCalls]
  | cons location locations ih =>
    intro positions first h
    cases positions with
    | nil => simp at h
    | cons position positions =>
      have h1 := ih positions (first + 1) (by simpa using h)
      simp only [CameraClassExample.cubeCalls] at h1
      simp [CameraClassExample.cubeCalls, List.enumFrom_cons, Event.isDrawCall, h1]


/-- C27: a pass of the `while` loop of `CameraClassExample` with the window not closing.  When
ESC is not pressed the pass clears the buffers, runs the keyboard-driven camera update, binds
the program, uploads the view matrix of the updated camera and the projection matrix, binds
the two textures and the vertex array, then for each of the 10 elements of `cubePositions`,
in order, uploads the model matrix translated to that element and rotated by 20 * i degrees
and calls `glDrawArrays(GL_TRIANGLES, 0, 36)` (10 draw calls), then calls `glfwSwapBuffers`
and `glfwPollEvents` once each, and the loop goes on with the next frame.  When ESC is
pressed the pass issues only the two clear calls and the loop ends. -/
theorem mainLoop_iteration {F : Type} [LinearOrderedField F] (env : Env F) (fns : MathFns F)
    (mat : GlmFns F) (locals : CameraClassExample.Locals)
    (globals : CameraClassExample.Globals F) (frame : Frame F) (frames : List (Frame F))
    (t : Trace F) (hopen : frame.glfwWindowShouldClose = false) :
    (frame.window.glfwGetKey GLFW_KEY_ESCAPE ≠ GLFW_PRESS →
      ∃ (viewLocation projectionLocation : GLint) (locations : List GLint),
        locations.length = 10 ∧
        ((CameraClassExample.cubeCalls mat locals.shader.programID 0
            CameraClassExample.cubePositions locations).filter Event.isDrawCall).length = 10 ∧
        CameraClassExample.mainLoop env fns mat locals (frame :: frames) globals t =
          CameraClassExample.mainLoop env fns mat locals frames
            { CameraClassExample.afterKeys fns globals frame with
              camera :=
                frame.callbacks.foldl (CameraClassExample.callback fns)
                  (CameraClassExample.afterKeys fns globals frame).camera }
            (t ++
              [.glClearColor (1 / 10) (1 / 10) (1 / 10) 1,
               .glClear (GL_COLOR_BUFFER_BIT ||| GL_DEPTH_BUFFER_BIT),
               .glUseProgram locals.shader.programID,
               .glGetUniformLocation locals.shader.programID "view" viewLocation,
               .glUniformMatrix4fv (toInt32 (toUInt32 viewLocation)) 1 false
                 ((CameraClassExample.afterKeys fns globals frame).camera.GetViewMatrix mat),
               .glGetUniformLocation locals.shader.programID "projection" projectionLocation,
               .glUniformMatrix4fv (toInt32 (toUInt32 projectionLocation)) 1 false
                 ((CameraClassExample.afterKeys fns globals frame).camera.GetProjectionMatrix
                   mat),
               .glBindTexture GL_TEXTURE_2D locals.brickTextureID,
               .glBindTexture GL_TEXTURE_2D locals.containerTextureID,
               .glBindVertexArray locals.vao] ++
              CameraClassExample.cubeCalls mat locals.shader.programID 0
                CameraClassExample.cubePositions locations ++
              [.glfwSwapBuffers, .glfwPollEvents])) ∧
    (frame.window.glfwGetKey GLFW_KEY_ESCAPE = GLFW_PRESS →
      CameraClassExample.mainLoop env fns mat locals (frame :: frames) globals t =
        .ok (CameraClassExample.afterKeys fns globals frame, true)
          (t ++
            [.glClearColor (1 / 10) (1 / 10) (1 / 10) 1,
             .glClear (GL_COLOR_BUFFER_BIT ||| GL_DEPTH_BUFFER_BIT)])) := by
  have hview : C_Str "view" = "view" := by decide
  have hprojection : C_Str "projection" = "projection" := by decide
  constructor
  · intro hesc
    let camera := Camera.OnUpdate fns globals.camera frame.window
    let t1 : Trace F :=
      Shader.Bind locals.shader
        (t ++ [.glClearColor (1 / 10) (1 / 10) (1 / 10) 1] ++
          [.glClear (GL_COLOR_BUFFER_BIT ||| GL_DEPTH_BUFFER_BIT)])
    let t2 : Trace F := Shader.SetMat4 env locals.shader t1 "view" (camera.GetViewMatrix mat)
    let t3 : Trace F :=
      Shader.SetMatrix env locals.shader t2 "projection" (camera.GetProjectionMatrix mat) ++
        [.glBindTexture GL_TEXTURE_2D locals.brickTextureID] ++
        [.glBindTexture GL_TEXTURE_2D locals.containerTextureID] ++
        [.glBindVertexArray locals.vao]
    obtain ⟨locations, hlen, hloop⟩ := cubeLoop_spec env mat locals 10 0 t3 (by omega)
    have htake : (((CameraClassExample.cubePositions : List (Vec3 F)).drop 0).take 10) =
        CameraClassExample.cubePositions := rfl
    rw [htake] at hloop
    refine ⟨env.glGetUniformLocation t1 locals.shader.programID "view",
      env.glGetUniformLocation t2 locals.shader.programID "projection", locations, hlen,
      ?_, ?_⟩
    · rw [cubeCalls_draw_count mat _ locations _ 0 (by rw [hlen]; rfl)]
      rfl
    · rw [CameraClassExample.mainLoop]
      simp only [hopen, Bool.false_eq_true, if_false, CameraClassExample.loopBody, hesc]
      have hloop1 : CameraClassExample.cubeLoop env mat locals 10 0 t3 = _ := hloop
      simp only [t3, t2, t1, camera] at hloop1
      simp only [hloop1, Res.andThen, if_true]
      simp [CameraClassExample.afterKeys, Shader.SetMatrix, Shader.SetMat4, Shader.Get,
        Shader.Bind, hview, hprojection, t1, t2, camera]
  · intro hesc
    rw [CameraClassExample.mainLoop]
    simp [hopen, CameraClassExample.loopBody, hesc, Res.andThen, CameraClassExample.afterKeys]

/-- Witness for C27: from the initial globals, a frame with W pressed is drawn in full and the
loop goes on; a frame with ESC pressed ends the loop after the two clear calls. -/
theorem mainLoop_iteration_witness :
    (∃ (viewLocation projectionLocation : GLint) (locations : List GLint),
        locations.length = 10 ∧
        ((CameraClassExample.cubeCalls recordingGlm exampleLocals.shader.programID 0
            CameraClassExample.cubePositions locations).filter Event.isDrawCall).length = 10 ∧
        CameraClassExample.mainLoop loaderEnv ratFns recordingGlm exampleLocals
            [frameW, frameEscape] startGlobals [] =
          CameraClassExample.mainLoop loaderEnv ratFns recordingGlm exampleLocals [frameEscape]
            { CameraClassExample.afterKeys ratFns startGlobals frameW with
              camera :=
                frameW.callbacks.foldl (CameraClassExample.callback ratFns)
                  (CameraClassExample.afterKeys ratFns startGlobals frameW).camera }
            ([] ++
              [.glClearColor (1 / 10) (1 / 10) (1 / 10) 1,
               .glClear (GL_COLOR_BUFFER_BIT ||| GL_DEPTH_BUFFER_BIT),
               .glUseProgram exampleLocals.shader.programID,
               .glGetUniformLocation exampleLocals.shader.programID "view" viewLocation,
               .glUniformMatrix4fv (toInt32 (toUInt32 viewLocation)) 1 false
                 ((CameraClassExample.afterKeys ratFns startGlobals frameW).camera.GetViewMatrix
                   recordingGlm),
               .glGetUniformLocation exampleLocals.shader.programID "projection"
                 projectionLocation,
               .glUniformMatrix4fv (toInt32 (toUInt32 projectionLocation)) 1 false
                 ((CameraClassExample.afterKeys ratFns startGlobals
                   frameW).camera.GetProjectionMatrix recordingGlm),
               .glBindTexture GL_TEXTURE_2D exampleLocals.brickTextureID,
               .glBindTexture GL_TEXTURE_2D exampleLocals.containerTextureID,
               .glBindVertexArray exampleLocals.vao] ++
              CameraClassExample.cubeCalls recordingGlm exampleLocals.shader.programID 0
                CameraClassExample.cubePositions locations ++
              [.glfwSwapBuffers, .glfwPollEvents])) ∧
    CameraClassExample.mainLoop loaderEnv ratFns recordingGlm exampleLocals [frameEscape]
        startGlobals [] =
      .ok (CameraClassExample.afterKeys ratFns startGlobals frameEscape, true)
        ([] ++
          [.glClearColor (1 / 10) (1 / 10) (1 / 10) 1,
           .glClear (GL_COLOR_BUFFER_BIT ||| GL_DEPTH_BUFFER_BIT)]) :=
  ⟨(mainLoop_iteration loaderEnv ratFns recordingGlm exampleLocals startGlobals frameW
      [frameEscape] [] rfl).1 (by decide),
    (mainLoop_iteration loaderEnv ratFns recordingGlm exampleLocals startGlobals frameEscape
      [] [] rfl).2 (by decide)⟩


end OpenGLTutorials
